import Mathlib

/-!
# Verification of the kanoodle-solver core

Shallow embedding of the kanoodle-solver Rust sources (`pieces.rs`,
`board.rs`, `placements.rs`, `solver.rs`) together with proofs settling the
frozen claims about the program.

Machine integers (`usize`) are modelled as `Nat`; where the Rust code relies
on wrapping subtraction (`wrapping_sub`, or plain subtraction compiled in
release mode) the embedding computes modulo `2^64` explicitly.
-/

namespace Kanoodle

/-- `2^64`, the modulus of Rust's 64-bit `usize` arithmetic. -/
def U64 : Nat := 18446744073709551616

/-- Wrapping subtraction `a.wrapping_sub b` on `usize` (both operands below
`2^64` in every use the program makes). -/
def wsub (a b : Nat) : Nat := (a + (U64 - b % U64)) % U64

/-! ## Shape layers (`pieces.rs`, `define_layers!(ShapeLayers, bool, false, ...)`)

The Rust `ShapeLayers` is a tuple struct of five square bool matrices of
sizes 5,4,3,2,1.  We embed it as a list of layers, each a list of rows; the
sizes are fixed by the type in Rust, so they are a constant table here. -/

/-- Per-layer `(rows, cols)` of `ShapeLayers`: 5×5, 4×4, 3×3, 2×2, 1×1. -/
def shapeLayerDims : List (Nat × Nat) := [(5,5), (4,4), (3,3), (2,2), (1,1)]

/-- `ShapeLayers::layer_count()`. -/
def shapeLayerCount : Nat := 5

/-- `ShapeLayers::dimensions(layer)`. -/
def shapeDimensions (layer : Nat) : Nat × Nat := shapeLayerDims.getD layer (0, 0)

/-- The cell storage of a shape: five square bool layers. -/
abbrev ShapeGrid := List (List (List Bool))

/-- `Layers::at` on a shape grid (callers guarantee indices are in range;
out-of-range reads default to `false`). -/
def layerAt (ls : ShapeGrid) (layer row col : Nat) : Bool :=
  ((ls.getD layer []).getD row []).getD col false

/-- `Layers::update` on a shape grid (callers guarantee indices in range). -/
def layerUpdate (ls : ShapeGrid) (layer row col : Nat) (v : Bool) : ShapeGrid :=
  ls.set layer ((ls.getD layer []).set row (((ls.getD layer []).getD row []).set col v))

/-- The all-`false` `ShapeLayers::default()`. -/
def defaultShapeGrid : ShapeGrid :=
  (List.range shapeLayerCount).map fun layer =>
    let n := (shapeDimensions layer).1
    List.replicate n (List.replicate n false)

/-- `transform_each_layer_2d`: rebuild every (square) layer, reading cell
`transformer row col (size-1)` of the source into cell `(row, col)`. -/
def transformEachLayer2d (ls : ShapeGrid) (transformer : Nat → Nat → Nat → Nat × Nat) :
    ShapeGrid :=
  (List.range shapeLayerCount).map fun layer =>
    let n := (shapeDimensions layer).1
    (List.range n).map fun row =>
      (List.range n).map fun col =>
        let rc := transformer row col (n - 1)
        layerAt ls layer rc.1 rc.2

/-- `ShiftInstruction` from `pieces.rs` (the `Right` variant is commented out
in the source). -/
inductive ShiftInstruction where
  | Up
  | Down
  | Left
  | Stop

/-- One shift step of `shift`'s loop body, per instruction. -/
def applyShift : ShiftInstruction → ShapeGrid → ShapeGrid
  | .Left, ls => transformEachLayer2d ls fun row col size =>
      (row, if col == size then 0 else col + 1)
  | .Up, ls => transformEachLayer2d ls fun row col size =>
      (if row == size then 0 else row + 1, col)
  | .Down, ls => transformEachLayer2d ls fun row col size =>
      (if row == 0 then size else row - 1, col)
  | .Stop, ls => ls

/-- The iteration budget of `shift`: four times the largest layer size. -/
def shiftBudget : Nat :=
  ((List.range shapeLayerCount).foldl (fun m layer => max m (shapeDimensions layer).1) 0) * 4

/-- The bounded loop of `shift`.  `none` models the
`panic!("Detected infinite loop in shift logic")` branch reached when the
budget is exhausted before the instruction function returns `Stop`. -/
def shiftLoop (next_instruction : ShapeGrid → ShiftInstruction) :
    Nat → ShapeGrid → Option ShapeGrid
  | 0, _ => none
  | fuel + 1, dest =>
    match next_instruction dest with
    | .Stop => some dest
    | i => shiftLoop next_instruction fuel (applyShift i dest)

/-- `shift` from `pieces.rs`. -/
def shift (layers : ShapeGrid) (next_instruction : ShapeGrid → ShiftInstruction) :
    Option ShapeGrid :=
  shiftLoop next_instruction shiftBudget layers

/-- A Kanoodle shape: the five bool layers plus the `is_3d` flag. -/
structure Shape where
  layers : ShapeGrid
  is_3d : Bool
deriving DecidableEq, Repr

namespace Shape

/-- `Shape::is_set`. -/
def is_set (s : Shape) (layer row col : Nat) : Bool := layerAt s.layers layer row col

/-- `Shape::rotate`: 90° clockwise rotation of every layer. -/
def rotate (s : Shape) : Shape :=
  ⟨transformEachLayer2d s.layers fun row col max_col => (max_col - col, row), s.is_3d⟩

/-- `Shape::reflect`: transpose of every layer. -/
def reflect (s : Shape) : Shape :=
  ⟨transformEachLayer2d s.layers fun row col _ => (col, row), s.is_3d⟩

end Shape

/-- The instruction function of `snap_to_top_left`'s first (upward) loop.
It checks exactly the cells the Rust source checks: the whole top row of
layers 0, 1 and 2, but only cell `[0][0]` of layers 3 and 4. -/
def snapUpInstruction (ls : ShapeGrid) : ShiftInstruction :=
  if !layerAt ls 0 0 0 && !layerAt ls 0 0 1 && !layerAt ls 0 0 2
      && !layerAt ls 0 0 3 && !layerAt ls 0 0 4
      && !layerAt ls 1 0 0 && !layerAt ls 1 0 1 && !layerAt ls 1 0 2 && !layerAt ls 1 0 3
      && !layerAt ls 2 0 0 && !layerAt ls 2 0 1 && !layerAt ls 2 0 2
      && !layerAt ls 3 0 0
      && !layerAt ls 4 0 0 then
    ShiftInstruction.Up
  else
    ShiftInstruction.Stop

/-- The instruction function of `snap_to_top_left`'s second (leftward) loop:
the whole first column of every layer. -/
def snapLeftInstruction (ls : ShapeGrid) : ShiftInstruction :=
  if !layerAt ls 0 0 0 && !layerAt ls 0 1 0 && !layerAt ls 0 2 0
      && !layerAt ls 0 3 0 && !layerAt ls 0 4 0
      && !layerAt ls 1 0 0 && !layerAt ls 1 1 0 && !layerAt ls 1 2 0 && !layerAt ls 1 3 0
      && !layerAt ls 2 0 0 && !layerAt ls 2 1 0 && !layerAt ls 2 2 0
      && !layerAt ls 3 0 0 && !layerAt ls 3 1 0
      && !layerAt ls 4 0 0 then
    ShiftInstruction.Left
  else
    ShiftInstruction.Stop

/-- `Shape::snap_to_top_left`.  `none` models the panic raised when either
bounded shift loop exhausts its budget. -/
def Shape.snap_to_top_left (s : Shape) : Option Shape :=
  (shift s.layers snapUpInstruction).bind fun up =>
    (shift up snapLeftInstruction).map fun left => ⟨left, s.is_3d⟩

/-- The instruction function of `erect`'s downward shift: move down while any
part of the shape lies strictly right of the top-left-to-bottom-right
diagonal of layer 0. -/
def erectDownInstruction (ls : ShapeGrid) : ShiftInstruction :=
  if layerAt ls 0 0 1 || layerAt ls 0 1 2 || layerAt ls 0 2 3 || layerAt ls 0 3 4 then
    ShiftInstruction.Down
  else
    ShiftInstruction.Stop

/-- `Shape::erect`: fold a flat shape into its 3-D diagonal form.  A 3-D
shape is returned unchanged.  `none` models panics of the inner shifts. -/
def Shape.erect (s : Shape) : Option Shape :=
  if s.is_3d then some s
  else
    (s.snap_to_top_left).bind fun aligned =>
      (shift aligned.layers erectDownInstruction).map fun shifted =>
        let at0 := fun r c => layerAt shifted 0 r c
        let layer4 := [[at0 4 0]]
        let layer3 := [[at0 3 0, false], [false, at0 4 1]]
        let layer2 := [[at0 2 0, false, false],
                       [false, at0 3 1, false],
                       [false, false, at0 4 2]]
        let layer1 := [[at0 1 0, false, false, false],
                       [false, at0 2 1, false, false],
                       [false, false, at0 3 2, false],
                       [false, false, false, at0 4 3]]
        let layer0 := (List.range 5).map fun i =>
          (List.range 5).map fun j => if i = j then at0 i j else false
        Shape.mk [layer0, layer1, layer2, layer3, layer4] true

/-- `to_int`: the canonical integer encoding used to sort orientations.
Cell `(layer, row, col)` contributes `(col+1) * 10^row * layer_bonus` with
layer bonuses 1, 10^4, 10^6, 10^8, 10^10.  Values stay far below `2^64`,
so `Nat` models the Rust `u64` faithfully. -/
def to_int (s : Shape) : Nat :=
  (((List.range shapeLayerCount).foldl (fun acc layer =>
    let layer_bonus :=
      if layer == 0 then 1 else if layer == 1 then 10000 else acc.2 * 100
    let (row_count, col_count) := shapeDimensions layer
    let add := (List.range row_count).foldl (fun a row =>
      let row_bonus := 10 ^ row * layer_bonus
      (List.range col_count).foldl (fun a2 col =>
        if s.is_set layer row col then a2 + (col + 1) * row_bonus else a2) a) 0
    (acc.1 + add, layer_bonus)) ((0 : Nat), (1 : Nat)))).1

/-- `HashSet::insert` on the model of the orientation set: keep the list
duplicate-free under structural equality. -/
def insertShape (s : Shape) (set : List Shape) : List Shape :=
  if s ∈ set then set else set ++ [s]

/-- Insert a shape into a list sorted by `to_int`, after all entries with a
smaller-or-equal key (so the overall sort is stable, like Rust's
`sort_by`). -/
def insertSortedByToInt (s : Shape) : List Shape → List Shape
  | [] => [s]
  | t :: ts => if to_int t ≤ to_int s then t :: insertSortedByToInt s ts else s :: t :: ts

/-- `vec.sort_by(|s1, s2| to_int(s1).cmp(&to_int(s2)))`: stable sort by the
canonical integer encoding. -/
def sortByToInt (l : List Shape) : List Shape :=
  l.foldl (fun acc s => insertSortedByToInt s acc) []

/-- The four-iteration rotation loop of `add_rotated_orientations`: insert
the snapped shape each time and, while the shape is flat, recurse (via
`deeper`) into the erected form.  `none` models the panics propagated from
`snap_to_top_left` and `erect`. -/
def addRotatedLoop (deeper : Shape → List Shape → Option (List Shape)) :
    Nat → Shape → List Shape → Option (List Shape)
  | 0, _, set => some set
  | iter + 1, next, set =>
    (next.snap_to_top_left).bind fun snapped =>
      let set1 := insertShape snapped set
      (if !next.is_3d then (next.erect).bind fun e => deeper e set1
       else some set1).bind fun set2 =>
        addRotatedLoop deeper iter next.rotate set2

/-- `add_rotated_orientations`.  The `fuel` argument bounds the mutual
recursion through `erect`; since `erect` always yields a 3-D shape (for
which the loop never recurses), fuel 2 suffices for every real call and the
fuel-exhaustion result `none` is unreachable there. -/
def addRotatedOrientations : Nat → Shape → List Shape → Option (List Shape)
  | 0, _, _ => none
  | fuel + 1, shape, set =>
    addRotatedLoop (fun e acc => addRotatedOrientations fuel e acc) 4 shape set

/-- `add_mirrored_orientations`: run the rotation loop on the reflection. -/
def addMirroredOrientations (fuel : Nat) (s : Shape) (set : List Shape) :
    Option (List Shape) :=
  addRotatedOrientations fuel s.reflect set

/-- The flat base shape `generate_orientations` builds from its 5×5 cell
matrix argument: the cells as layer 0, all higher layers empty, not 3-D. -/
def baseShapeOfCells (cells : List (List Bool)) : Shape :=
  ⟨[(List.range 5).map fun i =>
      (List.range 5).map fun j => (cells.getD i []).getD j false,
    List.replicate 4 (List.replicate 4 false),
    List.replicate 3 (List.replicate 3 false),
    List.replicate 2 (List.replicate 2 false),
    List.replicate 1 (List.replicate 1 false)], false⟩

/-- `generate_orientations`: all orientations of a flat 5×5 cell matrix,
deduplicated and sorted by `to_int`. -/
def generate_orientations (cells : List (List Bool)) : Option (List Shape) :=
  (addRotatedOrientations 2 (baseShapeOfCells cells) []).bind fun set1 =>
    (addMirroredOrientations 2 (baseShapeOfCells cells) set1).map fun set2 =>
      sortByToInt set2

/-! ## Parsing shapes and the piece catalog (`pieces.rs`) -/

/-- `usize::MAX`, the initial value of the offsets in `Shape::parse`. -/
def USIZE_MAX : Nat := U64 - 1

/-- One character step of the offset-scanning pass of `Shape::parse`.
State: current `(row, col)` plus the minimal `(row, col)` seen so far. -/
def parseOffsetStep (letter : Char) (st : Nat × Nat × Nat × Nat) (ch : Char) :
    Nat × Nat × Nat × Nat :=
  let (row, col, ro, co) := st
  if ch == '\n' then (row + 1, 0, ro, co)
  else if ch == letter then (row, col + 1, min ro row, min co col)
  else (row, col + 1, ro, co)

/-- The offset pass of `Shape::parse`: minimal row and column at which the
letter occurs, over all layer strings (each string restarts at `(0,0)`). -/
def parseOffsets (strings : List String) (letter : Char) : Nat × Nat :=
  strings.foldl (fun acc s =>
    let r := s.toList.foldl (parseOffsetStep letter) (0, 0, acc.1, acc.2)
    (r.2.2.1, r.2.2.2)) (USIZE_MAX, USIZE_MAX)

/-- One character step of the fill pass of `Shape::parse`.
State: current `(row, col)` plus the grid built so far. -/
def parseFillStep (letter : Char) (layer ro co : Nat) (st : Nat × Nat × ShapeGrid)
    (ch : Char) : Nat × Nat × ShapeGrid :=
  let (row, col, g) := st
  if ch == '\n' then (row + 1, 0, g)
  else if ch == letter then (row, col + 1, layerUpdate g layer (row - ro) (col - co) true)
  else (row, col + 1, g)

/-- Whether the (canonically-dimensioned) shape grid holds any `true` cell;
mirrors `layers.find(&true).is_some()`. -/
def shapeGridHasTrue (g : ShapeGrid) : Bool :=
  (List.range shapeLayerCount).any fun layer =>
    let n := (shapeDimensions layer).1
    (List.range n).any fun row => (List.range n).any fun col => layerAt g layer row col

/-- `Shape::parse`: read one shape (the cells carrying `letter`) out of a
vector of layer strings, normalise it with `snap_to_top_left`.  `none`
covers both the "letter absent" result and a propagated snap panic. -/
def Shape.parse (strings : List String) (letter : Char) : Option Shape :=
  let (ro, co) := parseOffsets strings letter
  let g := (List.range strings.length).foldl (fun g layer =>
    ((strings.getD layer "").toList.foldl (parseFillStep letter layer ro co)
      (0, 0, g)).2.2) defaultShapeGrid
  let layers_with_shape := (List.range strings.length).filter fun layer =>
    (strings.getD layer "").toList.any (· == letter)
  if shapeGridHasTrue g then
    Shape.snap_to_top_left ⟨g, layers_with_shape.length > 1⟩
  else
    none

/-- Decode a compact bitmask form into a `Shape`: layer `k` (of size `n×n`)
is given as a bitmask whose bit `row*n + col` is the cell `(row, col)`.
Only used to state the catalog evaluation lemmas compactly. -/
def shapeOfBits (masks : List Nat) (is3d : Bool) : Shape :=
  ⟨(List.range shapeLayerCount).map fun layer =>
      let n := (shapeDimensions layer).1
      let m := masks.getD layer 0
      (List.range n).map fun row => (List.range n).map fun col => m.testBit (row * n + col),
    is3d⟩

/-- Decode a compact bitmask form of a 5×5 layer-0 cell matrix (bit
`row*5 + col` is cell `(row, col)`). -/
def cellsOfBits (m : Nat) : List (List Bool) :=
  (List.range 5).map fun row => (List.range 5).map fun col => m.testBit (row * 5 + col)

/-- A catalog piece: its letter and the ordered orientation list. -/
structure Piece where
  letter : Char
  orientations : List Shape
deriving DecidableEq, Repr

/-- `Piece::parse`: parse the default orientation and derive all
orientations from its layer-0 cells. -/
def Piece.parse (value : String) (letter : Char) : Option Piece :=
  (Shape.parse [value] letter).bind fun shape =>
    (generate_orientations (shape.layers.getD 0 [])).map fun ors =>
      Piece.mk letter ors

/-- The static piece catalog `PIECES`, keyed by letter.  The string literals
are the Rust literals with the line-continuation escapes resolved. -/
def PIECES (c : Char) : Option Piece :=
  match c with
  | 'A' => Piece.parse "A\nAAA" 'A'
  | 'B' => Piece.parse "BB\nBBB" 'B'
  | 'C' => Piece.parse ".C\n.C\n.C\nCC" 'C'
  | 'D' => Piece.parse "DDDD\n..D" 'D'
  | 'E' => Piece.parse "EE\n.EEE" 'E'
  | 'F' => Piece.parse "F\nFF" 'F'
  | 'G' => Piece.parse "GGG\n..G\n..G" 'G'
  | 'H' => Piece.parse "HH\n.HH\n..H" 'H'
  | 'I' => Piece.parse "II\n.I\nII" 'I'
  | 'J' => Piece.parse "JJJJ" 'J'
  | 'K' => Piece.parse "KK\nKK" 'K'
  | 'L' => Piece.parse ".L\nLLL\n.L" 'L'
  | _ => none

/-! ## Boards (`board.rs`, `layer.rs`)

A board is a layered grid of `char` cells.  The per-layer dimensions are a
list of `(rows, cols)` pairs (fixed by the `define_layers!` type in Rust);
the cell store is a total function, with the spec's `layer.rs` contract that
callers guarantee indices are in range (out-of-range cells are never read
or written by the operations under the preconditions in which the program
calls them). -/

/-- `Position(layer, row, col)` from `layer.rs`. -/
structure Position where
  layer : Nat
  row : Nat
  col : Nat
deriving DecidableEq, Repr

/-- The empty-slot sentinel `EMPTY_SLOT` of `board.rs`. -/
def EMPTY_SLOT : Char := '·'

/-- The cell store of a board. -/
abbrev Grid := Nat → Nat → Nat → Char

/-- Layer dimensions of the `Rectangle` board: one 5×11 layer. -/
def rectangleDims : List (Nat × Nat) := [(5, 11)]

/-- Layer dimensions of the `Pyramid` board: 5×5 … 1×1. -/
def pyramidDims : List (Nat × Nat) :=
  [(5, 5), (4, 4), (3, 3), (2, 2), (1, 1)]

/-- A Kanoodle board: its layer dimensions, cells and `next_pos`. -/
structure Board where
  dims : List (Nat × Nat)
  grid : Grid
  next_pos : Position

/-- `Board::new()`: an all-empty board with `next_pos` `(0,0,0)`. -/
def Board.new (dims : List (Nat × Nat)) : Board :=
  ⟨dims, fun _ _ _ => EMPTY_SLOT, ⟨0, 0, 0⟩⟩

/-- Whether `(l, r, c)` indexes a real cell of a grid with dimensions
`dims`. -/
def inBoundsB (dims : List (Nat × Nat)) (l r c : Nat) : Bool :=
  decide (l < dims.length) && decide (r < (dims.getD l (0, 0)).1)
    && decide (c < (dims.getD l (0, 0)).2)

/-- All cell positions of a grid, in the scan order of `Layers::find`:
layers, then rows, then columns. -/
def allPositions (dims : List (Nat × Nat)) : List Position :=
  (List.range dims.length).flatMap fun layer =>
    (List.range (dims.getD layer (0, 0)).1).flatMap fun row =>
      (List.range (dims.getD layer (0, 0)).2).map fun col =>
        Position.mk layer row col

/-- `Layers::find`: first position (in scan order) whose cell equals
`val`. -/
def findVal (dims : List (Nat × Nat)) (g : Grid) (val : Char) : Option Position :=
  (allPositions dims).find? fun p => g p.layer p.row p.col == val

/-- `Board::solved()`: no cell holds the empty sentinel. -/
def solved (b : Board) : Bool :=
  (findVal b.dims b.grid EMPTY_SLOT).isNone

/-- `calculate_shape_offsets`: the `(row, col)` of the first set layer-0
cell of the shape, scanning rows 0..5 then columns 0..5; `(0, 0)` when no
cell is set. -/
def calculate_shape_offsets (shape : Shape) : Nat × Nat :=
  (((List.range 5).flatMap fun row => (List.range 5).map fun col => (row, col)).find?
      fun rc => shape.is_set 0 rc.1 rc.2).getD (0, 0)

/-- Whether shape layer `k` has no set cell. -/
def shapeLayerEmpty (s : Shape) (k : Nat) : Bool :=
  let n := (shapeDimensions k).1
  (List.range n).all fun r => (List.range n).all fun c => !(s.is_set k r c)

/-- The in-range-and-empty check `does_shape_fit` makes for one shape layer
`k` whose board layer is in range: every set cell must map (wrapping
subtraction of the offsets, as in the source) inside the board layer's
dimensions and onto an empty cell. -/
def layerPlacementOk (b : Board) (s : Shape) (ro co k : Nat) : Bool :=
  let n := (shapeDimensions k).1
  let bl := b.next_pos.layer + k
  let (board_row_count, board_col_count) := b.dims.getD bl (0, 0)
  (List.range n).all fun shape_row => (List.range n).all fun shape_col =>
    !(s.is_set k shape_row shape_col) ||
      (let board_row := wsub (b.next_pos.row + shape_row) ro
       let board_col := wsub (b.next_pos.col + shape_col) co
       decide (board_row < board_row_count) && decide (board_col < board_col_count)
         && (b.grid bl board_row board_col == EMPTY_SLOT))

/-- The layer loop of `does_shape_fit`; `fuel` counts the remaining shape
layers (`shapeLayerCount - k`), so the loop ends (returning `true`) when it
is 0. -/
def doesShapeFitAux (b : Board) (s : Shape) (ro co : Nat) : Nat → Nat → Bool
  | 0, _ => true
  | fuel + 1, k =>
    let bl := b.next_pos.layer + k
    if bl ≥ b.dims.length then shapeLayerEmpty s k
    else if !layerPlacementOk b s ro co k then false
    else if !s.is_3d || shapeLayerEmpty s k then true
    else doesShapeFitAux b s ro co fuel (k + 1)

/-- `Board::does_shape_fit`. -/
def does_shape_fit (b : Board) (s : Shape) : Bool :=
  let (ro, co) := calculate_shape_offsets s
  doesShapeFitAux b s ro co shapeLayerCount 0

/-- Whether `add_shape` writes board cell `(r, c)` of board layer
`next_pos.layer + k` while processing shape layer `k`. -/
def writtenInLayer (s : Shape) (ro co nr nc k r c : Nat) : Bool :=
  let n := (shapeDimensions k).1
  (List.range n).any fun shape_row => (List.range n).any fun shape_col =>
    s.is_set k shape_row shape_col
      && (wsub (nr + shape_row) ro == r) && (wsub (nc + shape_col) co == c)

/-- The writes `add_shape` performs for one shape layer. -/
def writeShapeLayer (g : Grid) (s : Shape) (letter : Char) (ro co nr nc k bl : Nat) :
    Grid :=
  fun l r c => if l == bl && writtenInLayer s ro co nr nc k r c then letter else g l r c

/-- The layer loop of `add_shape` (same break conditions as the fit scan);
`fuel` counts remaining shape layers. -/
def addShapeAux (s : Shape) (letter : Char) (ro co L nr nc : Nat) :
    Nat → Nat → Grid → Grid
  | 0, _, g => g
  | fuel + 1, k, g =>
    let g1 := writeShapeLayer g s letter ro co nr nc k (L + k)
    if !s.is_3d || shapeLayerEmpty s k then g1
    else addShapeAux s letter ro co L nr nc fuel (k + 1) g1

/-- `Board::add_shape`: write the shape's cells (anchored at `next_pos`
with the shape offsets applied), then recompute `next_pos` as the first
empty cell (or `(0,0,0)` when the board is full). -/
def add_shape (b : Board) (s : Shape) (letter : Char) : Board :=
  let (ro, co) := calculate_shape_offsets s
  let g1 := addShapeAux s letter ro co b.next_pos.layer b.next_pos.row b.next_pos.col
    shapeLayerCount 0 b.grid
  ⟨b.dims, g1, (findVal b.dims g1 EMPTY_SLOT).getD ⟨0, 0, 0⟩⟩

/-- `Board::remove_shape`: clear every cell equal to `name`; `next_pos`
becomes the first such cell found in scan order (unchanged when none
exists). -/
def remove_shape (b : Board) (name : Char) : Board :=
  let found := (allPositions b.dims).find? fun p => b.grid p.layer p.row p.col == name
  ⟨b.dims,
   fun l r c => if inBoundsB b.dims l r c && (b.grid l r c == name) then EMPTY_SLOT
                else b.grid l r c,
   found.getD b.next_pos⟩

/-- Whether some (in-range) cell of the board holds `ch`. -/
def gridContains (b : Board) (ch : Char) : Bool :=
  (allPositions b.dims).any fun p => b.grid p.layer p.row p.col == ch

/-! ## Placements (`placements.rs`) -/

/-- `PieceSuggestion`: a piece name, the shape of the suggested
orientation, and the orientation index. -/
structure PieceSuggestion where
  name : Char
  shape : Shape
  orientation_index : Nat
deriving DecidableEq, Repr

/-- `PieceAfterFailure`: the next suggestion plus the placements the caller
must remove from the board before trying it. -/
structure PieceAfterFailure where
  piece : PieceSuggestion
  to_remove : List PieceSuggestion
deriving DecidableEq, Repr

/-- `Placements`: the stack of committed placements and the set of used
letters (the Rust `HashSet` is modelled as a duplicate-free list). -/
structure Placements where
  positions : List PieceSuggestion
  used_letters : List Char
deriving DecidableEq, Repr

/-- `Placements::new()`. -/
def Placements.new : Placements := ⟨[], []⟩

/-- `HashSet::insert` on the used-letters set. -/
def insertLetter (c : Char) (l : List Char) : List Char :=
  if c ∈ l then l else c :: l

/-- `get_piece_orientation`: look the piece up in the catalog and index
into its orientation list. -/
def get_piece_orientation (piece_name : Char) (orientation_index : Nat) : Option Shape :=
  match PIECES piece_name with
  | none => none
  | some piece => piece.orientations.get? orientation_index

/-- `RequestedPiece`. -/
structure RequestedPiece where
  name : Char
  orientation_index : Nat
deriving DecidableEq, Repr

/-- The Rust loop `while next_name < 'M' && used.contains(next_name)`
advancing a candidate name (as a byte value); `fuel` bounds the loop by
`77 - n`, exactly the number of iterations the Rust loop can make. -/
def nextUnusedNameGo (used : List Char) : Nat → Nat → Nat
  | 0, n => n
  | fuel + 1, n =>
    if n < 77 && used.contains (Char.ofNat n) then nextUnusedNameGo used fuel (n + 1)
    else n

/-- `Placements::get_next_piece_to_try`: the first name after `after_char`
that is not in use (stopping at `'M'` = 77), with its first orientation;
`none` when that name has no piece. -/
def get_next_piece_to_try (st : Placements) (after_char : Char) : Option PieceSuggestion :=
  let start := (after_char.toNat % 256 + 1) % 256
  let next_name := Char.ofNat (nextUnusedNameGo st.used_letters (77 - start) start)
  (get_piece_orientation next_name 0).map fun shape =>
    ⟨next_name, shape, 0⟩

/-- `Placements::get_next_piece_to_try_after_success`: push the placement,
mark its letter used, and suggest the smallest unused piece (scanning from
`'A'`, i.e. after `'@'`). -/
def get_next_piece_to_try_after_success (st : Placements) (success : PieceSuggestion) :
    Placements × Option PieceSuggestion :=
  let st1 : Placements :=
    ⟨st.positions ++ [success], insertLetter success.name st.used_letters⟩
  (st1, get_next_piece_to_try st1 '@')

/-- `Placements::remove_last_piece`: pop the most recent placement (if any)
and unmark its letter. -/
def remove_last_piece (st : Placements) : Placements × Option PieceSuggestion :=
  match st.positions.getLast? with
  | some previous =>
    (⟨st.positions.dropLast, st.used_letters.erase previous.name⟩, some previous)
  | none => (st, none)

/-- `Placements::get_next_piece_to_try_after_failure`.  The state is
threaded explicitly (the Rust method mutates `self`); `fuel` bounds the
pop-and-retry recursion by the stack depth, which strictly decreases at
each recursive call, so `fuel = st.positions.length` gives exactly the
Rust behaviour (the `fuel = 0` fallback is unreachable then). -/
def afterFailureGo : Nat → Placements → PieceSuggestion →
    Placements × Option PieceAfterFailure
  | fuel, st, failure =>
    let next_index := failure.orientation_index + 1
    match get_piece_orientation failure.name next_index with
    | some sh => (st, some ⟨⟨failure.name, sh, next_index⟩, []⟩)
    | none =>
      match get_next_piece_to_try st failure.name with
      | some piece => (st, some ⟨piece, []⟩)
      | none =>
        match st.positions.getLast? with
        | none => (st, none)
        | some previous_success =>
          match fuel with
          | 0 => (st, none)
          | fuel' + 1 =>
            let st1 : Placements :=
              ⟨st.positions.dropLast, st.used_letters.erase previous_success.name⟩
            match afterFailureGo fuel' st1 previous_success with
            | (st2, some result) =>
              (st2, some ⟨result.piece, previous_success :: result.to_remove⟩)
            | (st2, none) => (st2, none)

/-- `Placements::get_next_piece_to_try_after_failure` at its natural fuel. -/
def get_next_piece_to_try_after_failure (st : Placements) (failure : PieceSuggestion) :
    Placements × Option PieceAfterFailure :=
  afterFailureGo st.positions.length st failure

/-! ## Solver strings (`solver.rs`, `placements.rs` `Display`) -/

/-- Lexicographic order on char lists by code points — the order Rust's
`String::le` uses on ASCII strings. -/
def charListLe : List Char → List Char → Bool
  | [], _ => true
  | _ :: _, [] => false
  | a :: as_, b :: bs =>
    if a = b then charListLe as_ bs else decide (a < b)

/-- Rust `String::le` (for the ASCII strings the solver compares). -/
def rustStringLe (a b : String) : Bool := charListLe a.toList b.toList

/-- `Display for Placements`: for each stacked placement, in order, write
`name`, `[`, the orientation index in plain decimal (no padding), `]` and
`"; "`. -/
def placementsPathString (st : Placements) : String :=
  st.positions.foldl
    (fun acc position =>
      acc ++ position.name.toString ++ "[" ++ toString position.orientation_index
        ++ "]" ++ "; ")
    ""

/-- The solver's decision at a solved board (`solver.rs` line 75): the
solution is reported (and search continues) iff
`placements.to_string().le(&ending_at_placement)`; otherwise the loop
breaks and the solution is not counted. -/
def solutionIsReported (st : Placements) (ending_at_placement : String) : Bool :=
  rustStringLe (placementsPathString st) ending_at_placement

/-- `convert_requested_pieces_to_path_string` from `solver.rs`: `none` or
an empty list produce the `"Z-NO-LIMIT"` sentinel; otherwise tokens
`name[index]; ` with the index zero-padded to two digits. -/
def convert_requested_pieces_to_path_string (pieces : Option (List RequestedPiece)) :
    String :=
  let ps := pieces.getD []
  if ps.isEmpty then "Z-NO-LIMIT"
  else
    String.join (ps.map fun piece =>
      piece.name.toString ++ "[" ++ (if piece.orientation_index < 10 then "0" else "")
        ++ toString piece.orientation_index ++ "]" ++ "; ")

/-! ## Spec-side definitions

These do not embed source code; they state, in executable form, the
properties the claims attribute to the code, to be compared with the
embedded functions. -/

/-- The claim's characterisation of when `does_shape_fit` must return
`false`: some set shape cell lies in a layer whose board layer does not
exist, or maps outside the board layer's dimensions, or onto a non-empty
cell.  (Follows the wording of the spec/claim, not the source.) -/
def fitViolationExists (b : Board) (s : Shape) : Bool :=
  let (ro, co) := calculate_shape_offsets s
  (List.range shapeLayerCount).any fun k =>
    let n := (shapeDimensions k).1
    (List.range n).any fun r => (List.range n).any fun c =>
      s.is_set k r c &&
        (let bl := b.next_pos.layer + k
         decide (bl ≥ b.dims.length) ||
           (let (brc, bcc) := b.dims.getD bl (0, 0)
            let br := wsub (b.next_pos.row + r) ro
            let bc := wsub (b.next_pos.col + c) co
            decide (br ≥ brc) || decide (bc ≥ bcc)
              || !(b.grid bl br bc == EMPTY_SLOT)))

/-- The shape invariant of the spec's data model (§3): a flat shape lives
entirely in layer 0; a 3-D shape has no occupied layer above an empty
one. -/
def wellFormedShape (s : Shape) : Bool :=
  if s.is_3d then
    (List.range 4).all fun k => !(shapeLayerEmpty s k) || shapeLayerEmpty s (k + 1)
  else
    (List.range 4).all fun k => shapeLayerEmpty s (k + 1)

/-- Whether the shape has a set cell within the 5×5 bounds of layer 0. -/
def hasLayer0Cell (s : Shape) : Bool :=
  (List.range 5).any fun r => (List.range 5).any fun c => s.is_set 0 r c

/-- The names of the 12 catalog pieces, in order. -/
def catalogLetters : List Char :=
  ['A', 'B', 'C', 'D', 'E', 'F', 'G', 'H', 'I', 'J', 'K', 'L']

/-- Spec-side: the smallest catalog letter strictly greater than `c` that
is not in `used`. -/
def smallestUnusedCatalogAfter (used : List Char) (c : Char) : Option Char :=
  catalogLetters.find? fun n => decide (c < n) && !used.contains n

/-- The `Placements` invariant of claim C9: the used-letters set holds
exactly the names on the stack, and (strengthened, see the claim's
correction) both are duplicate-free. -/
def PlacementsInv (st : Placements) : Prop :=
  (∀ c ∈ st.used_letters, c ∈ st.positions.map PieceSuggestion.name)
    ∧ (∀ c ∈ st.positions.map PieceSuggestion.name, c ∈ st.used_letters)
    ∧ st.used_letters.Nodup
    ∧ (st.positions.map PieceSuggestion.name).Nodup

/-! ### Unfolding lemmas used by the catalog evaluation proofs -/

theorem addRotatedOrientations_two (sh : Shape) (set : List Shape) :
    addRotatedOrientations 2 sh set
      = addRotatedLoop (fun e acc => addRotatedOrientations 1 e acc) 4 sh set := rfl

theorem addRotatedOrientations_one (sh : Shape) (set : List Shape) :
    addRotatedOrientations 1 sh set
      = addRotatedLoop (fun e acc => addRotatedOrientations 0 e acc) 4 sh set := rfl

theorem addRotatedLoop_zero (d : Shape → List Shape → Option (List Shape))
    (sh : Shape) (set : List Shape) : addRotatedLoop d 0 sh set = some set := rfl

theorem addMirroredOrientations_unfold (fuel : Nat) (s : Shape) (set : List Shape) :
    addMirroredOrientations fuel s set = addRotatedOrientations fuel s.reflect set := rfl

theorem generate_orientations_unfold (cells : List (List Bool)) :
    generate_orientations cells
      = (addRotatedOrientations 2 (baseShapeOfCells cells) []).bind fun set1 =>
          (addMirroredOrientations 2 (baseShapeOfCells cells) set1).map fun set2 =>
            sortByToInt set2 := rfl

theorem piece_parse_unfold (value : String) (letter : Char) :
    Piece.parse value letter
      = (Shape.parse [value] letter).bind fun shape =>
          (generate_orientations (shape.layers.getD 0 [])).map fun ors =>
            Piece.mk letter ors := rfl


/-! ## Claim proofs that evaluate the embedded functions directly -/

/-! ## Shape literals used by the catalog evaluation -/

def lay0 : List (List Bool) := [[true, true, false, false, false],
 [false, true, true, false, false],
 [false, false, true, false, false],
 [false, false, false, false, false],
 [false, false, false, false, false]]
def lay1 : List (List Bool) := [[false, false, false, false], [false, false, false, false], [false, false, false, false], [false, false, false, false]]
def lay2 : List (List Bool) := [[false, false, false], [false, false, false], [false, false, false]]
def lay3 : List (List Bool) := [[false, false], [false, false]]
def lay4 : List (List Bool) := [[false]]
def catHs0 : Shape := Shape.mk [lay0, lay1, lay2, lay3, lay4] false
def catHt0 : List Shape := [catHs0]
def lay5 : List (List Bool) := [[false, false, false, false, false],
 [false, true, false, false, false],
 [false, false, true, false, false],
 [false, false, false, false, false],
 [false, false, false, false, false]]
def lay6 : List (List Bool) := [[true, false, false, false], [false, true, false, false], [false, false, true, false], [false, false, false, false]]
def catHs1 : Shape := Shape.mk [lay5, lay6, lay2, lay3, lay4] true
def catHt1 : List Shape := [catHs0, catHs1]
def lay7 : List (List Bool) := [[false, false, false, false, false],
 [false, false, false, true, false],
 [false, false, true, false, false],
 [false, false, false, false, false],
 [false, false, false, false, false]]
def lay8 : List (List Bool) := [[false, false, false, true], [false, false, true, false], [false, true, false, false], [false, false, false, false]]
def catHs2 : Shape := Shape.mk [lay7, lay8, lay2, lay3, lay4] true
def lay9 : List (List Bool) := [[false, false, false, false, false],
 [false, false, true, false, false],
 [false, true, false, false, false],
 [false, false, false, false, false],
 [false, false, false, false, false]]
def lay10 : List (List Bool) := [[false, false, true, false], [false, true, false, false], [true, false, false, false], [false, false, false, false]]
def catHs3 : Shape := Shape.mk [lay9, lay10, lay2, lay3, lay4] true
def catHt2 : List Shape := [catHs0, catHs1, catHs3]
def lay11 : List (List Bool) := [[false, false, false, false, false],
 [false, false, false, false, false],
 [false, false, true, false, false],
 [false, false, false, true, false],
 [false, false, false, false, false]]
def lay12 : List (List Bool) := [[false, false, false, false], [false, true, false, false], [false, false, true, false], [false, false, false, true]]
def catHs4 : Shape := Shape.mk [lay11, lay12, lay2, lay3, lay4] true
def lay13 : List (List Bool) := [[false, false, false, false, false],
 [false, false, false, false, false],
 [false, false, true, false, false],
 [false, true, false, false, false],
 [false, false, false, false, false]]
def lay14 : List (List Bool) := [[false, false, false, false], [false, false, true, false], [false, true, false, false], [true, false, false, false]]
def catHs5 : Shape := Shape.mk [lay13, lay14, lay2, lay3, lay4] true
def lay15 : List (List Bool) := [[false, false, false, false, true],
 [false, false, false, true, true],
 [false, false, true, true, false],
 [false, false, false, false, false],
 [false, false, false, false, false]]
def catHs6 : Shape := Shape.mk [lay15, lay1, lay2, lay3, lay4] false
def lay16 : List (List Bool) := [[false, false, true, false, false],
 [false, true, true, false, false],
 [true, true, false, false, false],
 [false, false, false, false, false],
 [false, false, false, false, false]]
def catHs7 : Shape := Shape.mk [lay16, lay1, lay2, lay3, lay4] false
def catHt3 : List Shape := [catHs0, catHs1, catHs3, catHs7]
def lay17 : List (List Bool) := [[false, false, false, false, false],
 [false, false, false, false, false],
 [false, false, true, false, false],
 [false, false, false, false, false],
 [false, false, false, false, false]]
def lay18 : List (List Bool) := [[false, false, false, false], [false, false, false, false], [false, false, true, false], [false, false, false, false]]
def lay19 : List (List Bool) := [[false, false, false], [false, true, false], [false, false, false]]
def lay20 : List (List Bool) := [[false, false], [false, true]]
def lay21 : List (List Bool) := [[true]]
def catHs8 : Shape := Shape.mk [lay17, lay18, lay19, lay20, lay21] true
def catHt4 : List Shape := [catHs0, catHs1, catHs3, catHs7, catHs8]
def lay22 : List (List Bool) := [[false, false, false, false], [false, false, false, false], [false, true, false, false], [false, false, false, false]]
def lay23 : List (List Bool) := [[false, false], [true, false]]
def catHs9 : Shape := Shape.mk [lay17, lay22, lay19, lay23, lay21] true
def catHt5 : List Shape := [catHs0, catHs1, catHs3, catHs7, catHs8, catHs9]
def lay24 : List (List Bool) := [[false, false, false, false], [false, true, false, false], [false, false, false, false], [false, false, false, false]]
def lay25 : List (List Bool) := [[true, false], [false, false]]
def catHs10 : Shape := Shape.mk [lay17, lay24, lay19, lay25, lay21] true
def catHt6 : List Shape := [catHs0, catHs1, catHs3, catHs7, catHs8, catHs9, catHs10]
def lay26 : List (List Bool) := [[false, false, false, false], [false, false, true, false], [false, false, false, false], [false, false, false, false]]
def lay27 : List (List Bool) := [[false, true], [false, false]]
def catHs11 : Shape := Shape.mk [lay17, lay26, lay19, lay27, lay21] true
def catHt7 : List Shape := [catHs0, catHs1, catHs3, catHs7, catHs8, catHs9, catHs10, catHs11]
def lay28 : List (List Bool) := [[false, false, false, false, false],
 [false, false, false, false, false],
 [false, false, true, false, false],
 [false, false, true, true, false],
 [false, false, false, true, true]]
def catHs12 : Shape := Shape.mk [lay28, lay1, lay2, lay3, lay4] false
def lay29 : List (List Bool) := [[true, false, false, false, false],
 [true, true, false, false, false],
 [false, true, true, false, false],
 [false, false, false, false, false],
 [false, false, false, false, false]]
def catHs13 : Shape := Shape.mk [lay29, lay1, lay2, lay3, lay4] false
def catHt8 : List Shape := [catHs0, catHs1, catHs3, catHs7, catHs8, catHs9, catHs10, catHs11, catHs13]
def lay30 : List (List Bool) := [[true, false, false, false, false],
 [false, true, false, false, false],
 [false, false, true, false, false],
 [false, false, false, false, false],
 [false, false, false, false, false]]
def lay31 : List (List Bool) := [[true, false, false, false], [false, true, false, false], [false, false, false, false], [false, false, false, false]]
def catHs14 : Shape := Shape.mk [lay30, lay31, lay2, lay3, lay4] true
def catHt9 : List Shape := [catHs0, catHs1, catHs3, catHs7, catHs8, catHs9, catHs10, catHs11, catHs13, catHs14]
def lay32 : List (List Bool) := [[false, false, false, false, true],
 [false, false, false, true, false],
 [false, false, true, false, false],
 [false, false, false, false, false],
 [false, false, false, false, false]]
def lay33 : List (List Bool) := [[false, false, false, true], [false, false, true, false], [false, false, false, false], [false, false, false, false]]
def catHs15 : Shape := Shape.mk [lay32, lay33, lay2, lay3, lay4] true
def lay34 : List (List Bool) := [[false, false, true, false, false],
 [false, true, false, false, false],
 [true, false, false, false, false],
 [false, false, false, false, false],
 [false, false, false, false, false]]
def lay35 : List (List Bool) := [[false, true, false, false], [true, false, false, false], [false, false, false, false], [false, false, false, false]]
def catHs16 : Shape := Shape.mk [lay34, lay35, lay2, lay3, lay4] true
def catHt10 : List Shape := [catHs0, catHs1, catHs3, catHs7, catHs8, catHs9, catHs10, catHs11, catHs13, catHs14, catHs16]
def lay36 : List (List Bool) := [[false, false, false, false, false],
 [false, false, false, false, false],
 [false, false, true, false, false],
 [false, false, false, true, false],
 [false, false, false, false, true]]
def lay37 : List (List Bool) := [[false, false, false, false], [false, false, false, false], [false, false, true, false], [false, false, false, true]]
def catHs17 : Shape := Shape.mk [lay36, lay37, lay2, lay3, lay4] true
def lay38 : List (List Bool) := [[false, false, false, false, false],
 [false, false, false, false, false],
 [false, false, true, false, false],
 [false, true, false, false, false],
 [true, false, false, false, false]]
def lay39 : List (List Bool) := [[false, false, false, false], [false, false, false, false], [false, true, false, false], [true, false, false, false]]
def catHs18 : Shape := Shape.mk [lay38, lay39, lay2, lay3, lay4] true
def lay40 : List (List Bool) := [[false, false, false, false, false],
 [false, false, false, false, false],
 [false, true, true, false, false],
 [true, true, false, false, false],
 [true, false, false, false, false]]
def catHs19 : Shape := Shape.mk [lay40, lay1, lay2, lay3, lay4] false
def lay41 : List (List Bool) := [[false, true, true, false, false],
 [true, true, false, false, false],
 [true, false, false, false, false],
 [false, false, false, false, false],
 [false, false, false, false, false]]
def catHs20 : Shape := Shape.mk [lay41, lay1, lay2, lay3, lay4] false
def catHt11 : List Shape := [catHs0, catHs1, catHs3, catHs7, catHs8, catHs9, catHs10, catHs11, catHs13, catHs14, catHs16, catHs20]
def lay42 : List (List Bool) := [[false, false, false, true, true],
 [false, false, true, true, false],
 [false, false, true, false, false],
 [false, false, false, false, false],
 [false, false, false, false, false]]
def catHs21 : Shape := Shape.mk [lay42, lay1, lay2, lay3, lay4] false
def lay43 : List (List Bool) := [[false, false, false, false, false],
 [false, false, false, false, false],
 [false, false, true, true, false],
 [false, false, false, true, true],
 [false, false, false, false, true]]
def catHs22 : Shape := Shape.mk [lay43, lay1, lay2, lay3, lay4] false
def lay44 : List (List Bool) := [[false, false, false, false, false],
 [false, false, false, false, false],
 [false, false, true, false, false],
 [false, true, true, false, false],
 [true, true, false, false, false]]
def catHs23 : Shape := Shape.mk [lay44, lay1, lay2, lay3, lay4] false
def catHt12 : List Shape := [catHs20, catHs0, catHs7, catHs13, catHs16, catHs14, catHs3, catHs1, catHs10, catHs11, catHs9, catHs8]
def lay45 : List (List Bool) := [[true, true, false, false, false],
 [true, true, false, false, false],
 [false, false, false, false, false],
 [false, false, false, false, false],
 [false, false, false, false, false]]
def catKs0 : Shape := Shape.mk [lay45, lay1, lay2, lay3, lay4] false
def catKt0 : List Shape := [catKs0]
def lay46 : List (List Bool) := [[false, false, false, false, false],
 [false, true, false, false, false],
 [false, false, false, false, false],
 [false, false, false, false, false],
 [false, false, false, false, false]]
def lay47 : List (List Bool) := [[true, false, false], [false, false, false], [false, false, false]]
def catKs1 : Shape := Shape.mk [lay46, lay31, lay47, lay3, lay4] true
def catKt1 : List Shape := [catKs0, catKs1]
def lay48 : List (List Bool) := [[false, false, false, false, false],
 [false, false, false, true, false],
 [false, false, false, false, false],
 [false, false, false, false, false],
 [false, false, false, false, false]]
def lay49 : List (List Bool) := [[false, false, true], [false, false, false], [false, false, false]]
def catKs2 : Shape := Shape.mk [lay48, lay33, lay49, lay3, lay4] true
def catKs3 : Shape := Shape.mk [lay46, lay35, lay47, lay3, lay4] true
def catKt2 : List Shape := [catKs0, catKs1, catKs3]
def lay50 : List (List Bool) := [[false, false, false, false, false],
 [false, false, false, false, false],
 [false, false, false, false, false],
 [false, false, false, true, false],
 [false, false, false, false, false]]
def lay51 : List (List Bool) := [[false, false, false], [false, false, false], [false, false, true]]
def catKs4 : Shape := Shape.mk [lay50, lay37, lay51, lay3, lay4] true
def lay52 : List (List Bool) := [[false, false, false, false, false],
 [false, false, false, false, false],
 [false, false, false, false, false],
 [false, true, false, false, false],
 [false, false, false, false, false]]
def lay53 : List (List Bool) := [[false, false, false], [false, false, false], [true, false, false]]
def catKs5 : Shape := Shape.mk [lay52, lay39, lay53, lay3, lay4] true
def lay54 : List (List Bool) := [[false, false, false, true, true],
 [false, false, false, true, true],
 [false, false, false, false, false],
 [false, false, false, false, false],
 [false, false, false, false, false]]
def catKs6 : Shape := Shape.mk [lay54, lay1, lay2, lay3, lay4] false
def lay55 : List (List Bool) := [[false, false, false, false, false],
 [false, false, false, false, false],
 [false, false, false, false, false],
 [false, false, false, true, true],
 [false, false, false, true, true]]
def catKs7 : Shape := Shape.mk [lay55, lay1, lay2, lay3, lay4] false
def lay56 : List (List Bool) := [[false, false, false, false, false],
 [false, false, false, false, false],
 [false, false, false, false, false],
 [true, true, false, false, false],
 [true, true, false, false, false]]
def catKs8 : Shape := Shape.mk [lay56, lay1, lay2, lay3, lay4] false
def catKt3 : List Shape := [catKs0, catKs3, catKs1]

/-! ## Claim proofs over the reducible embedding -/

/-! ### General helper lemmas about the list combinators the embedding uses -/

/-- Reading entry `i` of `(List.range n).map g` with a default. -/
theorem getD_range_map {α : Type} (n : Nat) (g : Nat → α) (i : Nat) (d : α) :
    ((List.range n).map g).getD i d = if i < n then g i else d := by
  by_cases h : i < n
  · rw [List.getD_eq_getElem?_getD, List.getElem?_map, List.getElem?_range h]
    simp [h]
  · rw [List.getD_eq_getElem?_getD, List.getElem?_eq_none]
    · simp [h]
    · simpa using Nat.le_of_not_lt h

/-- A position is listed by `allPositions` exactly when it is in bounds. -/
theorem mem_allPositions {dims : List (Nat × Nat)} {l r c : Nat} :
    (⟨l, r, c⟩ : Position) ∈ allPositions dims ↔ inBoundsB dims l r c = true := by
  simp only [allPositions, List.mem_flatMap, List.mem_range, List.mem_map,
    Position.mk.injEq, inBoundsB, Bool.and_eq_true, decide_eq_true_eq]
  constructor
  · rintro ⟨a, ha, b, hb, ⟨c', hc', rfl, rfl, rfl⟩⟩
    exact ⟨⟨ha, hb⟩, hc'⟩
  · rintro ⟨⟨ha, hb⟩, hc⟩
    exact ⟨l, ha, r, hb, c, hc, rfl, rfl, rfl⟩

/-- `find?` only depends on the predicate's values on the list members. -/
theorem find?_congr_mem {α : Type} {p q : α → Bool} :
    ∀ {l : List α}, (∀ a ∈ l, p a = q a) → l.find? p = l.find? q
  | [], _ => rfl
  | a :: l, h => by
    have ha := h a (List.mem_cons_self a l)
    have ht := find?_congr_mem (fun b hb => h b (List.mem_cons_of_mem a hb))
    simp only [List.find?_cons, ha, ht]

/-! ### Claim C1: the stop-path comparison -/

/-- C1: refuted.  The solver's comparison at a solved board (`solver.rs`
line 75) is `le`, not a strict `lt`: a placements stack whose path string
equals the stop path IS reported as a solution, while the claim asserts a
solution equal to the stop path is not reported. -/
theorem claim_C1_cx :
    placementsPathString ⟨[⟨'A', ⟨[], false⟩, 0⟩], ['A']⟩ = "A[0]; "
      ∧ solutionIsReported ⟨[⟨'A', ⟨[], false⟩, 0⟩], ['A']⟩ "A[0]; " = true := by
  constructor
  · rfl
  · decide

/-! ### Claim C10: removing an absent name is a no-op -/

/-- C10: confirmed.  If no cell of the board holds `name`, `remove_shape`
changes neither any cell nor `next_pos`. -/
theorem claim_C10 (b : Board) (name : Char)
    (h : gridContains b name = false) :
    (∀ l r c, (remove_shape b name).grid l r c = b.grid l r c)
      ∧ (remove_shape b name).next_pos = b.next_pos := by
  have hmem : ∀ p ∈ allPositions b.dims, ¬((b.grid p.layer p.row p.col == name) = true) := by
    intro p hp hpred
    have : (allPositions b.dims).any (fun p => b.grid p.layer p.row p.col == name) = true :=
      List.any_eq_true.mpr ⟨p, hp, hpred⟩
    rw [gridContains] at h
    rw [h] at this
    exact Bool.false_ne_true this
  have hnone : (allPositions b.dims).find? (fun p => b.grid p.layer p.row p.col == name)
      = none := List.find?_eq_none.mpr hmem
  constructor
  · intro l r c
    show (if inBoundsB b.dims l r c && (b.grid l r c == name) then EMPTY_SLOT
          else b.grid l r c) = b.grid l r c
    by_cases hib : inBoundsB b.dims l r c = true
    · have := hmem ⟨l, r, c⟩ (mem_allPositions.mpr hib)
      have hne : (b.grid l r c == name) = false := by
        cases hbe : (b.grid l r c == name) with
        | false => rfl
        | true => exact absurd hbe this
      simp [hne]
    · simp [Bool.eq_false_iff.mpr hib]
  · show (((allPositions b.dims).find? fun p => b.grid p.layer p.row p.col == name)).getD
        b.next_pos = b.next_pos
    rw [hnone]
    rfl

/-- C10 witness: the fresh rectangle board holds no `'A'`, and removing
`'A'` from it is a no-op. -/
theorem claim_C10_witness :
    (∀ l r c, (remove_shape (Board.new rectangleDims) 'A').grid l r c
        = (Board.new rectangleDims).grid l r c)
      ∧ (remove_shape (Board.new rectangleDims) 'A').next_pos
        = (Board.new rectangleDims).next_pos :=
  claim_C10 (Board.new rectangleDims) 'A' (by decide)

/-! ### Claim C7: the placement-path string format -/

/-- The token `Display for Placements` emits per stacked placement: the
name, then the orientation index in plain decimal between brackets. -/
def displayToken (p : PieceSuggestion) : String :=
  p.name.toString ++ "[" ++ toString p.orientation_index ++ "]" ++ "; "

/-- The token `convert_requested_pieces_to_path_string` emits per requested
piece: the name, then the orientation index zero-padded to two digits. -/
def paddedToken (q : RequestedPiece) : String :=
  q.name.toString ++ "[" ++ (if q.orientation_index < 10 then "0" else "")
    ++ toString q.orientation_index ++ "]" ++ "; "

theorem sappend_empty (s : String) : s ++ "" = s := by
  cases s with
  | mk data => show String.mk (data ++ []) = String.mk data
               rw [List.append_nil]

theorem append_paddedToken (acc : String) (p : PieceSuggestion)
    (h : 10 ≤ p.orientation_index) :
    acc ++ paddedToken ⟨p.name, p.orientation_index⟩
      = acc ++ p.name.toString ++ "[" ++ toString p.orientation_index
          ++ "]" ++ "; " := by
  rw [paddedToken, if_neg (Nat.not_lt.mpr h), sappend_empty]
  simp only [String.append_assoc]

theorem foldl_displayToken_eq (ps : List PieceSuggestion) :
    ∀ acc : String, (∀ p ∈ ps, 10 ≤ p.orientation_index) →
      List.foldl (fun acc p => acc ++ p.name.toString ++ "["
          ++ toString p.orientation_index ++ "]" ++ "; ") acc ps
        = List.foldl (· ++ ·) acc
            (ps.map fun p => paddedToken ⟨p.name, p.orientation_index⟩) := by
  induction ps with
  | nil => intro acc _; rfl
  | cons p ps ih =>
    intro acc h
    rw [List.map_cons, List.foldl_cons, List.foldl_cons,
      append_paddedToken acc p (h p (List.mem_cons_self p ps))]
    exact ih _ fun q hq => h q (List.mem_cons_of_mem p hq)

/-- C7: corrected.  The `Display` path string appends one token per stacked
placement in order, but with the orientation index in plain decimal (NOT
zero-padded as claimed); it therefore coincides with the zero-padded
stop-path string built from the same requested pieces exactly on stacks all
of whose orientation indices have two digits. -/
theorem claim_C7 :
    (∀ (ps : List PieceSuggestion) (p : PieceSuggestion) (u u' : List Char),
        placementsPathString ⟨ps ++ [p], u⟩
          = placementsPathString ⟨ps, u'⟩ ++ displayToken p)
    ∧ (∀ st : Placements, st.positions ≠ [] →
        (∀ p ∈ st.positions, 10 ≤ p.orientation_index) →
        placementsPathString st
          = convert_requested_pieces_to_path_string
              (some (st.positions.map fun p => ⟨p.name, p.orientation_index⟩))) := by
  constructor
  · intro ps p u u'
    show List.foldl _ "" (ps ++ [p]) = _
    rw [List.foldl_append, List.foldl_cons, List.foldl_nil]
    simp only [placementsPathString, displayToken, String.append_assoc]
  · intro st hne hten
    rw [convert_requested_pieces_to_path_string]
    have hmapne : (st.positions.map fun p =>
        (⟨p.name, p.orientation_index⟩ : RequestedPiece)) ≠ [] := by
      intro hmap
      exact hne (List.map_eq_nil_iff.mp hmap)
    rw [Option.getD_some]
    rw [if_neg (by simpa [List.isEmpty_iff] using hmapne)]
    rw [placementsPathString, String.join, List.map_map]
    exact foldl_displayToken_eq st.positions "" hten

/-- C7 witness: the two parts of the corrected statement at concrete
stacks (a one-token append, and equality with the stop-path string when the
orientation index has two digits). -/
theorem claim_C7_witness :
    placementsPathString ⟨[⟨'A', ⟨[], false⟩, 0⟩] ++ [⟨'B', ⟨[], false⟩, 12⟩], []⟩
      = placementsPathString ⟨[⟨'A', ⟨[], false⟩, 0⟩], ['A']⟩
          ++ displayToken ⟨'B', ⟨[], false⟩, 12⟩
    ∧ placementsPathString ⟨[⟨'C', ⟨[], false⟩, 12⟩], []⟩
      = convert_requested_pieces_to_path_string (some [⟨'C', 12⟩]) :=
  ⟨claim_C7.1 [⟨'A', ⟨[], false⟩, 0⟩] ⟨'B', ⟨[], false⟩, 12⟩ [] ['A'],
   claim_C7.2 ⟨[⟨'C', ⟨[], false⟩, 12⟩], []⟩ (by decide) (by decide)⟩

/-- C7 counterexample: with a one-digit orientation index the `Display`
string is not the claimed zero-padded token (which is what the stop-path
builder produces for the same piece). -/
theorem claim_C7_cx :
    placementsPathString ⟨[⟨'A', ⟨[], false⟩, 3⟩], ['A']⟩ ≠ "A[03]; "
      ∧ convert_requested_pieces_to_path_string (some [⟨'A', 3⟩]) = "A[03]; " := by
  constructor
  · decide
  · decide

/-! ### Claim C6: termination of the snap-to-top-left shift loops -/

/-- One unfolding step of the bounded shift loop. -/
theorem shiftLoop_succ (pred : ShapeGrid → ShiftInstruction) (fuel : Nat)
    (dest : ShapeGrid) :
    shiftLoop pred (fuel + 1) dest
      = match pred dest with
        | ShiftInstruction.Stop => some dest
        | i => shiftLoop pred fuel (applyShift i dest) := rfl

/-- Reading a layer-0 cell of a transformed grid, in bounds. -/
theorem layerAt0_transform (ls : ShapeGrid) (f : Nat → Nat → Nat → Nat × Nat)
    (r c : Nat) (hr : r < 5) (hc : c < 5) :
    layerAt (transformEachLayer2d ls f) 0 r c
      = layerAt ls 0 (f r c 4).1 (f r c 4).2 := by
  simp only [layerAt, transformEachLayer2d, getD_range_map, shapeLayerCount,
    shapeDimensions, shapeLayerDims]
  norm_num [hr, hc]

/-- Reading a layer-0 cell after an upward shift. -/
theorem layerAt0_up (ls : ShapeGrid) (r c : Nat) (hr : r < 5) (hc : c < 5) :
    layerAt (applyShift ShiftInstruction.Up ls) 0 r c
      = layerAt ls 0 (if r == 4 then 0 else r + 1) c := by
  have happ : applyShift ShiftInstruction.Up ls
      = transformEachLayer2d ls fun row col size =>
          (if row == size then 0 else row + 1, col) := rfl
  rw [happ, layerAt0_transform ls _ r c hr hc]

/-- Reading a layer-0 cell after a leftward shift. -/
theorem layerAt0_left (ls : ShapeGrid) (r c : Nat) (hr : r < 5) (hc : c < 5) :
    layerAt (applyShift ShiftInstruction.Left ls) 0 r c
      = layerAt ls 0 r (if c == 4 then 0 else c + 1) := by
  have happ : applyShift ShiftInstruction.Left ls
      = transformEachLayer2d ls fun row col size =>
          (row, if col == size then 0 else col + 1) := rfl
  rw [happ, layerAt0_transform ls _ r c hr hc]

/-- The upward snap instruction is `Up` or `Stop`. -/
theorem snapUp_cases (ls : ShapeGrid) :
    snapUpInstruction ls = ShiftInstruction.Up
      ∨ snapUpInstruction ls = ShiftInstruction.Stop := by
  rw [snapUpInstruction]
  split
  · exact Or.inl rfl
  · exact Or.inr rfl

/-- The leftward snap instruction is `Left` or `Stop`. -/
theorem snapLeft_cases (ls : ShapeGrid) :
    snapLeftInstruction ls = ShiftInstruction.Left
      ∨ snapLeftInstruction ls = ShiftInstruction.Stop := by
  rw [snapLeftInstruction]
  split
  · exact Or.inl rfl
  · exact Or.inr rfl

/-- A set cell in the top row of layer 0 stops the upward loop. -/
theorem snapUp_stop (ls : ShapeGrid) (c : Nat) (hc : c < 5)
    (h : layerAt ls 0 0 c = true) :
    snapUpInstruction ls = ShiftInstruction.Stop := by
  rw [snapUpInstruction]
  interval_cases c <;> simp [h]

/-- A set cell in the first column of layer 0 stops the leftward loop. -/
theorem snapLeft_stop (ls : ShapeGrid) (r : Nat) (hr : r < 5)
    (h : layerAt ls 0 r 0 = true) :
    snapLeftInstruction ls = ShiftInstruction.Stop := by
  rw [snapLeftInstruction]
  interval_cases r <;> simp [h]

/-- The upward loop terminates once the fuel exceeds the row of any set
layer-0 cell, and its result still has a set layer-0 cell. -/
theorem upLoop_terminates : ∀ (fuel r c : Nat) (ls : ShapeGrid),
    r < fuel → r < 5 → c < 5 → layerAt ls 0 r c = true →
    ∃ g, shiftLoop snapUpInstruction fuel ls = some g
      ∧ ∃ r' c', r' < 5 ∧ c' < 5 ∧ layerAt g 0 r' c' = true := by
  intro fuel
  induction fuel with
  | zero => intro r c ls hrf; exact absurd hrf (Nat.not_lt_zero r)
  | succ fuel ih =>
    intro r c ls hrf hr hc hcell
    rcases snapUp_cases ls with hins | hins
    · cases r with
      | zero =>
        rw [snapUp_stop ls c hc hcell] at hins
        cases hins
      | succ r0 =>
        have hr0 : r0 < 5 := Nat.lt_of_succ_lt hr
        have hcell' : layerAt (applyShift ShiftInstruction.Up ls) 0 r0 c = true := by
          rw [layerAt0_up ls r0 c hr0 hc]
          have : (r0 == 4) = false :=
            beq_eq_false_iff_ne.mpr (Nat.ne_of_lt (Nat.lt_of_succ_lt_succ hr))
          rw [this]
          exact hcell
        obtain ⟨g, hg, r', c', hr', hc', hcg⟩ :=
          ih r0 c (applyShift ShiftInstruction.Up ls)
            (Nat.lt_of_succ_lt_succ hrf) hr0 hc hcell'
        refine ⟨g, ?_, r', c', hr', hc', hcg⟩
        rw [shiftLoop_succ, hins]
        exact hg
    · refine ⟨ls, ?_, r, c, hr, hc, hcell⟩
      rw [shiftLoop_succ, hins]

/-- The leftward loop terminates once the fuel exceeds the column of any
set layer-0 cell, and its result still has a set layer-0 cell. -/
theorem leftLoop_terminates : ∀ (fuel c r : Nat) (ls : ShapeGrid),
    c < fuel → r < 5 → c < 5 → layerAt ls 0 r c = true →
    ∃ g, shiftLoop snapLeftInstruction fuel ls = some g
      ∧ ∃ r' c', r' < 5 ∧ c' < 5 ∧ layerAt g 0 r' c' = true := by
  intro fuel
  induction fuel with
  | zero => intro c r ls hcf; exact absurd hcf (Nat.not_lt_zero c)
  | succ fuel ih =>
    intro c r ls hcf hr hc hcell
    rcases snapLeft_cases ls with hins | hins
    · cases c with
      | zero =>
        rw [snapLeft_stop ls r hr hcell] at hins
        cases hins
      | succ c0 =>
        have hc0 : c0 < 5 := Nat.lt_of_succ_lt hc
        have hcell' : layerAt (applyShift ShiftInstruction.Left ls) 0 r c0 = true := by
          rw [layerAt0_left ls r c0 hr hc0]
          have : (c0 == 4) = false :=
            beq_eq_false_iff_ne.mpr (Nat.ne_of_lt (Nat.lt_of_succ_lt_succ hc))
          rw [this]
          exact hcell
        obtain ⟨g, hg, r', c', hr', hc', hcg⟩ :=
          ih c0 r (applyShift ShiftInstruction.Left ls)
            (Nat.lt_of_succ_lt_succ hcf) hr hc0 hcell'
        refine ⟨g, ?_, r', c', hr', hc', hcg⟩
        rw [shiftLoop_succ, hins]
        exact hg
    · refine ⟨ls, ?_, r, c, hr, hc, hcell⟩
      rw [shiftLoop_succ, hins]

/-- C6: corrected.  If the shape has a set cell in layer 0 (which every
catalog shape has), both snap loops reach `Stop` within the budget, so
`snap_to_top_left` completes without the infinite-loop panic.  (The
claim's weaker hypothesis — any occupied cell anywhere — does not suffice,
see the counterexample.) -/
theorem claim_C6 (s : Shape) (h : hasLayer0Cell s = true) :
    (Shape.snap_to_top_left s).isSome = true := by
  rw [hasLayer0Cell] at h
  simp only [List.any_eq_true, List.mem_range, Shape.is_set, decide_eq_true_eq] at h
  obtain ⟨r, hr, c, hc, hcell⟩ := h
  obtain ⟨g1, hg1, r1, c1, hr1, hc1, hcell1⟩ :=
    upLoop_terminates 20 r c s.layers (by omega) hr hc hcell
  obtain ⟨g2, hg2, _, _, _, _, _⟩ :=
    leftLoop_terminates 20 c1 r1 g1 (by omega) hr1 hc1 hcell1
  have hup : shift s.layers snapUpInstruction = some g1 := hg1
  have hleft : shift g1 snapLeftInstruction = some g2 := hg2
  rw [Shape.snap_to_top_left, hup, Option.some_bind, hleft, Option.map_some']
  rfl

/-- The shape whose only cell is layer 3, cell `(0, 1)` — the one top-row
cell of layer 3 that `snapUpInstruction` does not inspect. -/
def badSnapShape : Shape :=
  ⟨[[[false, false, false, false, false], [false, false, false, false, false],
     [false, false, false, false, false], [false, false, false, false, false],
     [false, false, false, false, false]],
    [[false, false, false, false], [false, false, false, false],
     [false, false, false, false], [false, false, false, false]],
    [[false, false, false], [false, false, false], [false, false, false]],
    [[false, true], [false, false]],
    [[false]]], false⟩

/-- C6 counterexample: a shape with an occupied cell (layer 3, cell
`(0, 1)`) whose upward snap loop never stops — the cell cycles between the
two rows of layer 3 while the instruction only inspects cell `(0, 0)` — so
`snap_to_top_left` exhausts its budget and hits the panic branch. -/
theorem claim_C6_cx :
    (!shapeLayerEmpty badSnapShape 3) = true
      ∧ Shape.snap_to_top_left badSnapShape = none := by
  constructor
  · decide
  · decide

/-! ### Claim C2: add_shape followed by remove_shape restores the board -/

/-- Which grid cells the layer loop of `add_shape` writes, from layer `k`
with `fuel` layers remaining (mirrors the recursion of `addShapeAux`). -/
def writtenUpTo (s : Shape) (ro co L nr nc : Nat) : Nat → Nat → Nat → Nat → Nat → Bool
  | 0, _, _, _, _ => false
  | fuel + 1, k, l, r, c =>
    ((l == L + k) && writtenInLayer s ro co nr nc k r c)
      || (if !s.is_3d || shapeLayerEmpty s k then false
          else writtenUpTo s ro co L nr nc fuel (k + 1) l r c)

theorem writtenUpTo_succ (s : Shape) (ro co L nr nc fuel k l r c : Nat) :
    writtenUpTo s ro co L nr nc (fuel + 1) k l r c
      = (((l == L + k) && writtenInLayer s ro co nr nc k r c)
          || (if !s.is_3d || shapeLayerEmpty s k then false
              else writtenUpTo s ro co L nr nc fuel (k + 1) l r c)) := rfl

theorem doesShapeFitAux_succ (b : Board) (s : Shape) (ro co fuel k : Nat) :
    doesShapeFitAux b s ro co (fuel + 1) k
      = if b.next_pos.layer + k ≥ b.dims.length then shapeLayerEmpty s k
        else if !layerPlacementOk b s ro co k then false
        else if !s.is_3d || shapeLayerEmpty s k then true
        else doesShapeFitAux b s ro co fuel (k + 1) := rfl

/-- `add_shape` with the offset pair destructured. -/
theorem add_shape_eq (b : Board) (s : Shape) (letter : Char) :
    add_shape b s letter
      = ⟨b.dims,
         addShapeAux s letter (calculate_shape_offsets s).1 (calculate_shape_offsets s).2
           b.next_pos.layer b.next_pos.row b.next_pos.col shapeLayerCount 0 b.grid,
         (findVal b.dims
            (addShapeAux s letter (calculate_shape_offsets s).1 (calculate_shape_offsets s).2
              b.next_pos.layer b.next_pos.row b.next_pos.col shapeLayerCount 0 b.grid)
            EMPTY_SLOT).getD ⟨0, 0, 0⟩⟩ := rfl

/-- `does_shape_fit` with the offset pair destructured. -/
theorem does_shape_fit_eq (b : Board) (s : Shape) :
    does_shape_fit b s
      = doesShapeFitAux b s (calculate_shape_offsets s).1 (calculate_shape_offsets s).2
          shapeLayerCount 0 := rfl

/-- `layerPlacementOk` with the per-layer dimension pair destructured. -/
theorem layerPlacementOk_eq (b : Board) (s : Shape) (ro co k : Nat) :
    layerPlacementOk b s ro co k
      = ((List.range (shapeDimensions k).1).all fun shape_row =>
          (List.range (shapeDimensions k).1).all fun shape_col =>
            !(s.is_set k shape_row shape_col) ||
              (decide (wsub (b.next_pos.row + shape_row) ro
                  < (b.dims.getD (b.next_pos.layer + k) (0, 0)).1)
                && decide (wsub (b.next_pos.col + shape_col) co
                    < (b.dims.getD (b.next_pos.layer + k) (0, 0)).2)
                && (b.grid (b.next_pos.layer + k) (wsub (b.next_pos.row + shape_row) ro)
                      (wsub (b.next_pos.col + shape_col) co) == EMPTY_SLOT))) := rfl

/-- An empty shape layer writes nothing. -/
theorem writtenInLayer_of_empty (s : Shape) (ro co nr nc k r c : Nat)
    (h : shapeLayerEmpty s k = true) :
    writtenInLayer s ro co nr nc k r c = false := by
  rw [shapeLayerEmpty] at h
  simp only [List.all_eq_true, List.mem_range, Bool.not_eq_true'] at h
  rw [writtenInLayer]
  apply Bool.eq_false_iff.mpr
  intro hany
  simp only [List.any_eq_true, List.mem_range, Bool.and_eq_true] at hany
  obtain ⟨sr, hsr, sc, hsc, ⟨hset, _⟩, _⟩ := hany
  rw [h sr hsr sc hsc] at hset
  exact Bool.false_ne_true hset

/-- Facts about a written cell when the fit scan accepted its layer: it is
in bounds and empty. -/
theorem written_cell_facts (b : Board) (s : Shape) (ro co k l r c : Nat)
    (hok : layerPlacementOk b s ro co k = true)
    (hbl : ¬ b.next_pos.layer + k ≥ b.dims.length)
    (hW : ((l == b.next_pos.layer + k)
        && writtenInLayer s ro co b.next_pos.row b.next_pos.col k r c) = true) :
    inBoundsB b.dims l r c = true ∧ b.grid l r c = EMPTY_SLOT := by
  rw [Bool.and_eq_true] at hW
  obtain ⟨hleq, hwil⟩ := hW
  have hl : l = b.next_pos.layer + k := eq_of_beq hleq
  rw [writtenInLayer] at hwil
  simp only [List.any_eq_true, List.mem_range, Bool.and_eq_true] at hwil
  obtain ⟨sr, hsr, sc, hsc, ⟨hset, hrow⟩, hcol⟩ := hwil
  have hr : wsub (b.next_pos.row + sr) ro = r := eq_of_beq hrow
  have hc : wsub (b.next_pos.col + sc) co = c := eq_of_beq hcol
  rw [layerPlacementOk_eq] at hok
  simp only [List.all_eq_true, List.mem_range] at hok
  have hcell := hok sr hsr sc hsc
  rw [hset] at hcell
  simp only [Bool.not_true, Bool.false_or, Bool.and_eq_true, decide_eq_true_eq] at hcell
  obtain ⟨⟨hbr, hbc⟩, hemp⟩ := hcell
  have hgrid : b.grid (b.next_pos.layer + k) (wsub (b.next_pos.row + sr) ro)
      (wsub (b.next_pos.col + sc) co) = EMPTY_SLOT := eq_of_beq hemp
  subst hl
  rw [← hr, ← hc]
  constructor
  · rw [inBoundsB]
    simp only [Bool.and_eq_true, decide_eq_true_eq]
    exact ⟨⟨Nat.lt_of_not_le hbl, hbr⟩, hbc⟩
  · exact hgrid

/-- The pointwise effect of the `add_shape` layer loop. -/
theorem addShapeAux_apply (s : Shape) (letter : Char) (ro co L nr nc : Nat) :
    ∀ (fuel k : Nat) (g : Grid) (l r c : Nat),
      addShapeAux s letter ro co L nr nc fuel k g l r c
        = if writtenUpTo s ro co L nr nc fuel k l r c then letter else g l r c := by
  intro fuel
  induction fuel with
  | zero => intro k g l r c; rfl
  | succ fuel ih =>
    intro k g l r c
    by_cases hstop : (!s.is_3d || shapeLayerEmpty s k) = true
    · have heq : addShapeAux s letter ro co L nr nc (fuel + 1) k g
          = writeShapeLayer g s letter ro co nr nc k (L + k) := by
        show (if !s.is_3d || shapeLayerEmpty s k then _ else _) = _
        rw [if_pos hstop]
      have hw : writtenUpTo s ro co L nr nc (fuel + 1) k l r c
          = ((l == L + k) && writtenInLayer s ro co nr nc k r c) := by
        rw [writtenUpTo_succ, if_pos hstop, Bool.or_false]
      rw [heq, hw]
      rfl
    · have heq : addShapeAux s letter ro co L nr nc (fuel + 1) k g
          = addShapeAux s letter ro co L nr nc fuel (k + 1)
              (writeShapeLayer g s letter ro co nr nc k (L + k)) := by
        show (if !s.is_3d || shapeLayerEmpty s k then _ else _) = _
        rw [if_neg hstop]
      have hw : writtenUpTo s ro co L nr nc (fuel + 1) k l r c
          = (((l == L + k) && writtenInLayer s ro co nr nc k r c)
              || writtenUpTo s ro co L nr nc fuel (k + 1) l r c) := by
        rw [writtenUpTo_succ, if_neg hstop]
      rw [heq, ih (k + 1) _ l r c, hw]
      by_cases hW : writtenUpTo s ro co L nr nc fuel (k + 1) l r c = true
      · rw [hW, if_pos rfl, Bool.or_true, if_pos rfl]
      · rw [Bool.eq_false_iff.mpr hW, Bool.or_false, if_neg (Bool.false_ne_true)]
        rfl

/-- Every cell written by `add_shape` is in bounds and empty, provided the
fit scan accepted the placement. -/
theorem fit_written_facts (b : Board) (s : Shape) (ro co : Nat) :
    ∀ (fuel k : Nat),
      doesShapeFitAux b s ro co fuel k = true →
      ∀ l r c, writtenUpTo s ro co b.next_pos.layer b.next_pos.row b.next_pos.col
          fuel k l r c = true →
        inBoundsB b.dims l r c = true ∧ b.grid l r c = EMPTY_SLOT := by
  intro fuel
  induction fuel with
  | zero => intro k _ l r c hW; exact absurd hW Bool.false_ne_true
  | succ fuel ih =>
    intro k hfit l r c hW
    rw [doesShapeFitAux_succ] at hfit
    rw [writtenUpTo_succ] at hW
    by_cases hbl : b.next_pos.layer + k ≥ b.dims.length
    · rw [if_pos hbl] at hfit
      have hstop : (!s.is_3d || shapeLayerEmpty s k) = true := by
        rw [hfit, Bool.or_true]
      rw [writtenInLayer_of_empty s ro co b.next_pos.row b.next_pos.col k r c hfit,
        if_pos hstop, Bool.and_false, Bool.or_false] at hW
      exact absurd hW Bool.false_ne_true
    · rw [if_neg hbl] at hfit
      by_cases hok : layerPlacementOk b s ro co k = true
      · rw [if_neg (by simp [hok])] at hfit
        by_cases hstop : (!s.is_3d || shapeLayerEmpty s k) = true
        · rw [if_pos hstop, Bool.or_false] at hW
          exact written_cell_facts b s ro co k l r c hok hbl hW
        · rw [if_neg hstop] at hfit hW
          rw [Bool.or_eq_true] at hW
          rcases hW with hW1 | hWrec
          · exact written_cell_facts b s ro co k l r c hok hbl hW1
          · exact ih (k + 1) hfit l r c hWrec
      · rw [if_pos (show (!layerPlacementOk b s ro co k) = true by
            rw [Bool.eq_false_iff.mpr hok]; rfl)] at hfit
        exact absurd hfit Bool.false_ne_true

/-- C2: corrected.  When the shape fits at the current position, its letter
is not already on the board, and the shape has a layer-0 cell, adding at
`next_pos` and then removing the letter restores every cell, and the new
`next_pos` is an in-bounds empty cell of the resulting board.  (Without the
fit precondition the round trip can leave letters at out-of-range wrapped
indices, see the counterexample.) -/
theorem claim_C2 (b : Board) (s : Shape) (letter : Char)
    (hfit : does_shape_fit b s = true)
    (habs : gridContains b letter = false)
    (hcell : hasLayer0Cell s = true) :
    (∀ l r c, (remove_shape (add_shape b s letter) letter).grid l r c = b.grid l r c)
    ∧ inBoundsB b.dims (remove_shape (add_shape b s letter) letter).next_pos.layer
        (remove_shape (add_shape b s letter) letter).next_pos.row
        (remove_shape (add_shape b s letter) letter).next_pos.col = true
    ∧ (remove_shape (add_shape b s letter) letter).grid
        (remove_shape (add_shape b s letter) letter).next_pos.layer
        (remove_shape (add_shape b s letter) letter).next_pos.row
        (remove_shape (add_shape b s letter) letter).next_pos.col = EMPTY_SLOT := by
  have hfit5 : doesShapeFitAux b s (calculate_shape_offsets s).1
      (calculate_shape_offsets s).2 shapeLayerCount 0 = true := by
    rw [← does_shape_fit_eq]; exact hfit
  have hg1 : ∀ l r c,
      addShapeAux s letter (calculate_shape_offsets s).1 (calculate_shape_offsets s).2
        b.next_pos.layer b.next_pos.row b.next_pos.col shapeLayerCount 0 b.grid l r c
      = if writtenUpTo s (calculate_shape_offsets s).1 (calculate_shape_offsets s).2
            b.next_pos.layer b.next_pos.row b.next_pos.col shapeLayerCount 0 l r c
        then letter else b.grid l r c :=
    fun l r c => addShapeAux_apply s letter _ _ _ _ _ shapeLayerCount 0 b.grid l r c
  have hWfacts : ∀ l r c,
      writtenUpTo s (calculate_shape_offsets s).1 (calculate_shape_offsets s).2
        b.next_pos.layer b.next_pos.row b.next_pos.col shapeLayerCount 0 l r c = true →
      inBoundsB b.dims l r c = true ∧ b.grid l r c = EMPTY_SLOT :=
    fun l r c => fit_written_facts b s _ _ shapeLayerCount 0 hfit5 l r c
  have habs' : ∀ l r c, inBoundsB b.dims l r c = true →
      (b.grid l r c == letter) = false := by
    intro l r c hib
    cases hbe : (b.grid l r c == letter) with
    | false => rfl
    | true =>
      have hcon : gridContains b letter = true :=
        List.any_eq_true.mpr ⟨⟨l, r, c⟩, mem_allPositions.mpr hib, hbe⟩
      rw [habs] at hcon
      exact absurd hcon Bool.false_ne_true
  have hb2 := add_shape_eq b s letter
  have hgridpt : ∀ l r c, (remove_shape (add_shape b s letter) letter).grid l r c
      = if inBoundsB b.dims l r c
            && (addShapeAux s letter (calculate_shape_offsets s).1
                  (calculate_shape_offsets s).2 b.next_pos.layer b.next_pos.row
                  b.next_pos.col shapeLayerCount 0 b.grid l r c == letter)
        then EMPTY_SLOT
        else addShapeAux s letter (calculate_shape_offsets s).1
              (calculate_shape_offsets s).2 b.next_pos.layer b.next_pos.row
              b.next_pos.col shapeLayerCount 0 b.grid l r c := by
    intro l r c
    rw [hb2]
    rfl
  refine ⟨?_, ?_⟩
  · intro l r c
    rw [hgridpt l r c]
    by_cases hW : writtenUpTo s (calculate_shape_offsets s).1 (calculate_shape_offsets s).2
        b.next_pos.layer b.next_pos.row b.next_pos.col shapeLayerCount 0 l r c = true
    · obtain ⟨hib, hemp⟩ := hWfacts l r c hW
      have hlv : addShapeAux s letter (calculate_shape_offsets s).1
          (calculate_shape_offsets s).2 b.next_pos.layer b.next_pos.row b.next_pos.col
          shapeLayerCount 0 b.grid l r c = letter := by
        rw [hg1 l r c, hW]
        rfl
      simp [hlv, hib, hemp]
    · have hWf := Bool.eq_false_iff.mpr hW
      have hlv : addShapeAux s letter (calculate_shape_offsets s).1
          (calculate_shape_offsets s).2 b.next_pos.layer b.next_pos.row b.next_pos.col
          shapeLayerCount 0 b.grid l r c = b.grid l r c := by
        rw [hg1 l r c, hWf]
        rfl
      rw [hlv]
      by_cases hib : inBoundsB b.dims l r c = true
      · rw [habs' l r c hib]
        simp
      · simp [Bool.eq_false_iff.mpr hib]
  -- the next_pos clauses
  rw [hasLayer0Cell] at hcell
  simp only [List.any_eq_true, List.mem_range] at hcell
  obtain ⟨sr, hsr, sc, hsc, hset⟩ := hcell
  have hWcell : writtenUpTo s (calculate_shape_offsets s).1 (calculate_shape_offsets s).2
      b.next_pos.layer b.next_pos.row b.next_pos.col shapeLayerCount 0
      b.next_pos.layer
      (wsub (b.next_pos.row + sr) (calculate_shape_offsets s).1)
      (wsub (b.next_pos.col + sc) (calculate_shape_offsets s).2) = true := by
    show writtenUpTo _ _ _ _ _ _ (4 + 1) 0 _ _ _ = true
    rw [writtenUpTo_succ]
    rw [Bool.or_eq_true]
    left
    rw [Bool.and_eq_true]
    refine ⟨?_, ?_⟩
    · show (b.next_pos.layer == b.next_pos.layer + 0) = true
      rw [Nat.add_zero]
      exact beq_self_eq_true b.next_pos.layer
    · rw [writtenInLayer]
      apply List.any_eq_true.mpr
      refine ⟨sr, List.mem_range.mpr hsr, ?_⟩
      apply List.any_eq_true.mpr
      refine ⟨sc, List.mem_range.mpr hsc, ?_⟩
      rw [Bool.and_eq_true, Bool.and_eq_true]
      exact ⟨⟨hset, beq_self_eq_true _⟩, beq_self_eq_true _⟩
  obtain ⟨hibW, hempW⟩ := hWfacts _ _ _ hWcell
  have hg1cell : addShapeAux s letter (calculate_shape_offsets s).1
      (calculate_shape_offsets s).2 b.next_pos.layer b.next_pos.row b.next_pos.col
      shapeLayerCount 0 b.grid b.next_pos.layer
      (wsub (b.next_pos.row + sr) (calculate_shape_offsets s).1)
      (wsub (b.next_pos.col + sc) (calculate_shape_offsets s).2) = letter := by
    rw [hg1 _ _ _, hWcell]
    rfl
  have hfind : ∃ q, (allPositions b.dims).find?
      (fun p => addShapeAux s letter (calculate_shape_offsets s).1
          (calculate_shape_offsets s).2 b.next_pos.layer b.next_pos.row b.next_pos.col
          shapeLayerCount 0 b.grid p.layer p.row p.col == letter) = some q := by
    apply Option.isSome_iff_exists.mp
    apply List.find?_isSome.mpr
    refine ⟨⟨b.next_pos.layer,
      wsub (b.next_pos.row + sr) (calculate_shape_offsets s).1,
      wsub (b.next_pos.col + sc) (calculate_shape_offsets s).2⟩,
      mem_allPositions.mpr hibW, ?_⟩
    rw [hg1cell]
    exact beq_self_eq_true letter
  obtain ⟨q, hq⟩ := hfind
  have hqpred := List.find?_some hq
  have hqmem := List.mem_of_find?_eq_some hq
  obtain ⟨ql, qr, qc⟩ := q
  have hqib : inBoundsB b.dims ql qr qc = true := mem_allPositions.mp hqmem
  have hnp : (remove_shape (add_shape b s letter) letter).next_pos
      = (⟨ql, qr, qc⟩ : Position) := by
    rw [hb2]
    show ((allPositions b.dims).find? _).getD _ = _
    rw [hq]
    rfl
  refine ⟨?_, ?_⟩
  · rw [hnp]
    exact hqib
  · rw [hnp]
    rw [hgridpt ql qr qc, hqib, hqpred]
    rfl

/-- The flat 2×2-square shape used to witness claim C2. -/
def c2Square : Shape :=
  ⟨[[[true, true, false, false, false], [true, true, false, false, false],
     [false, false, false, false, false], [false, false, false, false, false],
     [false, false, false, false, false]],
    [[false, false, false, false], [false, false, false, false],
     [false, false, false, false], [false, false, false, false]],
    [[false, false, false], [false, false, false], [false, false, false]],
    [[false, false], [false, false]],
    [[false]]], false⟩

/-- C6 witness: the corrected statement at a concrete shape with a layer-0
cell (the 2×2 square used elsewhere): its snap completes. -/
theorem claim_C6_witness : (Shape.snap_to_top_left c2Square).isSome = true :=
  claim_C6 c2Square (by decide)

/-- C2 witness: the corrected statement at the fresh rectangle board with
the 2×2 square and letter `'A'`. -/
theorem claim_C2_witness :
    (∀ l r c, (remove_shape (add_shape (Board.new rectangleDims) c2Square 'A') 'A').grid l r c
        = (Board.new rectangleDims).grid l r c)
    ∧ inBoundsB (Board.new rectangleDims).dims
        (remove_shape (add_shape (Board.new rectangleDims) c2Square 'A') 'A').next_pos.layer
        (remove_shape (add_shape (Board.new rectangleDims) c2Square 'A') 'A').next_pos.row
        (remove_shape (add_shape (Board.new rectangleDims) c2Square 'A') 'A').next_pos.col
        = true
    ∧ (remove_shape (add_shape (Board.new rectangleDims) c2Square 'A') 'A').grid
        (remove_shape (add_shape (Board.new rectangleDims) c2Square 'A') 'A').next_pos.layer
        (remove_shape (add_shape (Board.new rectangleDims) c2Square 'A') 'A').next_pos.row
        (remove_shape (add_shape (Board.new rectangleDims) c2Square 'A') 'A').next_pos.col
        = EMPTY_SLOT :=
  claim_C2 (Board.new rectangleDims) c2Square 'A' (by decide) (by decide) (by decide)

/-- The shape refuting the unconditional claim C2: cells `(0, 1)` and
`(1, 0)` of layer 0, whose offset `(0, 1)` places cell `(1, 0)` one column
to the left of the anchor column. -/
def c2CxShape : Shape :=
  ⟨[[[false, true, false, false, false], [true, false, false, false, false],
     [false, false, false, false, false], [false, false, false, false, false],
     [false, false, false, false, false]],
    [[false, false, false, false], [false, false, false, false],
     [false, false, false, false], [false, false, false, false]],
    [[false, false, false], [false, false, false], [false, false, false]],
    [[false, false], [false, false]],
    [[false]]], false⟩

/-- C2 counterexample: without the fit precondition the add/remove round
trip does NOT restore the board, even with the letter absent and every
write in bounds. On the board holding a `'B'` square at cells
`(0,0)…(1,1)`, `next_pos` is `(0,0,2)`, so `c2CxShape`'s offset `(0,1)`
maps its cell `(1,0)` onto the occupied cell `(0,1,1)` (column
`2 + 0 - 1 = 1`: no underflow, all indices inside the 5×11 layer):
`add_shape` overwrites the `'B'` there, and the subsequent `remove_shape`
clears that cell to the empty sentinel instead of restoring `'B'`. -/
theorem claim_C2_cx :
    gridContains (add_shape (Board.new rectangleDims) c2Square 'B') 'A' = false
    ∧ does_shape_fit (add_shape (Board.new rectangleDims) c2Square 'B') c2CxShape
        = false
    ∧ (add_shape (Board.new rectangleDims) c2Square 'B').grid 0 1 1 = 'B'
    ∧ (remove_shape
        (add_shape (add_shape (Board.new rectangleDims) c2Square 'B') c2CxShape 'A')
        'A').grid 0 1 1 = EMPTY_SLOT := by
  refine ⟨by decide, by decide, by decide, by decide⟩

/-! ### Claim C4: characterisation of does_shape_fit -/

/-- `fitViolationExists` with both destructured pairs exposed. -/
theorem fitViolationExists_eq (b : Board) (s : Shape) :
    fitViolationExists b s
      = ((List.range shapeLayerCount).any fun k =>
          (List.range (shapeDimensions k).1).any fun r =>
            (List.range (shapeDimensions k).1).any fun c =>
              s.is_set k r c &&
                (decide (b.next_pos.layer + k ≥ b.dims.length) ||
                  (decide (wsub (b.next_pos.row + r) (calculate_shape_offsets s).1
                      ≥ (b.dims.getD (b.next_pos.layer + k) (0, 0)).1)
                    || decide (wsub (b.next_pos.col + c) (calculate_shape_offsets s).2
                        ≥ (b.dims.getD (b.next_pos.layer + k) (0, 0)).2)
                    || !(b.grid (b.next_pos.layer + k)
                          (wsub (b.next_pos.row + r) (calculate_shape_offsets s).1)
                          (wsub (b.next_pos.col + c) (calculate_shape_offsets s).2)
                        == EMPTY_SLOT)))) := rfl

/-- Layers at index 5 and above are empty (their dimension table entry is
`(0, 0)`). -/
theorem empty_ge5 (s : Shape) (k : Nat) (h : 5 ≤ k) : shapeLayerEmpty s k = true := by
  rw [shapeLayerEmpty]
  have hd : shapeDimensions k = (0, 0) := by
    rw [shapeDimensions]
    exact List.getD_eq_default _ _ (by exact h)
  rw [hd]
  rfl

/-- In a well-formed shape, emptiness propagates upward. -/
theorem wf_empty_mono (s : Shape) (hwf : wellFormedShape s = true) :
    ∀ d k, shapeLayerEmpty s k = true → shapeLayerEmpty s (k + d) = true := by
  intro d
  induction d with
  | zero => intro k h; exact h
  | succ d ih =>
    intro k h
    have hkd := ih k h
    by_cases h5 : 5 ≤ k + d
    · exact empty_ge5 s (k + d + 1) (by omega)
    · rw [wellFormedShape] at hwf
      by_cases h3 : s.is_3d = true
      · rw [if_pos h3] at hwf
        simp only [List.all_eq_true, List.mem_range] at hwf
        by_cases h4 : k + d < 4
        · have := hwf (k + d) h4
          rw [hkd, Bool.not_true, Bool.false_or] at this
          exact this
        · exact empty_ge5 s (k + d + 1) (by omega)
      · rw [if_neg h3] at hwf
        simp only [List.all_eq_true, List.mem_range] at hwf
        by_cases h4 : k + d < 4
        · exact hwf (k + d) h4
        · exact empty_ge5 s (k + d + 1) (by omega)

/-- In a well-formed flat shape, every layer above 0 is empty. -/
theorem flat_empty (s : Shape) (hwf : wellFormedShape s = true)
    (h3 : s.is_3d = false) : ∀ j, 1 ≤ j → shapeLayerEmpty s j = true := by
  intro j hj
  by_cases h5 : 5 ≤ j
  · exact empty_ge5 s j h5
  · rw [wellFormedShape, if_neg (by rw [h3]; exact Bool.false_ne_true)] at hwf
    simp only [List.all_eq_true, List.mem_range] at hwf
    have := hwf (j - 1) (by omega)
    rw [show j - 1 + 1 = j by omega] at this
    exact this

/-- An empty shape layer always passes the per-layer placement check. -/
theorem ok_of_empty (b : Board) (s : Shape) (ro co k : Nat)
    (h : shapeLayerEmpty s k = true) :
    layerPlacementOk b s ro co k = true := by
  rw [layerPlacementOk_eq]
  rw [shapeLayerEmpty] at h
  simp only [List.all_eq_true, List.mem_range, Bool.not_eq_true'] at h
  simp only [List.all_eq_true, List.mem_range]
  intro sr hsr sc hsc
  simp [h sr hsr sc hsc]

/-- A non-empty shape layer whose board layer is missing fails the
per-layer placement check. -/
theorem not_ok_of_missing (b : Board) (s : Shape) (ro co k : Nat)
    (hemp : shapeLayerEmpty s k = false)
    (hbl : b.next_pos.layer + k ≥ b.dims.length) :
    layerPlacementOk b s ro co k = false := by
  have hcell : ∃ sr, sr < (shapeDimensions k).1 ∧ ∃ sc, sc < (shapeDimensions k).1
      ∧ s.is_set k sr sc = true := by
    have hne : ¬ (shapeLayerEmpty s k = true) := by rw [hemp]; exact Bool.false_ne_true
    rw [shapeLayerEmpty] at hne
    simp only [List.all_eq_true, List.mem_range, Bool.not_eq_true'] at hne
    push_neg at hne
    obtain ⟨sr, hsr, sc, hsc, hset⟩ := hne
    exact ⟨sr, hsr, sc, hsc, by
      cases hv : s.is_set k sr sc with
      | true => rfl
      | false => exact absurd hv hset⟩
  obtain ⟨sr, hsr, sc, hsc, hset⟩ := hcell
  have hgetd : b.dims.getD (b.next_pos.layer + k) (0, 0) = (0, 0) :=
    List.getD_eq_default _ _ hbl
  rw [layerPlacementOk_eq]
  apply Bool.eq_false_iff.mpr
  intro hall
  simp only [List.all_eq_true, List.mem_range] at hall
  have hthis := hall sr hsr sc hsc
  rw [hset, hgetd] at hthis
  simp at hthis

/-- The violation predicate holds exactly when some layer fails the
per-layer placement check. -/
theorem fitViol_iff (b : Board) (s : Shape) :
    fitViolationExists b s = true
      ↔ ∃ k, k < shapeLayerCount
          ∧ layerPlacementOk b s (calculate_shape_offsets s).1
              (calculate_shape_offsets s).2 k = false := by
  rw [fitViolationExists_eq]
  simp only [List.any_eq_true, List.mem_range]
  constructor
  · rintro ⟨k, hk, r, hr, c, hc, hterm⟩
    refine ⟨k, hk, ?_⟩
    apply Bool.eq_false_iff.mpr
    intro hall
    rw [layerPlacementOk_eq] at hall
    simp only [List.all_eq_true, List.mem_range] at hall
    have hrc := hall r hr c hc
    rw [Bool.and_eq_true] at hterm
    obtain ⟨hset, hdisj⟩ := hterm
    rw [hset, Bool.not_true, Bool.false_or, Bool.and_eq_true, Bool.and_eq_true] at hrc
    obtain ⟨⟨hbr, hbc⟩, hempcell⟩ := hrc
    simp only [Bool.or_eq_true, decide_eq_true_eq] at hdisj
    simp only [decide_eq_true_eq] at hbr hbc
    rcases hdisj with hmiss | ⟨hge | hge⟩ | hne
    · have : b.dims.getD (b.next_pos.layer + k) (0, 0) = (0, 0) :=
        List.getD_eq_default _ _ hmiss
      rw [this] at hbr
      exact absurd hbr (by omega)
    · omega
    · omega
    · rw [hempcell] at hne
      exact Bool.noConfusion hne
  · rintro ⟨k, hk, hok⟩
    have hne : ¬ (layerPlacementOk b s (calculate_shape_offsets s).1
        (calculate_shape_offsets s).2 k = true) := by
      rw [hok]; exact Bool.false_ne_true
    rw [layerPlacementOk_eq] at hne
    simp only [List.all_eq_true, List.mem_range] at hne
    push_neg at hne
    obtain ⟨r, hr, c, hc, hterm⟩ := hne
    refine ⟨k, hk, r, hr, c, hc, ?_⟩
    cases hv : s.is_set k r c with
    | false =>
      rw [hv] at hterm
      simp at hterm
    | true =>
      rw [Bool.true_and]
      rw [hv, Bool.not_true, Bool.false_or] at hterm
      have hterm' := Bool.eq_false_iff.mpr hterm
      have hsplit : decide (wsub (b.next_pos.row + r) (calculate_shape_offsets s).1
            < (b.dims.getD (b.next_pos.layer + k) (0, 0)).1) = false
          ∨ decide (wsub (b.next_pos.col + c) (calculate_shape_offsets s).2
              < (b.dims.getD (b.next_pos.layer + k) (0, 0)).2) = false
          ∨ (b.grid (b.next_pos.layer + k)
                (wsub (b.next_pos.row + r) (calculate_shape_offsets s).1)
                (wsub (b.next_pos.col + c) (calculate_shape_offsets s).2)
              == EMPTY_SLOT) = false := by
        rcases Bool.and_eq_false_iff.mp hterm' with hab | hc3
        · rcases Bool.and_eq_false_iff.mp hab with ha | hb
          · exact Or.inl ha
          · exact Or.inr (Or.inl hb)
        · exact Or.inr (Or.inr hc3)
      simp only [Bool.or_eq_true, decide_eq_true_eq, Bool.not_eq_true']
      rcases hsplit with ha | hb | hc3
      · exact Or.inr (Or.inl (Or.inl (Nat.le_of_not_lt (of_decide_eq_false ha))))
      · exact Or.inr (Or.inl (Or.inr (Nat.le_of_not_lt (of_decide_eq_false hb))))
      · exact Or.inr (Or.inr hc3)

/-- The layer loop of `does_shape_fit` returns `false` exactly when some
layer in its remaining range fails the per-layer check — provided the shape
is well-formed (so that the early exit at an empty layer cannot skip an
occupied one). -/
theorem fitAux_false_iff (b : Board) (s : Shape) (ro co : Nat)
    (hwf : wellFormedShape s = true) :
    ∀ fuel k, (doesShapeFitAux b s ro co fuel k = false
      ↔ ∃ j, k ≤ j ∧ j < k + fuel ∧ layerPlacementOk b s ro co j = false) := by
  intro fuel
  induction fuel with
  | zero =>
    intro k
    constructor
    · intro h; exact absurd h (by exact fun hx => Bool.noConfusion hx)
    · rintro ⟨j, hkj, hjk, _⟩
      exact absurd hjk (by omega)
  | succ fuel ih =>
    intro k
    rw [doesShapeFitAux_succ]
    by_cases hbl : b.next_pos.layer + k ≥ b.dims.length
    · rw [if_pos hbl]
      by_cases hemp : shapeLayerEmpty s k = true
      · rw [hemp]
        constructor
        · intro h; exact Bool.noConfusion h
        · rintro ⟨j, hkj, _, hok⟩
          have hmono := wf_empty_mono s hwf (j - k) k hemp
          rw [show k + (j - k) = j by omega] at hmono
          rw [ok_of_empty b s ro co j hmono] at hok
          exact Bool.noConfusion hok
      · have hempf := Bool.eq_false_iff.mpr hemp
        rw [hempf]
        constructor
        · intro _
          exact ⟨k, Nat.le_refl k, by omega, not_ok_of_missing b s ro co k hempf hbl⟩
        · intro _; rfl
    · rw [if_neg hbl]
      by_cases hok : layerPlacementOk b s ro co k = true
      · rw [if_neg (by simp [hok])]
        by_cases hstop : (!s.is_3d || shapeLayerEmpty s k) = true
        · rw [if_pos hstop]
          constructor
          · intro h; exact Bool.noConfusion h
          · rintro ⟨j, hkj, hjf, hokj⟩
            rcases Nat.eq_or_lt_of_le hkj with rfl | hlt
            · rw [hok] at hokj; exact Bool.noConfusion hokj
            · have hempj : shapeLayerEmpty s j = true := by
                rw [Bool.or_eq_true] at hstop
                rcases hstop with hflat | hempk
                · exact flat_empty s hwf (by simpa using hflat) j (by omega)
                · have hmono := wf_empty_mono s hwf (j - k) k hempk
                  rw [show k + (j - k) = j by omega] at hmono
                  exact hmono
              rw [ok_of_empty b s ro co j hempj] at hokj
              exact Bool.noConfusion hokj
        · rw [if_neg hstop]
          rw [ih (k + 1)]
          constructor
          · rintro ⟨j, h1, h2, h3⟩
            exact ⟨j, by omega, by omega, h3⟩
          · rintro ⟨j, h1, h2, h3⟩
            rcases Nat.eq_or_lt_of_le h1 with rfl | hlt
            · rw [hok] at h3; exact Bool.noConfusion h3
            · exact ⟨j, by omega, by omega, h3⟩
      · have hokf := Bool.eq_false_iff.mpr hok
        rw [if_pos (show (!layerPlacementOk b s ro co k) = true by rw [hokf]; rfl)]
        constructor
        · intro _
          exact ⟨k, Nat.le_refl k, by omega, hokf⟩
        · intro _; rfl

/-- C4: corrected.  For a well-formed shape (flat shapes occupy only layer
0; 3-D shapes have no occupied layer above an empty one) the fit check
returns `false` exactly when the claim's violation condition holds.  (The
unrestricted claim is refuted by shapes with occupied cells above an empty
layer, which the scan's early exit never inspects — see the
counterexample.) -/
theorem claim_C4 (b : Board) (s : Shape) (hwf : wellFormedShape s = true) :
    does_shape_fit b s = false ↔ fitViolationExists b s = true := by
  rw [does_shape_fit_eq, fitViol_iff,
    fitAux_false_iff b s (calculate_shape_offsets s).1 (calculate_shape_offsets s).2
      hwf shapeLayerCount 0]
  constructor
  · rintro ⟨j, _, hj, hok⟩
    exact ⟨j, by simpa using hj, hok⟩
  · rintro ⟨j, hj5, hok⟩
    exact ⟨j, Nat.zero_le j, by simpa using hj5, hok⟩

/-- C4 witness: the corrected equivalence at the fresh rectangle board and
the (well-formed) 2×2 square. -/
theorem claim_C4_witness :
    does_shape_fit (Board.new rectangleDims) c2Square = false
      ↔ fitViolationExists (Board.new rectangleDims) c2Square = true :=
  claim_C4 (Board.new rectangleDims) c2Square (by decide)

/-- The shape refuting the unconditional claim C4: a flat shape with its
anchor cell in layer 0 and a stray occupied cell in layer 1. -/
def c4CxShape : Shape :=
  ⟨[[[true, false, false, false, false], [false, false, false, false, false],
     [false, false, false, false, false], [false, false, false, false, false],
     [false, false, false, false, false]],
    [[true, false, false, false], [false, false, false, false],
     [false, false, false, false], [false, false, false, false]],
    [[false, false, false], [false, false, false], [false, false, false]],
    [[false, false], [false, false]],
    [[false]]], false⟩

/-- C4 counterexample: for a flat shape with a stray layer-1 cell on the
one-layer rectangle board, the claim's violation condition holds (the cell
needs a missing board layer) yet `does_shape_fit` returns `true`, because
the scan breaks after layer 0 for flat shapes. -/
theorem claim_C4_cx :
    does_shape_fit (Board.new rectangleDims) c4CxShape = true
      ∧ fitViolationExists (Board.new rectangleDims) c4CxShape = true := by
  constructor
  · decide
  · decide

/-! ### Claim C9: the used-letters invariant of Placements -/

theorem afterFailureGo_next_orientation (fuel : Nat) (st : Placements)
    (f : PieceSuggestion) (sh : Shape)
    (h : get_piece_orientation f.name (f.orientation_index + 1) = some sh) :
    afterFailureGo fuel st f
      = (st, some ⟨⟨f.name, sh, f.orientation_index + 1⟩, []⟩) := by
  conv_lhs => unfold afterFailureGo
  simp only [h]

theorem afterFailureGo_next_piece (fuel : Nat) (st : Placements)
    (f : PieceSuggestion) (piece : PieceSuggestion)
    (h1 : get_piece_orientation f.name (f.orientation_index + 1) = none)
    (h2 : get_next_piece_to_try st f.name = some piece) :
    afterFailureGo fuel st f = (st, some ⟨piece, []⟩) := by
  conv_lhs => unfold afterFailureGo
  simp only [h1, h2]

theorem afterFailureGo_exhausted (fuel : Nat) (st : Placements) (f : PieceSuggestion)
    (h1 : get_piece_orientation f.name (f.orientation_index + 1) = none)
    (h2 : get_next_piece_to_try st f.name = none)
    (h3 : st.positions.getLast? = none) :
    afterFailureGo fuel st f = (st, none) := by
  conv_lhs => unfold afterFailureGo
  simp only [h1, h2, h3]

theorem afterFailureGo_pop (fuel : Nat) (st : Placements) (f : PieceSuggestion)
    (prev : PieceSuggestion)
    (h1 : get_piece_orientation f.name (f.orientation_index + 1) = none)
    (h2 : get_next_piece_to_try st f.name = none)
    (h3 : st.positions.getLast? = some prev) :
    afterFailureGo (fuel + 1) st f
      = (match afterFailureGo fuel
            ⟨st.positions.dropLast, st.used_letters.erase prev.name⟩ prev with
         | (st2, some result) => (st2, some ⟨result.piece, prev :: result.to_remove⟩)
         | (st2, none) => (st2, none)) := by
  conv_lhs => unfold afterFailureGo
  simp only [h1, h2, h3]

theorem afterFailureGo_pop_nofuel (st : Placements) (f : PieceSuggestion)
    (prev : PieceSuggestion)
    (h1 : get_piece_orientation f.name (f.orientation_index + 1) = none)
    (h2 : get_next_piece_to_try st f.name = none)
    (h3 : st.positions.getLast? = some prev) :
    afterFailureGo 0 st f = (st, none) := by
  conv_lhs => unfold afterFailureGo
  simp only [h1, h2, h3]

/-- Popping the last placement and erasing its letter preserves the
invariant. -/
theorem inv_pop (st : Placements) (hinv : PlacementsInv st)
    (prev : PieceSuggestion) (hlast : st.positions.getLast? = some prev) :
    PlacementsInv ⟨st.positions.dropLast, st.used_letters.erase prev.name⟩ := by
  obtain ⟨h1, h2, h3, h4⟩ := hinv
  rcases List.eq_nil_or_concat st.positions with hnil | ⟨ps, a, hps⟩
  · rw [hnil] at hlast
    exact absurd hlast (by simp)
  · rw [List.concat_eq_append] at hps
    have ha : a = prev := by
      rw [hps, List.getLast?_concat] at hlast
      exact Option.some.inj hlast
    subst ha
    rw [hps] at h1 h2 h4
    rw [hps, List.dropLast_concat]
    rw [List.map_append] at h2 h4
    have hmapn : (ps.map PieceSuggestion.name).Nodup ∧ a.name ∉ ps.map PieceSuggestion.name := by
      rw [List.nodup_append] at h4
      refine ⟨h4.1, fun hmem => ?_⟩
      exact h4.2.2 hmem (by simp)
    refine ⟨?_, ?_, List.Nodup.erase a.name h3, hmapn.1⟩
    · intro c hc
      show c ∈ List.map PieceSuggestion.name ps
      have hcu : c ∈ st.used_letters := List.mem_of_mem_erase hc
      have hcne : c ≠ a.name := ((List.Nodup.mem_erase_iff h3).mp hc).1
      have hmem := h1 c hcu
      rw [List.map_append] at hmem
      rcases List.mem_append.mp hmem with hin | hin
      · exact hin
      · simp at hin
        exact absurd hin hcne
    · intro c hc
      have hc' : c ∈ List.map PieceSuggestion.name ps := hc
      have hcu : c ∈ st.used_letters := h2 c (List.mem_append.mpr (Or.inl hc'))
      have hcne : c ≠ a.name := by
        intro hceq
        rw [hceq] at hc'
        exact hmapn.2 hc'
      show c ∈ st.used_letters.erase a.name
      exact (List.Nodup.mem_erase_iff h3).mpr ⟨hcne, hcu⟩

theorem afterFailureGo_inv : ∀ (fuel : Nat) (st : Placements) (f : PieceSuggestion),
    PlacementsInv st → PlacementsInv (afterFailureGo fuel st f).1 := by
  intro fuel
  induction fuel with
  | zero =>
    intro st f hinv
    cases hgpo : get_piece_orientation f.name (f.orientation_index + 1) with
    | some sh => rw [afterFailureGo_next_orientation 0 st f sh hgpo]; exact hinv
    | none =>
      cases hnext : get_next_piece_to_try st f.name with
      | some piece => rw [afterFailureGo_next_piece 0 st f piece hgpo hnext]; exact hinv
      | none =>
        cases hlast : st.positions.getLast? with
        | none => rw [afterFailureGo_exhausted 0 st f hgpo hnext hlast]; exact hinv
        | some prev => rw [afterFailureGo_pop_nofuel st f prev hgpo hnext hlast]; exact hinv
  | succ fuel ih =>
    intro st f hinv
    cases hgpo : get_piece_orientation f.name (f.orientation_index + 1) with
    | some sh =>
      rw [afterFailureGo_next_orientation (fuel + 1) st f sh hgpo]; exact hinv
    | none =>
      cases hnext : get_next_piece_to_try st f.name with
      | some piece =>
        rw [afterFailureGo_next_piece (fuel + 1) st f piece hgpo hnext]; exact hinv
      | none =>
        cases hlast : st.positions.getLast? with
        | none =>
          rw [afterFailureGo_exhausted (fuel + 1) st f hgpo hnext hlast]; exact hinv
        | some prev =>
          rw [afterFailureGo_pop fuel st f prev hgpo hnext hlast]
          have hrec := ih ⟨st.positions.dropLast, st.used_letters.erase prev.name⟩ prev
            (inv_pop st hinv prev hlast)
          cases hres : afterFailureGo fuel
              ⟨st.positions.dropLast, st.used_letters.erase prev.name⟩ prev with
          | mk st2 r2 =>
            rw [hres] at hrec
            cases r2 with
            | some result => exact hrec
            | none => exact hrec

/-- `remove_last_piece`, unfolded. -/
theorem remove_last_piece_eq (st : Placements) :
    remove_last_piece st
      = (match st.positions.getLast? with
         | some previous =>
           (⟨st.positions.dropLast, st.used_letters.erase previous.name⟩, some previous)
         | none => (st, none)) := rfl

/-- C9: corrected.  The claimed set equality between used letters and
stacked names is an invariant only when strengthened with freedom from
duplicates (both duplicate-free); it is then established by `new` and
preserved by all three operations — by success pushes of a letter not
already in use, and by failure handling and pops unconditionally.  (The
literal claim over all call sequences fails: pushing a duplicate name keeps
the set equality but a subsequent pop breaks it, see the counterexample.) -/
theorem claim_C9 :
    PlacementsInv Placements.new
    ∧ (∀ (st : Placements) (s : PieceSuggestion), PlacementsInv st →
        s.name ∉ st.used_letters →
        PlacementsInv (get_next_piece_to_try_after_success st s).1)
    ∧ (∀ st : Placements, PlacementsInv st → PlacementsInv (remove_last_piece st).1)
    ∧ (∀ (st : Placements) (f : PieceSuggestion), PlacementsInv st →
        PlacementsInv (get_next_piece_to_try_after_failure st f).1) := by
  refine ⟨?_, ?_, ?_, ?_⟩
  · exact ⟨by simp [Placements.new], by simp [Placements.new], by simp [Placements.new],
      by simp [Placements.new]⟩
  · intro st s hinv hfree
    obtain ⟨h1, h2, h3, h4⟩ := hinv
    have hins : insertLetter s.name st.used_letters = s.name :: st.used_letters := by
      rw [insertLetter, if_neg hfree]
    show PlacementsInv ⟨st.positions ++ [s], insertLetter s.name st.used_letters⟩
    rw [hins]
    refine ⟨?_, ?_, ?_, ?_⟩
    · intro c hc
      rw [List.map_append]
      rcases List.mem_cons.mp hc with rfl | hcu
      · exact List.mem_append.mpr (Or.inr (by simp))
      · exact List.mem_append.mpr (Or.inl (h1 c hcu))
    · intro c hc
      rw [List.map_append] at hc
      rcases List.mem_append.mp hc with hin | hin
      · exact List.mem_cons.mpr (Or.inr (h2 c hin))
      · simp at hin
        rw [hin]
        exact List.mem_cons_self _ _
    · exact List.nodup_cons.mpr ⟨hfree, h3⟩
    · rw [List.map_append, List.nodup_append]
      refine ⟨h4, by simp, ?_⟩
      intro c hc hcs
      simp at hcs
      rw [hcs] at hc
      exact hfree (h2 s.name hc)
  · intro st hinv
    cases hlast : st.positions.getLast? with
    | none =>
      rw [remove_last_piece_eq, hlast]
      exact hinv
    | some prev =>
      rw [remove_last_piece_eq, hlast]
      exact inv_pop st hinv prev hlast
  · intro st f hinv
    exact afterFailureGo_inv st.positions.length st f hinv

/-- The weak (set-equality only) invariant the claim literally states, in
executable form. -/
def lettersMatchPositions (st : Placements) : Bool :=
  st.used_letters.all (fun c => (st.positions.map PieceSuggestion.name).contains c)
    && (st.positions.map PieceSuggestion.name).all fun c => st.used_letters.contains c

/-- The duplicate suggestion used in the C9 counterexample. -/
def c9Dup : PieceSuggestion := ⟨'A', ⟨[], false⟩, 0⟩

/-- C9 counterexample: two successive success pushes of the same suggestion
(reachable by the claimed operations from `new`) keep the claimed set
equality, but the next `remove_last_piece` breaks it: the popped letter is
erased while a copy of the name stays on the stack. -/
theorem claim_C9_cx :
    (get_next_piece_to_try_after_success
        (get_next_piece_to_try_after_success Placements.new c9Dup).1 c9Dup).1
      = ⟨[c9Dup, c9Dup], ['A']⟩
    ∧ lettersMatchPositions ⟨[c9Dup, c9Dup], ['A']⟩ = true
    ∧ lettersMatchPositions (remove_last_piece ⟨[c9Dup, c9Dup], ['A']⟩).1 = false := by
  refine ⟨rfl, by decide, by decide⟩

/-- C9 witness: the preservation statements applied at the empty state and
a concrete first push. -/
theorem claim_C9_witness :
    PlacementsInv (get_next_piece_to_try_after_success Placements.new
      ⟨'B', ⟨[], false⟩, 0⟩).1 :=
  claim_C9.2.1 Placements.new ⟨'B', ⟨[], false⟩, 0⟩ claim_C9.1 (by decide)

/-! ### Claim C5: the failure-handling successor function -/

/-- The name-advancing loop, characterised: the first unused byte value in
the scanned range, or 77 when all are used. -/
theorem nextUnusedNameGo_spec (used : List Char) :
    ∀ (k s : Nat), s + k = 77 →
      nextUnusedNameGo used k s
        = (((List.range' s k).find? fun n => !used.contains (Char.ofNat n)).getD 77) := by
  intro k
  induction k with
  | zero =>
    intro s hs
    show s = _
    rw [show List.range' s 0 = [] from rfl]
    show s = 77
    omega
  | succ k ih =>
    intro s hs
    have hs77 : s < 77 := by omega
    show (if decide (s < 77) && used.contains (Char.ofNat s) then
        nextUnusedNameGo used k (s + 1) else s) = _
    rw [List.range'_succ]
    cases hc : used.contains (Char.ofNat s) with
    | true =>
      rw [if_pos (by rw [decide_eq_true hs77]; rfl)]
      rw [ih (s + 1) (by omega)]
      rw [List.find?_cons_of_neg _ (by intro h; rw [hc] at h; exact Bool.noConfusion h)]
    | false =>
      rw [if_neg (by simp)]
      rw [List.find?_cons_of_pos _ (by rw [hc]; rfl)]
      rfl

/-- `get_next_piece_to_try`, unfolded. -/
theorem get_next_piece_to_try_eq (st : Placements) (a : Char) :
    get_next_piece_to_try st a
      = (get_piece_orientation
          (Char.ofNat (nextUnusedNameGo st.used_letters
            (77 - (a.toNat % 256 + 1) % 256) ((a.toNat % 256 + 1) % 256))) 0).map
          fun shape => ⟨Char.ofNat (nextUnusedNameGo st.used_letters
            (77 - (a.toNat % 256 + 1) % 256) ((a.toNat % 256 + 1) % 256)), shape, 0⟩ := rfl

/-- `find?` with the smallest-unused predicate skips letters not above the
threshold. -/
theorem find?_smallest_drop (used : List Char) (c x : Char) (l : List Char)
    (hx : ¬ c < x) :
    List.find? (fun n => decide (c < n) && !used.contains n) (x :: l)
      = List.find? (fun n => decide (c < n) && !used.contains n) l := by
  rw [List.find?_cons_of_neg]
  simp [hx]

/-- `find?` only depends on the predicate's values on the members (explicit
form). -/
theorem find?_congr_mem2 {α : Type} (p q : α → Bool) (l : List α)
    (h : ∀ a ∈ l, p a = q a) : l.find? p = l.find? q :=
  find?_congr_mem h

/-- For a catalog letter, `get_next_piece_to_try` suggests exactly the
first orientation of the smallest unused catalog letter above it (and
nothing when none remains). -/
theorem get_next_eq_smallest (st : Placements) (c : Char) (hc : c ∈ catalogLetters) :
    get_next_piece_to_try st c
      = (match smallestUnusedCatalogAfter st.used_letters c with
         | some n => (get_piece_orientation n 0).map fun shape => ⟨n, shape, 0⟩
         | none => none) := by
  rw [show catalogLetters = ['A', 'B', 'C', 'D', 'E', 'F', 'G', 'H', 'I', 'J', 'K', 'L']
    from rfl] at hc
  fin_cases hc
  · have h1 : (('A'.toNat % 256 + 1) % 256) = 66 := by decide
    rw [get_next_piece_to_try_eq,
      h1,
      show (77 : Nat) - 66 = 11 from rfl,
      nextUnusedNameGo_spec st.used_letters 11 66 rfl,
      show List.range' 66 11 = [66, 67, 68, 69, 70, 71, 72, 73, 74, 75, 76] from rfl]
    rw [smallestUnusedCatalogAfter, show catalogLetters = ['A', 'B', 'C', 'D', 'E', 'F', 'G', 'H', 'I', 'J', 'K', 'L'] from rfl]
    rw [find?_smallest_drop st.used_letters 'A' 'A' _ (by decide)]
    rw [find?_congr_mem2 (fun n => decide ('A' < n) && !st.used_letters.contains n)
      (fun n => !st.used_letters.contains n) ['B', 'C', 'D', 'E', 'F', 'G', 'H', 'I', 'J', 'K', 'L']
      (fun n hn => by fin_cases hn <;> rfl)]
    rw [show ['B', 'C', 'D', 'E', 'F', 'G', 'H', 'I', 'J', 'K', 'L'] = List.map Char.ofNat [66, 67, 68, 69, 70, 71, 72, 73, 74, 75, 76] from rfl]
    rw [List.find?_map]
    simp only [Function.comp_def]
    cases hfind : List.find? (fun n => !st.used_letters.contains (Char.ofNat n)) [66, 67, 68, 69, 70, 71, 72, 73, 74, 75, 76] with
    | none => rfl
    | some n => rfl
  · have h1 : (('B'.toNat % 256 + 1) % 256) = 67 := by decide
    rw [get_next_piece_to_try_eq,
      h1,
      show (77 : Nat) - 67 = 10 from rfl,
      nextUnusedNameGo_spec st.used_letters 10 67 rfl,
      show List.range' 67 10 = [67, 68, 69, 70, 71, 72, 73, 74, 75, 76] from rfl]
    rw [smallestUnusedCatalogAfter, show catalogLetters = ['A', 'B', 'C', 'D', 'E', 'F', 'G', 'H', 'I', 'J', 'K', 'L'] from rfl]
    rw [find?_smallest_drop st.used_letters 'B' 'A' _ (by decide)]
    rw [find?_smallest_drop st.used_letters 'B' 'B' _ (by decide)]
    rw [find?_congr_mem2 (fun n => decide ('B' < n) && !st.used_letters.contains n)
      (fun n => !st.used_letters.contains n) ['C', 'D', 'E', 'F', 'G', 'H', 'I', 'J', 'K', 'L']
      (fun n hn => by fin_cases hn <;> rfl)]
    rw [show ['C', 'D', 'E', 'F', 'G', 'H', 'I', 'J', 'K', 'L'] = List.map Char.ofNat [67, 68, 69, 70, 71, 72, 73, 74, 75, 76] from rfl]
    rw [List.find?_map]
    simp only [Function.comp_def]
    cases hfind : List.find? (fun n => !st.used_letters.contains (Char.ofNat n)) [67, 68, 69, 70, 71, 72, 73, 74, 75, 76] with
    | none => rfl
    | some n => rfl
  · have h1 : (('C'.toNat % 256 + 1) % 256) = 68 := by decide
    rw [get_next_piece_to_try_eq,
      h1,
      show (77 : Nat) - 68 = 9 from rfl,
      nextUnusedNameGo_spec st.used_letters 9 68 rfl,
      show List.range' 68 9 = [68, 69, 70, 71, 72, 73, 74, 75, 76] from rfl]
    rw [smallestUnusedCatalogAfter, show catalogLetters = ['A', 'B', 'C', 'D', 'E', 'F', 'G', 'H', 'I', 'J', 'K', 'L'] from rfl]
    rw [find?_smallest_drop st.used_letters 'C' 'A' _ (by decide)]
    rw [find?_smallest_drop st.used_letters 'C' 'B' _ (by decide)]
    rw [find?_smallest_drop st.used_letters 'C' 'C' _ (by decide)]
    rw [find?_congr_mem2 (fun n => decide ('C' < n) && !st.used_letters.contains n)
      (fun n => !st.used_letters.contains n) ['D', 'E', 'F', 'G', 'H', 'I', 'J', 'K', 'L']
      (fun n hn => by fin_cases hn <;> rfl)]
    rw [show ['D', 'E', 'F', 'G', 'H', 'I', 'J', 'K', 'L'] = List.map Char.ofNat [68, 69, 70, 71, 72, 73, 74, 75, 76] from rfl]
    rw [List.find?_map]
    simp only [Function.comp_def]
    cases hfind : List.find? (fun n => !st.used_letters.contains (Char.ofNat n)) [68, 69, 70, 71, 72, 73, 74, 75, 76] with
    | none => rfl
    | some n => rfl
  · have h1 : (('D'.toNat % 256 + 1) % 256) = 69 := by decide
    rw [get_next_piece_to_try_eq,
      h1,
      show (77 : Nat) - 69 = 8 from rfl,
      nextUnusedNameGo_spec st.used_letters 8 69 rfl,
      show List.range' 69 8 = [69, 70, 71, 72, 73, 74, 75, 76] from rfl]
    rw [smallestUnusedCatalogAfter, show catalogLetters = ['A', 'B', 'C', 'D', 'E', 'F', 'G', 'H', 'I', 'J', 'K', 'L'] from rfl]
    rw [find?_smallest_drop st.used_letters 'D' 'A' _ (by decide)]
    rw [find?_smallest_drop st.used_letters 'D' 'B' _ (by decide)]
    rw [find?_smallest_drop st.used_letters 'D' 'C' _ (by decide)]
    rw [find?_smallest_drop st.used_letters 'D' 'D' _ (by decide)]
    rw [find?_congr_mem2 (fun n => decide ('D' < n) && !st.used_letters.contains n)
      (fun n => !st.used_letters.contains n) ['E', 'F', 'G', 'H', 'I', 'J', 'K', 'L']
      (fun n hn => by fin_cases hn <;> rfl)]
    rw [show ['E', 'F', 'G', 'H', 'I', 'J', 'K', 'L'] = List.map Char.ofNat [69, 70, 71, 72, 73, 74, 75, 76] from rfl]
    rw [List.find?_map]
    simp only [Function.comp_def]
    cases hfind : List.find? (fun n => !st.used_letters.contains (Char.ofNat n)) [69, 70, 71, 72, 73, 74, 75, 76] with
    | none => rfl
    | some n => rfl
  · have h1 : (('E'.toNat % 256 + 1) % 256) = 70 := by decide
    rw [get_next_piece_to_try_eq,
      h1,
      show (77 : Nat) - 70 = 7 from rfl,
      nextUnusedNameGo_spec st.used_letters 7 70 rfl,
      show List.range' 70 7 = [70, 71, 72, 73, 74, 75, 76] from rfl]
    rw [smallestUnusedCatalogAfter, show catalogLetters = ['A', 'B', 'C', 'D', 'E', 'F', 'G', 'H', 'I', 'J', 'K', 'L'] from rfl]
    rw [find?_smallest_drop st.used_letters 'E' 'A' _ (by decide)]
    rw [find?_smallest_drop st.used_letters 'E' 'B' _ (by decide)]
    rw [find?_smallest_drop st.used_letters 'E' 'C' _ (by decide)]
    rw [find?_smallest_drop st.used_letters 'E' 'D' _ (by decide)]
    rw [find?_smallest_drop st.used_letters 'E' 'E' _ (by decide)]
    rw [find?_congr_mem2 (fun n => decide ('E' < n) && !st.used_letters.contains n)
      (fun n => !st.used_letters.contains n) ['F', 'G', 'H', 'I', 'J', 'K', 'L']
      (fun n hn => by fin_cases hn <;> rfl)]
    rw [show ['F', 'G', 'H', 'I', 'J', 'K', 'L'] = List.map Char.ofNat [70, 71, 72, 73, 74, 75, 76] from rfl]
    rw [List.find?_map]
    simp only [Function.comp_def]
    cases hfind : List.find? (fun n => !st.used_letters.contains (Char.ofNat n)) [70, 71, 72, 73, 74, 75, 76] with
    | none => rfl
    | some n => rfl
  · have h1 : (('F'.toNat % 256 + 1) % 256) = 71 := by decide
    rw [get_next_piece_to_try_eq,
      h1,
      show (77 : Nat) - 71 = 6 from rfl,
      nextUnusedNameGo_spec st.used_letters 6 71 rfl,
      show List.range' 71 6 = [71, 72, 73, 74, 75, 76] from rfl]
    rw [smallestUnusedCatalogAfter, show catalogLetters = ['A', 'B', 'C', 'D', 'E', 'F', 'G', 'H', 'I', 'J', 'K', 'L'] from rfl]
    rw [find?_smallest_drop st.used_letters 'F' 'A' _ (by decide)]
    rw [find?_smallest_drop st.used_letters 'F' 'B' _ (by decide)]
    rw [find?_smallest_drop st.used_letters 'F' 'C' _ (by decide)]
    rw [find?_smallest_drop st.used_letters 'F' 'D' _ (by decide)]
    rw [find?_smallest_drop st.used_letters 'F' 'E' _ (by decide)]
    rw [find?_smallest_drop st.used_letters 'F' 'F' _ (by decide)]
    rw [find?_congr_mem2 (fun n => decide ('F' < n) && !st.used_letters.contains n)
      (fun n => !st.used_letters.contains n) ['G', 'H', 'I', 'J', 'K', 'L']
      (fun n hn => by fin_cases hn <;> rfl)]
    rw [show ['G', 'H', 'I', 'J', 'K', 'L'] = List.map Char.ofNat [71, 72, 73, 74, 75, 76] from rfl]
    rw [List.find?_map]
    simp only [Function.comp_def]
    cases hfind : List.find? (fun n => !st.used_letters.contains (Char.ofNat n)) [71, 72, 73, 74, 75, 76] with
    | none => rfl
    | some n => rfl
  · have h1 : (('G'.toNat % 256 + 1) % 256) = 72 := by decide
    rw [get_next_piece_to_try_eq,
      h1,
      show (77 : Nat) - 72 = 5 from rfl,
      nextUnusedNameGo_spec st.used_letters 5 72 rfl,
      show List.range' 72 5 = [72, 73, 74, 75, 76] from rfl]
    rw [smallestUnusedCatalogAfter, show catalogLetters = ['A', 'B', 'C', 'D', 'E', 'F', 'G', 'H', 'I', 'J', 'K', 'L'] from rfl]
    rw [find?_smallest_drop st.used_letters 'G' 'A' _ (by decide)]
    rw [find?_smallest_drop st.used_letters 'G' 'B' _ (by decide)]
    rw [find?_smallest_drop st.used_letters 'G' 'C' _ (by decide)]
    rw [find?_smallest_drop st.used_letters 'G' 'D' _ (by decide)]
    rw [find?_smallest_drop st.used_letters 'G' 'E' _ (by decide)]
    rw [find?_smallest_drop st.used_letters 'G' 'F' _ (by decide)]
    rw [find?_smallest_drop st.used_letters 'G' 'G' _ (by decide)]
    rw [find?_congr_mem2 (fun n => decide ('G' < n) && !st.used_letters.contains n)
      (fun n => !st.used_letters.contains n) ['H', 'I', 'J', 'K', 'L']
      (fun n hn => by fin_cases hn <;> rfl)]
    rw [show ['H', 'I', 'J', 'K', 'L'] = List.map Char.ofNat [72, 73, 74, 75, 76] from rfl]
    rw [List.find?_map]
    simp only [Function.comp_def]
    cases hfind : List.find? (fun n => !st.used_letters.contains (Char.ofNat n)) [72, 73, 74, 75, 76] with
    | none => rfl
    | some n => rfl
  · have h1 : (('H'.toNat % 256 + 1) % 256) = 73 := by decide
    rw [get_next_piece_to_try_eq,
      h1,
      show (77 : Nat) - 73 = 4 from rfl,
      nextUnusedNameGo_spec st.used_letters 4 73 rfl,
      show List.range' 73 4 = [73, 74, 75, 76] from rfl]
    rw [smallestUnusedCatalogAfter, show catalogLetters = ['A', 'B', 'C', 'D', 'E', 'F', 'G', 'H', 'I', 'J', 'K', 'L'] from rfl]
    rw [find?_smallest_drop st.used_letters 'H' 'A' _ (by decide)]
    rw [find?_smallest_drop st.used_letters 'H' 'B' _ (by decide)]
    rw [find?_smallest_drop st.used_letters 'H' 'C' _ (by decide)]
    rw [find?_smallest_drop st.used_letters 'H' 'D' _ (by decide)]
    rw [find?_smallest_drop st.used_letters 'H' 'E' _ (by decide)]
    rw [find?_smallest_drop st.used_letters 'H' 'F' _ (by decide)]
    rw [find?_smallest_drop st.used_letters 'H' 'G' _ (by decide)]
    rw [find?_smallest_drop st.used_letters 'H' 'H' _ (by decide)]
    rw [find?_congr_mem2 (fun n => decide ('H' < n) && !st.used_letters.contains n)
      (fun n => !st.used_letters.contains n) ['I', 'J', 'K', 'L']
      (fun n hn => by fin_cases hn <;> rfl)]
    rw [show ['I', 'J', 'K', 'L'] = List.map Char.ofNat [73, 74, 75, 76] from rfl]
    rw [List.find?_map]
    simp only [Function.comp_def]
    cases hfind : List.find? (fun n => !st.used_letters.contains (Char.ofNat n)) [73, 74, 75, 76] with
    | none => rfl
    | some n => rfl
  · have h1 : (('I'.toNat % 256 + 1) % 256) = 74 := by decide
    rw [get_next_piece_to_try_eq,
      h1,
      show (77 : Nat) - 74 = 3 from rfl,
      nextUnusedNameGo_spec st.used_letters 3 74 rfl,
      show List.range' 74 3 = [74, 75, 76] from rfl]
    rw [smallestUnusedCatalogAfter, show catalogLetters = ['A', 'B', 'C', 'D', 'E', 'F', 'G', 'H', 'I', 'J', 'K', 'L'] from rfl]
    rw [find?_smallest_drop st.used_letters 'I' 'A' _ (by decide)]
    rw [find?_smallest_drop st.used_letters 'I' 'B' _ (by decide)]
    rw [find?_smallest_drop st.used_letters 'I' 'C' _ (by decide)]
    rw [find?_smallest_drop st.used_letters 'I' 'D' _ (by decide)]
    rw [find?_smallest_drop st.used_letters 'I' 'E' _ (by decide)]
    rw [find?_smallest_drop st.used_letters 'I' 'F' _ (by decide)]
    rw [find?_smallest_drop st.used_letters 'I' 'G' _ (by decide)]
    rw [find?_smallest_drop st.used_letters 'I' 'H' _ (by decide)]
    rw [find?_smallest_drop st.used_letters 'I' 'I' _ (by decide)]
    rw [find?_congr_mem2 (fun n => decide ('I' < n) && !st.used_letters.contains n)
      (fun n => !st.used_letters.contains n) ['J', 'K', 'L']
      (fun n hn => by fin_cases hn <;> rfl)]
    rw [show ['J', 'K', 'L'] = List.map Char.ofNat [74, 75, 76] from rfl]
    rw [List.find?_map]
    simp only [Function.comp_def]
    cases hfind : List.find? (fun n => !st.used_letters.contains (Char.ofNat n)) [74, 75, 76] with
    | none => rfl
    | some n => rfl
  · have h1 : (('J'.toNat % 256 + 1) % 256) = 75 := by decide
    rw [get_next_piece_to_try_eq,
      h1,
      show (77 : Nat) - 75 = 2 from rfl,
      nextUnusedNameGo_spec st.used_letters 2 75 rfl,
      show List.range' 75 2 = [75, 76] from rfl]
    rw [smallestUnusedCatalogAfter, show catalogLetters = ['A', 'B', 'C', 'D', 'E', 'F', 'G', 'H', 'I', 'J', 'K', 'L'] from rfl]
    rw [find?_smallest_drop st.used_letters 'J' 'A' _ (by decide)]
    rw [find?_smallest_drop st.used_letters 'J' 'B' _ (by decide)]
    rw [find?_smallest_drop st.used_letters 'J' 'C' _ (by decide)]
    rw [find?_smallest_drop st.used_letters 'J' 'D' _ (by decide)]
    rw [find?_smallest_drop st.used_letters 'J' 'E' _ (by decide)]
    rw [find?_smallest_drop st.used_letters 'J' 'F' _ (by decide)]
    rw [find?_smallest_drop st.used_letters 'J' 'G' _ (by decide)]
    rw [find?_smallest_drop st.used_letters 'J' 'H' _ (by decide)]
    rw [find?_smallest_drop st.used_letters 'J' 'I' _ (by decide)]
    rw [find?_smallest_drop st.used_letters 'J' 'J' _ (by decide)]
    rw [find?_congr_mem2 (fun n => decide ('J' < n) && !st.used_letters.contains n)
      (fun n => !st.used_letters.contains n) ['K', 'L']
      (fun n hn => by fin_cases hn <;> rfl)]
    rw [show ['K', 'L'] = List.map Char.ofNat [75, 76] from rfl]
    rw [List.find?_map]
    simp only [Function.comp_def]
    cases hfind : List.find? (fun n => !st.used_letters.contains (Char.ofNat n)) [75, 76] with
    | none => rfl
    | some n => rfl
  · have h1 : (('K'.toNat % 256 + 1) % 256) = 76 := by decide
    rw [get_next_piece_to_try_eq,
      h1,
      show (77 : Nat) - 76 = 1 from rfl,
      nextUnusedNameGo_spec st.used_letters 1 76 rfl,
      show List.range' 76 1 = [76] from rfl]
    rw [smallestUnusedCatalogAfter, show catalogLetters = ['A', 'B', 'C', 'D', 'E', 'F', 'G', 'H', 'I', 'J', 'K', 'L'] from rfl]
    rw [find?_smallest_drop st.used_letters 'K' 'A' _ (by decide)]
    rw [find?_smallest_drop st.used_letters 'K' 'B' _ (by decide)]
    rw [find?_smallest_drop st.used_letters 'K' 'C' _ (by decide)]
    rw [find?_smallest_drop st.used_letters 'K' 'D' _ (by decide)]
    rw [find?_smallest_drop st.used_letters 'K' 'E' _ (by decide)]
    rw [find?_smallest_drop st.used_letters 'K' 'F' _ (by decide)]
    rw [find?_smallest_drop st.used_letters 'K' 'G' _ (by decide)]
    rw [find?_smallest_drop st.used_letters 'K' 'H' _ (by decide)]
    rw [find?_smallest_drop st.used_letters 'K' 'I' _ (by decide)]
    rw [find?_smallest_drop st.used_letters 'K' 'J' _ (by decide)]
    rw [find?_smallest_drop st.used_letters 'K' 'K' _ (by decide)]
    rw [find?_congr_mem2 (fun n => decide ('K' < n) && !st.used_letters.contains n)
      (fun n => !st.used_letters.contains n) ['L']
      (fun n hn => by fin_cases hn; rfl)]
    rw [show ['L'] = List.map Char.ofNat [76] from rfl]
    rw [List.find?_map]
    simp only [Function.comp_def]
    cases hfind : List.find? (fun n => !st.used_letters.contains (Char.ofNat n)) [76] with
    | none => rfl
    | some n => rfl
  · have h1 : (('L'.toNat % 256 + 1) % 256) = 77 := by decide
    rw [get_next_piece_to_try_eq,
      h1,
      show (77 : Nat) - 77 = 0 from rfl,
      nextUnusedNameGo_spec st.used_letters 0 77 rfl,
      show List.range' 77 0 = [] from rfl]
    rw [smallestUnusedCatalogAfter, show catalogLetters = ['A', 'B', 'C', 'D', 'E', 'F', 'G', 'H', 'I', 'J', 'K', 'L'] from rfl]
    rw [find?_smallest_drop st.used_letters 'L' 'A' _ (by decide)]
    rw [find?_smallest_drop st.used_letters 'L' 'B' _ (by decide)]
    rw [find?_smallest_drop st.used_letters 'L' 'C' _ (by decide)]
    rw [find?_smallest_drop st.used_letters 'L' 'D' _ (by decide)]
    rw [find?_smallest_drop st.used_letters 'L' 'E' _ (by decide)]
    rw [find?_smallest_drop st.used_letters 'L' 'F' _ (by decide)]
    rw [find?_smallest_drop st.used_letters 'L' 'G' _ (by decide)]
    rw [find?_smallest_drop st.used_letters 'L' 'H' _ (by decide)]
    rw [find?_smallest_drop st.used_letters 'L' 'I' _ (by decide)]
    rw [find?_smallest_drop st.used_letters 'L' 'J' _ (by decide)]
    rw [find?_smallest_drop st.used_letters 'L' 'K' _ (by decide)]
    rw [find?_smallest_drop st.used_letters 'L' 'L' _ (by decide)]
    rfl

/-- The pop cascade of the failure handler: a successful result's
`to_remove` lists exactly the popped placements (most recent first), and a
`none` result leaves an empty stack. -/
theorem afterFailureGo_pops : ∀ (fuel : Nat) (st : Placements) (f : PieceSuggestion),
    st.positions.length = fuel →
    (∀ res, (afterFailureGo fuel st f).2 = some res →
        st.positions = (afterFailureGo fuel st f).1.positions ++ res.to_remove.reverse)
    ∧ ((afterFailureGo fuel st f).2 = none → (afterFailureGo fuel st f).1.positions = []) := by
  intro fuel
  induction fuel with
  | zero =>
    intro st f hlen
    have hpos : st.positions = [] := List.length_eq_zero.mp hlen
    cases hgpo : get_piece_orientation f.name (f.orientation_index + 1) with
    | some sh =>
      rw [afterFailureGo_next_orientation 0 st f sh hgpo]
      refine ⟨fun res hres => ?_, fun h => Option.noConfusion h⟩
      rw [show res = (⟨⟨f.name, sh, f.orientation_index + 1⟩, []⟩ : PieceAfterFailure)
        from (Option.some.inj hres).symm]
      simp
    | none =>
      cases hnext : get_next_piece_to_try st f.name with
      | some piece =>
        rw [afterFailureGo_next_piece 0 st f piece hgpo hnext]
        refine ⟨fun res hres => ?_, fun h => Option.noConfusion h⟩
        rw [show res = (⟨piece, []⟩ : PieceAfterFailure) from (Option.some.inj hres).symm]
        simp
      | none =>
        have hlast : st.positions.getLast? = none := by rw [hpos]; rfl
        rw [afterFailureGo_exhausted 0 st f hgpo hnext hlast]
        exact ⟨fun res hres => Option.noConfusion hres, fun _ => hpos⟩
  | succ fuel ih =>
    intro st f hlen
    cases hgpo : get_piece_orientation f.name (f.orientation_index + 1) with
    | some sh =>
      rw [afterFailureGo_next_orientation (fuel + 1) st f sh hgpo]
      refine ⟨fun res hres => ?_, fun h => Option.noConfusion h⟩
      rw [show res = (⟨⟨f.name, sh, f.orientation_index + 1⟩, []⟩ : PieceAfterFailure)
        from (Option.some.inj hres).symm]
      simp
    | none =>
      cases hnext : get_next_piece_to_try st f.name with
      | some piece =>
        rw [afterFailureGo_next_piece (fuel + 1) st f piece hgpo hnext]
        refine ⟨fun res hres => ?_, fun h => Option.noConfusion h⟩
        rw [show res = (⟨piece, []⟩ : PieceAfterFailure) from (Option.some.inj hres).symm]
        simp
      | none =>
        cases hlast : st.positions.getLast? with
        | none =>
          rw [afterFailureGo_exhausted (fuel + 1) st f hgpo hnext hlast]
          exact ⟨fun res hres => Option.noConfusion hres,
            fun _ => List.getLast?_eq_none_iff.mp hlast⟩
        | some prev =>
          rw [afterFailureGo_pop fuel st f prev hgpo hnext hlast]
          have hsplit : st.positions = st.positions.dropLast ++ [prev] := by
            rcases List.eq_nil_or_concat st.positions with hnil | ⟨ps, a, hps⟩
            · rw [hnil] at hlast
              exact absurd hlast (by simp)
            · rw [List.concat_eq_append] at hps
              have ha : a = prev := by
                rw [hps, List.getLast?_concat] at hlast
                exact Option.some.inj hlast
              rw [hps, List.dropLast_concat, ha]
          have hlen1 : (Placements.mk st.positions.dropLast
              (st.used_letters.erase prev.name)).positions.length = fuel := by
            show st.positions.dropLast.length = fuel
            rw [List.length_dropLast, hlen]
            rfl
          obtain ⟨ihsome, ihnone⟩ :=
            ih ⟨st.positions.dropLast, st.used_letters.erase prev.name⟩ prev hlen1
          cases hres : afterFailureGo fuel
              ⟨st.positions.dropLast, st.used_letters.erase prev.name⟩ prev with
          | mk st2 r2 =>
            rw [hres] at ihsome ihnone
            cases r2 with
            | some result =>
              refine ⟨fun res hres2 => ?_, fun h => Option.noConfusion h⟩
              rw [show res = (⟨result.piece, prev :: result.to_remove⟩ : PieceAfterFailure)
                from (Option.some.inj hres2).symm]
              have hrec := ihsome result rfl
              show st.positions = st2.positions ++ (prev :: result.to_remove).reverse
              rw [List.reverse_cons, ← List.append_assoc, ← hrec]
              exact hsplit
            | none =>
              refine ⟨fun res hres2 => Option.noConfusion hres2, fun _ => ?_⟩
              exact ihnone rfl

/-- C5: confirmed.  For a catalog-letter failure: the handler first retries
the same piece at the next orientation index; failing that it suggests the
first orientation of the smallest unused catalog letter above the failed
name; failing that it pops the stack, re-running the handling for each
popped placement, and a successful result's `to_remove` lists exactly the
placements popped in the cascade; it returns `none` exactly on an
exhausted, emptied stack. -/
theorem claim_C5 (st : Placements) (f : PieceSuggestion)
    (hf : f.name ∈ catalogLetters) :
    (∀ sh, get_piece_orientation f.name (f.orientation_index + 1) = some sh →
      get_next_piece_to_try_after_failure st f
        = (st, some ⟨⟨f.name, sh, f.orientation_index + 1⟩, []⟩))
    ∧ (get_piece_orientation f.name (f.orientation_index + 1) = none →
       ∀ n, smallestUnusedCatalogAfter st.used_letters f.name = some n →
       ∀ sh, get_piece_orientation n 0 = some sh →
        get_next_piece_to_try_after_failure st f = (st, some ⟨⟨n, sh, 0⟩, []⟩))
    ∧ (get_piece_orientation f.name (f.orientation_index + 1) = none →
       smallestUnusedCatalogAfter st.used_letters f.name = none →
       st.positions = [] →
        get_next_piece_to_try_after_failure st f = (st, none))
    ∧ (∀ res, (get_next_piece_to_try_after_failure st f).2 = some res →
        st.positions = (get_next_piece_to_try_after_failure st f).1.positions
          ++ res.to_remove.reverse)
    ∧ ((get_next_piece_to_try_after_failure st f).2 = none →
        (get_next_piece_to_try_after_failure st f).1.positions = []) := by
  refine ⟨?_, ?_, ?_, ?_, ?_⟩
  · intro sh hsh
    exact afterFailureGo_next_orientation st.positions.length st f sh hsh
  · intro hnone n hn sh hsh
    have hb := get_next_eq_smallest st f.name hf
    rw [hn] at hb
    simp only [hsh, Option.map_some'] at hb
    exact afterFailureGo_next_piece st.positions.length st f ⟨n, sh, 0⟩ hnone hb
  · intro hnone hsmall hpos
    have hb := get_next_eq_smallest st f.name hf
    rw [hsmall] at hb
    simp only [] at hb
    have hlast : st.positions.getLast? = none := by rw [hpos]; rfl
    exact afterFailureGo_exhausted st.positions.length st f hnone hb hlast
  · exact (afterFailureGo_pops st.positions.length st f rfl).1
  · exact (afterFailureGo_pops st.positions.length st f rfl).2

/-- C5 witness: the characterisation applied at the empty placements state
and a failed suggestion of the catalog piece `'K'`. -/
theorem claim_C5_witness :
    (∀ sh, get_piece_orientation 'K' (0 + 1) = some sh →
      get_next_piece_to_try_after_failure ⟨[], []⟩ ⟨'K', ⟨[], false⟩, 0⟩
        = (⟨[], []⟩, some ⟨⟨'K', sh, 0 + 1⟩, []⟩))
    ∧ (get_piece_orientation 'K' (0 + 1) = none →
       ∀ n, smallestUnusedCatalogAfter [] 'K' = some n →
       ∀ sh, get_piece_orientation n 0 = some sh →
        get_next_piece_to_try_after_failure ⟨[], []⟩ ⟨'K', ⟨[], false⟩, 0⟩
          = (⟨[], []⟩, some ⟨⟨n, sh, 0⟩, []⟩))
    ∧ (get_piece_orientation 'K' (0 + 1) = none →
       smallestUnusedCatalogAfter [] 'K' = none →
       ([] : List PieceSuggestion) = [] →
        get_next_piece_to_try_after_failure ⟨[], []⟩ ⟨'K', ⟨[], false⟩, 0⟩
          = (⟨[], []⟩, none))
    ∧ (∀ res, (get_next_piece_to_try_after_failure ⟨[], []⟩ ⟨'K', ⟨[], false⟩, 0⟩).2
          = some res →
        ([] : List PieceSuggestion)
          = (get_next_piece_to_try_after_failure ⟨[], []⟩ ⟨'K', ⟨[], false⟩, 0⟩).1.positions
            ++ res.to_remove.reverse)
    ∧ ((get_next_piece_to_try_after_failure ⟨[], []⟩ ⟨'K', ⟨[], false⟩, 0⟩).2 = none →
        (get_next_piece_to_try_after_failure ⟨[], []⟩ ⟨'K', ⟨[], false⟩, 0⟩).1.positions
          = []) :=
  claim_C5 ⟨[], []⟩ ⟨'K', ⟨[], false⟩, 0⟩ (by decide)

/-! ### Claim C8: duplicate-freedom of the generated orientation lists -/

/-- One unfolding step of the rotation loop. -/
theorem addRotatedLoop_succ (d : Shape → List Shape → Option (List Shape))
    (iter : Nat) (sh : Shape) (set : List Shape) :
    addRotatedLoop d (iter + 1) sh set
      = (sh.snap_to_top_left).bind fun snapped =>
          (if !sh.is_3d then (sh.erect).bind fun e => d e (insertShape snapped set)
           else some (insertShape snapped set)).bind fun set2 =>
            addRotatedLoop d iter sh.rotate set2 := by
  conv_lhs => unfold addRotatedLoop

/-- `insertShape` keeps the orientation set duplicate-free. -/
theorem insertShape_nodup (s : Shape) (set : List Shape) (h : set.Nodup) :
    (insertShape s set).Nodup := by
  rw [insertShape]
  by_cases hm : s ∈ set
  · rw [if_pos hm]
    exact h
  · rw [if_neg hm]
    rw [List.nodup_append]
    refine ⟨h, List.nodup_singleton s, ?_⟩
    intro a ha has
    simp at has
    rw [has] at ha
    exact hm ha

/-- The rotation loop keeps the set duplicate-free whenever the deeper
recursion does. -/
theorem addRotatedLoop_nodup (d : Shape → List Shape → Option (List Shape))
    (hd : ∀ sh set out, set.Nodup → d sh set = some out → out.Nodup) :
    ∀ (iter : Nat) (sh : Shape) (set out : List Shape), set.Nodup →
      addRotatedLoop d iter sh set = some out → out.Nodup := by
  intro iter
  induction iter with
  | zero =>
    intro sh set out h hout
    rw [addRotatedLoop_zero] at hout
    rw [← Option.some.inj hout]
    exact h
  | succ iter ih =>
    intro sh set out h hout
    rw [addRotatedLoop_succ] at hout
    cases hsnap : sh.snap_to_top_left with
    | none =>
      rw [hsnap] at hout
      exact Option.noConfusion hout
    | some snapped =>
      rw [hsnap, Option.some_bind] at hout
      have hins : (insertShape snapped set).Nodup := insertShape_nodup snapped set h
      by_cases h3 : (!sh.is_3d) = true
      · rw [if_pos h3] at hout
        cases herect : sh.erect with
        | none =>
          rw [herect] at hout
          exact Option.noConfusion hout
        | some e =>
          rw [herect, Option.some_bind] at hout
          cases hd' : d e (insertShape snapped set) with
          | none =>
            rw [hd'] at hout
            exact Option.noConfusion hout
          | some set2 =>
            rw [hd', Option.some_bind] at hout
            exact ih sh.rotate set2 out (hd e (insertShape snapped set) set2 hins hd') hout
      · rw [if_neg h3, Option.some_bind] at hout
        exact ih sh.rotate (insertShape snapped set) out hins hout

/-- `add_rotated_orientations` keeps the set duplicate-free. -/
theorem addRotatedOrientations_nodup :
    ∀ (fuel : Nat) (sh : Shape) (set out : List Shape),
      set.Nodup → addRotatedOrientations fuel sh set = some out → out.Nodup := by
  intro fuel
  induction fuel with
  | zero =>
    intro sh set out _ hout
    exact Option.noConfusion hout
  | succ fuel ih =>
    intro sh set out h hout
    have hun : addRotatedOrientations (fuel + 1) sh set
        = addRotatedLoop (fun e acc => addRotatedOrientations fuel e acc) 4 sh set := rfl
    rw [hun] at hout
    exact addRotatedLoop_nodup (fun e acc => addRotatedOrientations fuel e acc)
      (fun s2 st2 o2 hh hout2 => ih s2 st2 o2 hh hout2) 4 sh set out h hout

/-- Sorted insertion permutes (it inserts exactly one copy). -/
theorem insertSortedByToInt_perm (s : Shape) : ∀ l : List Shape,
    (insertSortedByToInt s l).Perm (s :: l) := by
  intro l
  induction l with
  | nil => exact List.Perm.refl [s]
  | cons t ts ih =>
    show (if to_int t ≤ to_int s then t :: insertSortedByToInt s ts
          else s :: t :: ts).Perm (s :: t :: ts)
    by_cases hle : to_int t ≤ to_int s
    · rw [if_pos hle]
      exact (List.Perm.cons t ih).trans (List.Perm.swap s t ts)
    · rw [if_neg hle]

theorem foldl_insertSorted_perm : ∀ (l acc : List Shape),
    (List.foldl (fun acc s => insertSortedByToInt s acc) acc l).Perm (acc ++ l) := by
  intro l
  induction l with
  | nil =>
    intro acc
    simp
  | cons x xs ih =>
    intro acc
    rw [List.foldl_cons]
    have h1 := ih (insertSortedByToInt x acc)
    have h2 : (insertSortedByToInt x acc ++ xs).Perm ((x :: acc) ++ xs) :=
      (insertSortedByToInt_perm x acc).append_right xs
    exact h1.trans (h2.trans List.perm_middle.symm)

/-- The canonical sort keeps the set duplicate-free. -/
theorem sortByToInt_nodup (l : List Shape) (h : l.Nodup) : (sortByToInt l).Nodup := by
  have hperm : (sortByToInt l).Perm l := by
    have hp := foldl_insertSorted_perm l []
    simpa using hp
  exact (hperm.nodup_iff).mpr h

/-- `generate_orientations` produces a duplicate-free list. -/
theorem generate_orientations_nodup (cells : List (List Bool)) (out : List Shape)
    (h : generate_orientations cells = some out) : out.Nodup := by
  rw [generate_orientations_unfold] at h
  cases h1 : addRotatedOrientations 2 (baseShapeOfCells cells) [] with
  | none =>
    rw [h1] at h
    exact Option.noConfusion h
  | some set1 =>
    rw [h1, Option.some_bind, addMirroredOrientations_unfold] at h
    cases h2 : addRotatedOrientations 2 (baseShapeOfCells cells).reflect set1 with
    | none =>
      rw [h2] at h
      exact Option.noConfusion h
    | some set2 =>
      rw [h2, Option.map_some'] at h
      have hs1 : set1.Nodup :=
        addRotatedOrientations_nodup 2 (baseShapeOfCells cells) [] set1 List.nodup_nil h1
      have hs2 : set2.Nodup :=
        addRotatedOrientations_nodup 2 (baseShapeOfCells cells).reflect set1 set2 hs1 h2
      rw [← Option.some.inj h]
      exact sortByToInt_nodup set2 hs2

theorem piece_parse_nodup (v : String) (c : Char) (p : Piece)
    (h : Piece.parse v c = some p) : p.orientations.Nodup := by
  rw [piece_parse_unfold] at h
  cases h1 : Shape.parse [v] c with
  | none =>
    rw [h1] at h
    exact Option.noConfusion h
  | some shape =>
    rw [h1, Option.some_bind] at h
    cases h2 : generate_orientations (shape.layers.getD 0 []) with
    | none =>
      rw [h2] at h
      exact Option.noConfusion h
    | some ors =>
      rw [h2, Option.map_some'] at h
      have hn := generate_orientations_nodup (shape.layers.getD 0 []) ors h2
      rw [← Option.some.inj h]
      exact hn

/-- C8: corrected.  Every catalog piece's generated orientation list is
duplicate-free (the insertion step models the `HashSet`), and regeneration
is deterministic; but the canonical `to_int` encoding does NOT assign
distinct values to all distinct normalised orientations (see the
counterexample with piece `'H'`), so the claimed injectivity argument for
order-independence fails even though the list itself is duplicate-free. -/
theorem claim_C8 (c : Char) (p : Piece) (h : PIECES c = some p) :
    p.orientations.Nodup := by
  unfold PIECES at h
  split at h
  case _ => exact piece_parse_nodup _ _ p h
  case _ => exact piece_parse_nodup _ _ p h
  case _ => exact piece_parse_nodup _ _ p h
  case _ => exact piece_parse_nodup _ _ p h
  case _ => exact piece_parse_nodup _ _ p h
  case _ => exact piece_parse_nodup _ _ p h
  case _ => exact piece_parse_nodup _ _ p h
  case _ => exact piece_parse_nodup _ _ p h
  case _ => exact piece_parse_nodup _ _ p h
  case _ => exact piece_parse_nodup _ _ p h
  case _ => exact piece_parse_nodup _ _ p h
  case _ => exact piece_parse_nodup _ _ p h
  case _ => exact Option.noConfusion h


set_option maxHeartbeats 1000000

/-! ## Catalog evaluation lemmas -/

theorem catHh0 : Shape.parse ["HH\n.HH\n..H"] 'H' = some catHs0 := rfl
theorem catHh1 : baseShapeOfCells ((catHs0).layers.getD 0 []) = catHs0 := rfl
theorem catHh2 : Shape.snap_to_top_left catHs0 = some catHs0 := rfl
theorem catHh3 : insertShape catHs0 ([] : List Shape) = catHt0 := rfl
theorem catHh4 : addRotatedLoop (fun e acc => addRotatedOrientations 1 e acc) 4 catHs0 ([] : List Shape) = (Shape.snap_to_top_left catHs0).bind fun snapped => ((Shape.erect catHs0).bind fun e => (fun e acc => addRotatedOrientations 1 e acc) e (insertShape snapped ([] : List Shape))).bind fun set2 => addRotatedLoop (fun e acc => addRotatedOrientations 1 e acc) 3 (Shape.rotate catHs0) set2 := rfl
theorem catHh5 : Shape.erect catHs0 = some catHs1 := rfl
theorem catHh6 : Shape.snap_to_top_left catHs1 = some catHs1 := rfl
theorem catHh7 : insertShape catHs1 catHt0 = catHt1 := rfl
theorem catHh8 : addRotatedLoop (fun e acc => addRotatedOrientations 0 e acc) 4 catHs1 catHt0 = (Shape.snap_to_top_left catHs1).bind fun snapped => (some (insertShape snapped catHt0)).bind fun set2 => addRotatedLoop (fun e acc => addRotatedOrientations 0 e acc) 3 (Shape.rotate catHs1) set2 := rfl
theorem catHh9 : Shape.rotate catHs1 = catHs2 := rfl
theorem catHh10 : Shape.snap_to_top_left catHs2 = some catHs3 := rfl
theorem catHh11 : insertShape catHs3 catHt1 = catHt2 := rfl
theorem catHh12 : addRotatedLoop (fun e acc => addRotatedOrientations 0 e acc) 3 catHs2 catHt1 = (Shape.snap_to_top_left catHs2).bind fun snapped => (some (insertShape snapped catHt1)).bind fun set2 => addRotatedLoop (fun e acc => addRotatedOrientations 0 e acc) 2 (Shape.rotate catHs2) set2 := rfl
theorem catHh13 : Shape.rotate catHs2 = catHs4 := rfl
theorem catHh14 : Shape.snap_to_top_left catHs4 = some catHs1 := rfl
theorem catHh15 : insertShape catHs1 catHt2 = catHt2 := rfl
theorem catHh16 : addRotatedLoop (fun e acc => addRotatedOrientations 0 e acc) 2 catHs4 catHt2 = (Shape.snap_to_top_left catHs4).bind fun snapped => (some (insertShape snapped catHt2)).bind fun set2 => addRotatedLoop (fun e acc => addRotatedOrientations 0 e acc) 1 (Shape.rotate catHs4) set2 := rfl
theorem catHh17 : Shape.rotate catHs4 = catHs5 := rfl
theorem catHh18 : Shape.snap_to_top_left catHs5 = some catHs3 := rfl
theorem catHh19 : insertShape catHs3 catHt2 = catHt2 := rfl
theorem catHh20 : addRotatedLoop (fun e acc => addRotatedOrientations 0 e acc) 1 catHs5 catHt2 = (Shape.snap_to_top_left catHs5).bind fun snapped => (some (insertShape snapped catHt2)).bind fun set2 => addRotatedLoop (fun e acc => addRotatedOrientations 0 e acc) 0 (Shape.rotate catHs5) set2 := rfl
theorem catHh26 : Shape.rotate catHs0 = catHs6 := rfl
theorem catHh27 : Shape.snap_to_top_left catHs6 = some catHs7 := rfl
theorem catHh28 : insertShape catHs7 catHt2 = catHt3 := rfl
theorem catHh29 : addRotatedLoop (fun e acc => addRotatedOrientations 1 e acc) 3 catHs6 catHt2 = (Shape.snap_to_top_left catHs6).bind fun snapped => ((Shape.erect catHs6).bind fun e => (fun e acc => addRotatedOrientations 1 e acc) e (insertShape snapped catHt2)).bind fun set2 => addRotatedLoop (fun e acc => addRotatedOrientations 1 e acc) 2 (Shape.rotate catHs6) set2 := rfl
theorem catHh30 : Shape.erect catHs6 = some catHs8 := rfl
theorem catHh31 : Shape.snap_to_top_left catHs8 = some catHs8 := rfl
theorem catHh32 : insertShape catHs8 catHt3 = catHt4 := rfl
theorem catHh33 : addRotatedLoop (fun e acc => addRotatedOrientations 0 e acc) 4 catHs8 catHt3 = (Shape.snap_to_top_left catHs8).bind fun snapped => (some (insertShape snapped catHt3)).bind fun set2 => addRotatedLoop (fun e acc => addRotatedOrientations 0 e acc) 3 (Shape.rotate catHs8) set2 := rfl
theorem catHh34 : Shape.rotate catHs8 = catHs9 := rfl
theorem catHh35 : Shape.snap_to_top_left catHs9 = some catHs9 := rfl
theorem catHh36 : insertShape catHs9 catHt4 = catHt5 := rfl
theorem catHh37 : addRotatedLoop (fun e acc => addRotatedOrientations 0 e acc) 3 catHs9 catHt4 = (Shape.snap_to_top_left catHs9).bind fun snapped => (some (insertShape snapped catHt4)).bind fun set2 => addRotatedLoop (fun e acc => addRotatedOrientations 0 e acc) 2 (Shape.rotate catHs9) set2 := rfl
theorem catHh38 : Shape.rotate catHs9 = catHs10 := rfl
theorem catHh39 : Shape.snap_to_top_left catHs10 = some catHs10 := rfl
theorem catHh40 : insertShape catHs10 catHt5 = catHt6 := rfl
theorem catHh41 : addRotatedLoop (fun e acc => addRotatedOrientations 0 e acc) 2 catHs10 catHt5 = (Shape.snap_to_top_left catHs10).bind fun snapped => (some (insertShape snapped catHt5)).bind fun set2 => addRotatedLoop (fun e acc => addRotatedOrientations 0 e acc) 1 (Shape.rotate catHs10) set2 := rfl
theorem catHh42 : Shape.rotate catHs10 = catHs11 := rfl
theorem catHh43 : Shape.snap_to_top_left catHs11 = some catHs11 := rfl
theorem catHh44 : insertShape catHs11 catHt6 = catHt7 := rfl
theorem catHh45 : addRotatedLoop (fun e acc => addRotatedOrientations 0 e acc) 1 catHs11 catHt6 = (Shape.snap_to_top_left catHs11).bind fun snapped => (some (insertShape snapped catHt6)).bind fun set2 => addRotatedLoop (fun e acc => addRotatedOrientations 0 e acc) 0 (Shape.rotate catHs11) set2 := rfl
theorem catHh51 : Shape.rotate catHs6 = catHs12 := rfl
theorem catHh52 : Shape.snap_to_top_left catHs12 = some catHs13 := rfl
theorem catHh53 : insertShape catHs13 catHt7 = catHt8 := rfl
theorem catHh54 : addRotatedLoop (fun e acc => addRotatedOrientations 1 e acc) 2 catHs12 catHt7 = (Shape.snap_to_top_left catHs12).bind fun snapped => ((Shape.erect catHs12).bind fun e => (fun e acc => addRotatedOrientations 1 e acc) e (insertShape snapped catHt7)).bind fun set2 => addRotatedLoop (fun e acc => addRotatedOrientations 1 e acc) 1 (Shape.rotate catHs12) set2 := rfl
theorem catHh55 : Shape.erect catHs12 = some catHs14 := rfl
theorem catHh56 : Shape.snap_to_top_left catHs14 = some catHs14 := rfl
theorem catHh57 : insertShape catHs14 catHt8 = catHt9 := rfl
theorem catHh58 : addRotatedLoop (fun e acc => addRotatedOrientations 0 e acc) 4 catHs14 catHt8 = (Shape.snap_to_top_left catHs14).bind fun snapped => (some (insertShape snapped catHt8)).bind fun set2 => addRotatedLoop (fun e acc => addRotatedOrientations 0 e acc) 3 (Shape.rotate catHs14) set2 := rfl
theorem catHh59 : Shape.rotate catHs14 = catHs15 := rfl
theorem catHh60 : Shape.snap_to_top_left catHs15 = some catHs16 := rfl
theorem catHh61 : insertShape catHs16 catHt9 = catHt10 := rfl
theorem catHh62 : addRotatedLoop (fun e acc => addRotatedOrientations 0 e acc) 3 catHs15 catHt9 = (Shape.snap_to_top_left catHs15).bind fun snapped => (some (insertShape snapped catHt9)).bind fun set2 => addRotatedLoop (fun e acc => addRotatedOrientations 0 e acc) 2 (Shape.rotate catHs15) set2 := rfl
theorem catHh63 : Shape.rotate catHs15 = catHs17 := rfl
theorem catHh64 : Shape.snap_to_top_left catHs17 = some catHs14 := rfl
theorem catHh65 : insertShape catHs14 catHt10 = catHt10 := rfl
theorem catHh66 : addRotatedLoop (fun e acc => addRotatedOrientations 0 e acc) 2 catHs17 catHt10 = (Shape.snap_to_top_left catHs17).bind fun snapped => (some (insertShape snapped catHt10)).bind fun set2 => addRotatedLoop (fun e acc => addRotatedOrientations 0 e acc) 1 (Shape.rotate catHs17) set2 := rfl
theorem catHh67 : Shape.rotate catHs17 = catHs18 := rfl
theorem catHh68 : Shape.snap_to_top_left catHs18 = some catHs16 := rfl
theorem catHh69 : insertShape catHs16 catHt10 = catHt10 := rfl
theorem catHh70 : addRotatedLoop (fun e acc => addRotatedOrientations 0 e acc) 1 catHs18 catHt10 = (Shape.snap_to_top_left catHs18).bind fun snapped => (some (insertShape snapped catHt10)).bind fun set2 => addRotatedLoop (fun e acc => addRotatedOrientations 0 e acc) 0 (Shape.rotate catHs18) set2 := rfl
theorem catHh76 : Shape.rotate catHs12 = catHs19 := rfl
theorem catHh77 : Shape.snap_to_top_left catHs19 = some catHs20 := rfl
theorem catHh78 : insertShape catHs20 catHt10 = catHt11 := rfl
theorem catHh79 : addRotatedLoop (fun e acc => addRotatedOrientations 1 e acc) 1 catHs19 catHt10 = (Shape.snap_to_top_left catHs19).bind fun snapped => ((Shape.erect catHs19).bind fun e => (fun e acc => addRotatedOrientations 1 e acc) e (insertShape snapped catHt10)).bind fun set2 => addRotatedLoop (fun e acc => addRotatedOrientations 1 e acc) 0 (Shape.rotate catHs19) set2 := rfl
theorem catHh80 : Shape.erect catHs19 = some catHs10 := rfl
theorem catHh81 : insertShape catHs10 catHt11 = catHt11 := rfl
theorem catHh82 : addRotatedLoop (fun e acc => addRotatedOrientations 0 e acc) 4 catHs10 catHt11 = (Shape.snap_to_top_left catHs10).bind fun snapped => (some (insertShape snapped catHt11)).bind fun set2 => addRotatedLoop (fun e acc => addRotatedOrientations 0 e acc) 3 (Shape.rotate catHs10) set2 := rfl
theorem catHh83 : insertShape catHs11 catHt11 = catHt11 := rfl
theorem catHh84 : addRotatedLoop (fun e acc => addRotatedOrientations 0 e acc) 3 catHs11 catHt11 = (Shape.snap_to_top_left catHs11).bind fun snapped => (some (insertShape snapped catHt11)).bind fun set2 => addRotatedLoop (fun e acc => addRotatedOrientations 0 e acc) 2 (Shape.rotate catHs11) set2 := rfl
theorem catHh85 : Shape.rotate catHs11 = catHs8 := rfl
theorem catHh86 : insertShape catHs8 catHt11 = catHt11 := rfl
theorem catHh87 : addRotatedLoop (fun e acc => addRotatedOrientations 0 e acc) 2 catHs8 catHt11 = (Shape.snap_to_top_left catHs8).bind fun snapped => (some (insertShape snapped catHt11)).bind fun set2 => addRotatedLoop (fun e acc => addRotatedOrientations 0 e acc) 1 (Shape.rotate catHs8) set2 := rfl
theorem catHh88 : insertShape catHs9 catHt11 = catHt11 := rfl
theorem catHh89 : addRotatedLoop (fun e acc => addRotatedOrientations 0 e acc) 1 catHs9 catHt11 = (Shape.snap_to_top_left catHs9).bind fun snapped => (some (insertShape snapped catHt11)).bind fun set2 => addRotatedLoop (fun e acc => addRotatedOrientations 0 e acc) 0 (Shape.rotate catHs9) set2 := rfl
theorem catHh100 : Shape.reflect catHs0 = catHs13 := rfl
theorem catHh101 : Shape.snap_to_top_left catHs13 = some catHs13 := rfl
theorem catHh102 : insertShape catHs13 catHt11 = catHt11 := rfl
theorem catHh103 : addRotatedLoop (fun e acc => addRotatedOrientations 1 e acc) 4 catHs13 catHt11 = (Shape.snap_to_top_left catHs13).bind fun snapped => ((Shape.erect catHs13).bind fun e => (fun e acc => addRotatedOrientations 1 e acc) e (insertShape snapped catHt11)).bind fun set2 => addRotatedLoop (fun e acc => addRotatedOrientations 1 e acc) 3 (Shape.rotate catHs13) set2 := rfl
theorem catHh104 : Shape.erect catHs13 = some catHs14 := rfl
theorem catHh105 : insertShape catHs14 catHt11 = catHt11 := rfl
theorem catHh106 : addRotatedLoop (fun e acc => addRotatedOrientations 0 e acc) 4 catHs14 catHt11 = (Shape.snap_to_top_left catHs14).bind fun snapped => (some (insertShape snapped catHt11)).bind fun set2 => addRotatedLoop (fun e acc => addRotatedOrientations 0 e acc) 3 (Shape.rotate catHs14) set2 := rfl
theorem catHh107 : insertShape catHs16 catHt11 = catHt11 := rfl
theorem catHh108 : addRotatedLoop (fun e acc => addRotatedOrientations 0 e acc) 3 catHs15 catHt11 = (Shape.snap_to_top_left catHs15).bind fun snapped => (some (insertShape snapped catHt11)).bind fun set2 => addRotatedLoop (fun e acc => addRotatedOrientations 0 e acc) 2 (Shape.rotate catHs15) set2 := rfl
theorem catHh109 : addRotatedLoop (fun e acc => addRotatedOrientations 0 e acc) 2 catHs17 catHt11 = (Shape.snap_to_top_left catHs17).bind fun snapped => (some (insertShape snapped catHt11)).bind fun set2 => addRotatedLoop (fun e acc => addRotatedOrientations 0 e acc) 1 (Shape.rotate catHs17) set2 := rfl
theorem catHh110 : addRotatedLoop (fun e acc => addRotatedOrientations 0 e acc) 1 catHs18 catHt11 = (Shape.snap_to_top_left catHs18).bind fun snapped => (some (insertShape snapped catHt11)).bind fun set2 => addRotatedLoop (fun e acc => addRotatedOrientations 0 e acc) 0 (Shape.rotate catHs18) set2 := rfl
theorem catHh116 : Shape.rotate catHs13 = catHs21 := rfl
theorem catHh117 : Shape.snap_to_top_left catHs21 = some catHs20 := rfl
theorem catHh118 : insertShape catHs20 catHt11 = catHt11 := rfl
theorem catHh119 : addRotatedLoop (fun e acc => addRotatedOrientations 1 e acc) 3 catHs21 catHt11 = (Shape.snap_to_top_left catHs21).bind fun snapped => ((Shape.erect catHs21).bind fun e => (fun e acc => addRotatedOrientations 1 e acc) e (insertShape snapped catHt11)).bind fun set2 => addRotatedLoop (fun e acc => addRotatedOrientations 1 e acc) 2 (Shape.rotate catHs21) set2 := rfl
theorem catHh120 : Shape.erect catHs21 = some catHs10 := rfl
theorem catHh121 : Shape.rotate catHs21 = catHs22 := rfl
theorem catHh122 : Shape.snap_to_top_left catHs22 = some catHs0 := rfl
theorem catHh123 : insertShape catHs0 catHt11 = catHt11 := rfl
theorem catHh124 : addRotatedLoop (fun e acc => addRotatedOrientations 1 e acc) 2 catHs22 catHt11 = (Shape.snap_to_top_left catHs22).bind fun snapped => ((Shape.erect catHs22).bind fun e => (fun e acc => addRotatedOrientations 1 e acc) e (insertShape snapped catHt11)).bind fun set2 => addRotatedLoop (fun e acc => addRotatedOrientations 1 e acc) 1 (Shape.rotate catHs22) set2 := rfl
theorem catHh125 : Shape.erect catHs22 = some catHs1 := rfl
theorem catHh126 : insertShape catHs1 catHt11 = catHt11 := rfl
theorem catHh127 : addRotatedLoop (fun e acc => addRotatedOrientations 0 e acc) 4 catHs1 catHt11 = (Shape.snap_to_top_left catHs1).bind fun snapped => (some (insertShape snapped catHt11)).bind fun set2 => addRotatedLoop (fun e acc => addRotatedOrientations 0 e acc) 3 (Shape.rotate catHs1) set2 := rfl
theorem catHh128 : insertShape catHs3 catHt11 = catHt11 := rfl
theorem catHh129 : addRotatedLoop (fun e acc => addRotatedOrientations 0 e acc) 3 catHs2 catHt11 = (Shape.snap_to_top_left catHs2).bind fun snapped => (some (insertShape snapped catHt11)).bind fun set2 => addRotatedLoop (fun e acc => addRotatedOrientations 0 e acc) 2 (Shape.rotate catHs2) set2 := rfl
theorem catHh130 : addRotatedLoop (fun e acc => addRotatedOrientations 0 e acc) 2 catHs4 catHt11 = (Shape.snap_to_top_left catHs4).bind fun snapped => (some (insertShape snapped catHt11)).bind fun set2 => addRotatedLoop (fun e acc => addRotatedOrientations 0 e acc) 1 (Shape.rotate catHs4) set2 := rfl
theorem catHh131 : addRotatedLoop (fun e acc => addRotatedOrientations 0 e acc) 1 catHs5 catHt11 = (Shape.snap_to_top_left catHs5).bind fun snapped => (some (insertShape snapped catHt11)).bind fun set2 => addRotatedLoop (fun e acc => addRotatedOrientations 0 e acc) 0 (Shape.rotate catHs5) set2 := rfl
theorem catHh137 : Shape.rotate catHs22 = catHs23 := rfl
theorem catHh138 : Shape.snap_to_top_left catHs23 = some catHs7 := rfl
theorem catHh139 : insertShape catHs7 catHt11 = catHt11 := rfl
theorem catHh140 : addRotatedLoop (fun e acc => addRotatedOrientations 1 e acc) 1 catHs23 catHt11 = (Shape.snap_to_top_left catHs23).bind fun snapped => ((Shape.erect catHs23).bind fun e => (fun e acc => addRotatedOrientations 1 e acc) e (insertShape snapped catHt11)).bind fun set2 => addRotatedLoop (fun e acc => addRotatedOrientations 1 e acc) 0 (Shape.rotate catHs23) set2 := rfl
theorem catHh141 : Shape.erect catHs23 = some catHs8 := rfl
theorem catHh142 : addRotatedLoop (fun e acc => addRotatedOrientations 0 e acc) 4 catHs8 catHt11 = (Shape.snap_to_top_left catHs8).bind fun snapped => (some (insertShape snapped catHt11)).bind fun set2 => addRotatedLoop (fun e acc => addRotatedOrientations 0 e acc) 3 (Shape.rotate catHs8) set2 := rfl
theorem catHh143 : addRotatedLoop (fun e acc => addRotatedOrientations 0 e acc) 3 catHs9 catHt11 = (Shape.snap_to_top_left catHs9).bind fun snapped => (some (insertShape snapped catHt11)).bind fun set2 => addRotatedLoop (fun e acc => addRotatedOrientations 0 e acc) 2 (Shape.rotate catHs9) set2 := rfl
theorem catHh144 : addRotatedLoop (fun e acc => addRotatedOrientations 0 e acc) 2 catHs10 catHt11 = (Shape.snap_to_top_left catHs10).bind fun snapped => (some (insertShape snapped catHt11)).bind fun set2 => addRotatedLoop (fun e acc => addRotatedOrientations 0 e acc) 1 (Shape.rotate catHs10) set2 := rfl
theorem catHh145 : addRotatedLoop (fun e acc => addRotatedOrientations 0 e acc) 1 catHs11 catHt11 = (Shape.snap_to_top_left catHs11).bind fun snapped => (some (insertShape snapped catHt11)).bind fun set2 => addRotatedLoop (fun e acc => addRotatedOrientations 0 e acc) 0 (Shape.rotate catHs11) set2 := rfl
theorem catHh156 : sortByToInt catHt11 = catHt12 := rfl
theorem catHh157 : PIECES 'H' = Piece.parse "HH\n.HH\n..H" 'H' := rfl
theorem catKh158 : Shape.parse ["KK\nKK"] 'K' = some catKs0 := rfl
theorem catKh159 : baseShapeOfCells ((catKs0).layers.getD 0 []) = catKs0 := rfl
theorem catKh160 : Shape.snap_to_top_left catKs0 = some catKs0 := rfl
theorem catKh161 : insertShape catKs0 ([] : List Shape) = catKt0 := rfl
theorem catKh162 : addRotatedLoop (fun e acc => addRotatedOrientations 1 e acc) 4 catKs0 ([] : List Shape) = (Shape.snap_to_top_left catKs0).bind fun snapped => ((Shape.erect catKs0).bind fun e => (fun e acc => addRotatedOrientations 1 e acc) e (insertShape snapped ([] : List Shape))).bind fun set2 => addRotatedLoop (fun e acc => addRotatedOrientations 1 e acc) 3 (Shape.rotate catKs0) set2 := rfl
theorem catKh163 : Shape.erect catKs0 = some catKs1 := rfl
theorem catKh164 : Shape.snap_to_top_left catKs1 = some catKs1 := rfl
theorem catKh165 : insertShape catKs1 catKt0 = catKt1 := rfl
theorem catKh166 : addRotatedLoop (fun e acc => addRotatedOrientations 0 e acc) 4 catKs1 catKt0 = (Shape.snap_to_top_left catKs1).bind fun snapped => (some (insertShape snapped catKt0)).bind fun set2 => addRotatedLoop (fun e acc => addRotatedOrientations 0 e acc) 3 (Shape.rotate catKs1) set2 := rfl
theorem catKh167 : Shape.rotate catKs1 = catKs2 := rfl
theorem catKh168 : Shape.snap_to_top_left catKs2 = some catKs3 := rfl
theorem catKh169 : insertShape catKs3 catKt1 = catKt2 := rfl
theorem catKh170 : addRotatedLoop (fun e acc => addRotatedOrientations 0 e acc) 3 catKs2 catKt1 = (Shape.snap_to_top_left catKs2).bind fun snapped => (some (insertShape snapped catKt1)).bind fun set2 => addRotatedLoop (fun e acc => addRotatedOrientations 0 e acc) 2 (Shape.rotate catKs2) set2 := rfl
theorem catKh171 : Shape.rotate catKs2 = catKs4 := rfl
theorem catKh172 : Shape.snap_to_top_left catKs4 = some catKs1 := rfl
theorem catKh173 : insertShape catKs1 catKt2 = catKt2 := rfl
theorem catKh174 : addRotatedLoop (fun e acc => addRotatedOrientations 0 e acc) 2 catKs4 catKt2 = (Shape.snap_to_top_left catKs4).bind fun snapped => (some (insertShape snapped catKt2)).bind fun set2 => addRotatedLoop (fun e acc => addRotatedOrientations 0 e acc) 1 (Shape.rotate catKs4) set2 := rfl
theorem catKh175 : Shape.rotate catKs4 = catKs5 := rfl
theorem catKh176 : Shape.snap_to_top_left catKs5 = some catKs3 := rfl
theorem catKh177 : insertShape catKs3 catKt2 = catKt2 := rfl
theorem catKh178 : addRotatedLoop (fun e acc => addRotatedOrientations 0 e acc) 1 catKs5 catKt2 = (Shape.snap_to_top_left catKs5).bind fun snapped => (some (insertShape snapped catKt2)).bind fun set2 => addRotatedLoop (fun e acc => addRotatedOrientations 0 e acc) 0 (Shape.rotate catKs5) set2 := rfl
theorem catKh184 : Shape.rotate catKs0 = catKs6 := rfl
theorem catKh185 : Shape.snap_to_top_left catKs6 = some catKs0 := rfl
theorem catKh186 : insertShape catKs0 catKt2 = catKt2 := rfl
theorem catKh187 : addRotatedLoop (fun e acc => addRotatedOrientations 1 e acc) 3 catKs6 catKt2 = (Shape.snap_to_top_left catKs6).bind fun snapped => ((Shape.erect catKs6).bind fun e => (fun e acc => addRotatedOrientations 1 e acc) e (insertShape snapped catKt2)).bind fun set2 => addRotatedLoop (fun e acc => addRotatedOrientations 1 e acc) 2 (Shape.rotate catKs6) set2 := rfl
theorem catKh188 : Shape.erect catKs6 = some catKs1 := rfl
theorem catKh189 : addRotatedLoop (fun e acc => addRotatedOrientations 0 e acc) 4 catKs1 catKt2 = (Shape.snap_to_top_left catKs1).bind fun snapped => (some (insertShape snapped catKt2)).bind fun set2 => addRotatedLoop (fun e acc => addRotatedOrientations 0 e acc) 3 (Shape.rotate catKs1) set2 := rfl
theorem catKh190 : addRotatedLoop (fun e acc => addRotatedOrientations 0 e acc) 3 catKs2 catKt2 = (Shape.snap_to_top_left catKs2).bind fun snapped => (some (insertShape snapped catKt2)).bind fun set2 => addRotatedLoop (fun e acc => addRotatedOrientations 0 e acc) 2 (Shape.rotate catKs2) set2 := rfl
theorem catKh194 : Shape.rotate catKs6 = catKs7 := rfl
theorem catKh195 : Shape.snap_to_top_left catKs7 = some catKs0 := rfl
theorem catKh196 : addRotatedLoop (fun e acc => addRotatedOrientations 1 e acc) 2 catKs7 catKt2 = (Shape.snap_to_top_left catKs7).bind fun snapped => ((Shape.erect catKs7).bind fun e => (fun e acc => addRotatedOrientations 1 e acc) e (insertShape snapped catKt2)).bind fun set2 => addRotatedLoop (fun e acc => addRotatedOrientations 1 e acc) 1 (Shape.rotate catKs7) set2 := rfl
theorem catKh197 : Shape.erect catKs7 = some catKs1 := rfl
theorem catKh198 : Shape.rotate catKs7 = catKs8 := rfl
theorem catKh199 : Shape.snap_to_top_left catKs8 = some catKs0 := rfl
theorem catKh200 : addRotatedLoop (fun e acc => addRotatedOrientations 1 e acc) 1 catKs8 catKt2 = (Shape.snap_to_top_left catKs8).bind fun snapped => ((Shape.erect catKs8).bind fun e => (fun e acc => addRotatedOrientations 1 e acc) e (insertShape snapped catKt2)).bind fun set2 => addRotatedLoop (fun e acc => addRotatedOrientations 1 e acc) 0 (Shape.rotate catKs8) set2 := rfl
theorem catKh201 : Shape.erect catKs8 = some catKs1 := rfl
theorem catKh207 : Shape.reflect catKs0 = catKs0 := rfl
theorem catKh208 : addRotatedLoop (fun e acc => addRotatedOrientations 1 e acc) 4 catKs0 catKt2 = (Shape.snap_to_top_left catKs0).bind fun snapped => ((Shape.erect catKs0).bind fun e => (fun e acc => addRotatedOrientations 1 e acc) e (insertShape snapped catKt2)).bind fun set2 => addRotatedLoop (fun e acc => addRotatedOrientations 1 e acc) 3 (Shape.rotate catKs0) set2 := rfl
theorem catKh211 : sortByToInt catKt2 = catKt3 := rfl
theorem catKh212 : PIECES 'K' = Piece.parse "KK\nKK" 'K' := rfl

attribute [irreducible] insertShape insertSortedByToInt sortByToInt Shape.snap_to_top_left Shape.erect Shape.rotate Shape.reflect Shape.parse baseShapeOfCells addRotatedLoop addRotatedOrientations addMirroredOrientations shift shiftLoop applyShift transformEachLayer2d snapUpInstruction snapLeftInstruction erectDownInstruction parseOffsets parseOffsetStep parseFillStep shapeGridHasTrue Piece.parse PIECES

/-! ## Catalog assembly -/

theorem catHh21 : addRotatedLoop (fun e acc => addRotatedOrientations 0 e acc) 1 catHs5 catHt2 = some catHt2 := by simp only [catHh20, catHh18, catHh19, addRotatedLoop_zero, Option.some_bind]
theorem catHh22 : addRotatedLoop (fun e acc => addRotatedOrientations 0 e acc) 2 catHs4 catHt2 = some catHt2 := by simp only [catHh16, catHh14, catHh15, catHh17, catHh21, Option.some_bind]
theorem catHh23 : addRotatedLoop (fun e acc => addRotatedOrientations 0 e acc) 3 catHs2 catHt1 = some catHt2 := by simp only [catHh12, catHh10, catHh11, catHh13, catHh22, Option.some_bind]
theorem catHh24 : addRotatedLoop (fun e acc => addRotatedOrientations 0 e acc) 4 catHs1 catHt0 = some catHt2 := by simp only [catHh8, catHh6, catHh7, catHh9, catHh23, Option.some_bind]
theorem catHh25 : addRotatedOrientations 1 catHs1 catHt0 = some catHt2 := by simp only [addRotatedOrientations_one, catHh24]
theorem catHh46 : addRotatedLoop (fun e acc => addRotatedOrientations 0 e acc) 1 catHs11 catHt6 = some catHt7 := by simp only [catHh45, catHh43, catHh44, addRotatedLoop_zero, Option.some_bind]
theorem catHh47 : addRotatedLoop (fun e acc => addRotatedOrientations 0 e acc) 2 catHs10 catHt5 = some catHt7 := by simp only [catHh41, catHh39, catHh40, catHh42, catHh46, Option.some_bind]
theorem catHh48 : addRotatedLoop (fun e acc => addRotatedOrientations 0 e acc) 3 catHs9 catHt4 = some catHt7 := by simp only [catHh37, catHh35, catHh36, catHh38, catHh47, Option.some_bind]
theorem catHh49 : addRotatedLoop (fun e acc => addRotatedOrientations 0 e acc) 4 catHs8 catHt3 = some catHt7 := by simp only [catHh33, catHh31, catHh32, catHh34, catHh48, Option.some_bind]
theorem catHh50 : addRotatedOrientations 1 catHs8 catHt3 = some catHt7 := by simp only [addRotatedOrientations_one, catHh49]
theorem catHh71 : addRotatedLoop (fun e acc => addRotatedOrientations 0 e acc) 1 catHs18 catHt10 = some catHt10 := by simp only [catHh70, catHh68, catHh69, addRotatedLoop_zero, Option.some_bind]
theorem catHh72 : addRotatedLoop (fun e acc => addRotatedOrientations 0 e acc) 2 catHs17 catHt10 = some catHt10 := by simp only [catHh66, catHh64, catHh65, catHh67, catHh71, Option.some_bind]
theorem catHh73 : addRotatedLoop (fun e acc => addRotatedOrientations 0 e acc) 3 catHs15 catHt9 = some catHt10 := by simp only [catHh62, catHh60, catHh61, catHh63, catHh72, Option.some_bind]
theorem catHh74 : addRotatedLoop (fun e acc => addRotatedOrientations 0 e acc) 4 catHs14 catHt8 = some catHt10 := by simp only [catHh58, catHh56, catHh57, catHh59, catHh73, Option.some_bind]
theorem catHh75 : addRotatedOrientations 1 catHs14 catHt8 = some catHt10 := by simp only [addRotatedOrientations_one, catHh74]
theorem catHh90 : addRotatedLoop (fun e acc => addRotatedOrientations 0 e acc) 1 catHs9 catHt11 = some catHt11 := by simp only [catHh89, catHh35, catHh88, addRotatedLoop_zero, Option.some_bind]
theorem catHh91 : addRotatedLoop (fun e acc => addRotatedOrientations 0 e acc) 2 catHs8 catHt11 = some catHt11 := by simp only [catHh87, catHh31, catHh86, catHh34, catHh90, Option.some_bind]
theorem catHh92 : addRotatedLoop (fun e acc => addRotatedOrientations 0 e acc) 3 catHs11 catHt11 = some catHt11 := by simp only [catHh84, catHh43, catHh83, catHh85, catHh91, Option.some_bind]
theorem catHh93 : addRotatedLoop (fun e acc => addRotatedOrientations 0 e acc) 4 catHs10 catHt11 = some catHt11 := by simp only [catHh82, catHh39, catHh81, catHh42, catHh92, Option.some_bind]
theorem catHh94 : addRotatedOrientations 1 catHs10 catHt11 = some catHt11 := by simp only [addRotatedOrientations_one, catHh93]
theorem catHh95 : addRotatedLoop (fun e acc => addRotatedOrientations 1 e acc) 1 catHs19 catHt10 = some catHt11 := by simp only [catHh79, catHh77, catHh78, catHh80, catHh94, addRotatedLoop_zero, Option.some_bind]
theorem catHh96 : addRotatedLoop (fun e acc => addRotatedOrientations 1 e acc) 2 catHs12 catHt7 = some catHt11 := by simp only [catHh54, catHh52, catHh53, catHh55, catHh75, catHh76, catHh95, Option.some_bind]
theorem catHh97 : addRotatedLoop (fun e acc => addRotatedOrientations 1 e acc) 3 catHs6 catHt2 = some catHt11 := by simp only [catHh29, catHh27, catHh28, catHh30, catHh50, catHh51, catHh96, Option.some_bind]
theorem catHh98 : addRotatedLoop (fun e acc => addRotatedOrientations 1 e acc) 4 catHs0 ([] : List Shape) = some catHt11 := by simp only [catHh4, catHh2, catHh3, catHh5, catHh25, catHh26, catHh97, Option.some_bind]
theorem catHh99 : addRotatedOrientations 2 catHs0 ([] : List Shape) = some catHt11 := by simp only [addRotatedOrientations_two, catHh98]
theorem catHh111 : addRotatedLoop (fun e acc => addRotatedOrientations 0 e acc) 1 catHs18 catHt11 = some catHt11 := by simp only [catHh110, catHh68, catHh107, addRotatedLoop_zero, Option.some_bind]
theorem catHh112 : addRotatedLoop (fun e acc => addRotatedOrientations 0 e acc) 2 catHs17 catHt11 = some catHt11 := by simp only [catHh109, catHh64, catHh105, catHh67, catHh111, Option.some_bind]
theorem catHh113 : addRotatedLoop (fun e acc => addRotatedOrientations 0 e acc) 3 catHs15 catHt11 = some catHt11 := by simp only [catHh108, catHh60, catHh107, catHh63, catHh112, Option.some_bind]
theorem catHh114 : addRotatedLoop (fun e acc => addRotatedOrientations 0 e acc) 4 catHs14 catHt11 = some catHt11 := by simp only [catHh106, catHh56, catHh105, catHh59, catHh113, Option.some_bind]
theorem catHh115 : addRotatedOrientations 1 catHs14 catHt11 = some catHt11 := by simp only [addRotatedOrientations_one, catHh114]
theorem catHh132 : addRotatedLoop (fun e acc => addRotatedOrientations 0 e acc) 1 catHs5 catHt11 = some catHt11 := by simp only [catHh131, catHh18, catHh128, addRotatedLoop_zero, Option.some_bind]
theorem catHh133 : addRotatedLoop (fun e acc => addRotatedOrientations 0 e acc) 2 catHs4 catHt11 = some catHt11 := by simp only [catHh130, catHh14, catHh126, catHh17, catHh132, Option.some_bind]
theorem catHh134 : addRotatedLoop (fun e acc => addRotatedOrientations 0 e acc) 3 catHs2 catHt11 = some catHt11 := by simp only [catHh129, catHh10, catHh128, catHh13, catHh133, Option.some_bind]
theorem catHh135 : addRotatedLoop (fun e acc => addRotatedOrientations 0 e acc) 4 catHs1 catHt11 = some catHt11 := by simp only [catHh127, catHh6, catHh126, catHh9, catHh134, Option.some_bind]
theorem catHh136 : addRotatedOrientations 1 catHs1 catHt11 = some catHt11 := by simp only [addRotatedOrientations_one, catHh135]
theorem catHh146 : addRotatedLoop (fun e acc => addRotatedOrientations 0 e acc) 1 catHs11 catHt11 = some catHt11 := by simp only [catHh145, catHh43, catHh83, addRotatedLoop_zero, Option.some_bind]
theorem catHh147 : addRotatedLoop (fun e acc => addRotatedOrientations 0 e acc) 2 catHs10 catHt11 = some catHt11 := by simp only [catHh144, catHh39, catHh81, catHh42, catHh146, Option.some_bind]
theorem catHh148 : addRotatedLoop (fun e acc => addRotatedOrientations 0 e acc) 3 catHs9 catHt11 = some catHt11 := by simp only [catHh143, catHh35, catHh88, catHh38, catHh147, Option.some_bind]
theorem catHh149 : addRotatedLoop (fun e acc => addRotatedOrientations 0 e acc) 4 catHs8 catHt11 = some catHt11 := by simp only [catHh142, catHh31, catHh86, catHh34, catHh148, Option.some_bind]
theorem catHh150 : addRotatedOrientations 1 catHs8 catHt11 = some catHt11 := by simp only [addRotatedOrientations_one, catHh149]
theorem catHh151 : addRotatedLoop (fun e acc => addRotatedOrientations 1 e acc) 1 catHs23 catHt11 = some catHt11 := by simp only [catHh140, catHh138, catHh139, catHh141, catHh150, addRotatedLoop_zero, Option.some_bind]
theorem catHh152 : addRotatedLoop (fun e acc => addRotatedOrientations 1 e acc) 2 catHs22 catHt11 = some catHt11 := by simp only [catHh124, catHh122, catHh123, catHh125, catHh136, catHh137, catHh151, Option.some_bind]
theorem catHh153 : addRotatedLoop (fun e acc => addRotatedOrientations 1 e acc) 3 catHs21 catHt11 = some catHt11 := by simp only [catHh119, catHh117, catHh118, catHh120, catHh94, catHh121, catHh152, Option.some_bind]
theorem catHh154 : addRotatedLoop (fun e acc => addRotatedOrientations 1 e acc) 4 catHs13 catHt11 = some catHt11 := by simp only [catHh103, catHh101, catHh102, catHh104, catHh115, catHh116, catHh153, Option.some_bind]
theorem catHh155 : addRotatedOrientations 2 catHs13 catHt11 = some catHt11 := by simp only [addRotatedOrientations_two, catHh154]
theorem catKh179 : addRotatedLoop (fun e acc => addRotatedOrientations 0 e acc) 1 catKs5 catKt2 = some catKt2 := by simp only [catKh178, catKh176, catKh177, addRotatedLoop_zero, Option.some_bind]
theorem catKh180 : addRotatedLoop (fun e acc => addRotatedOrientations 0 e acc) 2 catKs4 catKt2 = some catKt2 := by simp only [catKh174, catKh172, catKh173, catKh175, catKh179, Option.some_bind]
theorem catKh181 : addRotatedLoop (fun e acc => addRotatedOrientations 0 e acc) 3 catKs2 catKt1 = some catKt2 := by simp only [catKh170, catKh168, catKh169, catKh171, catKh180, Option.some_bind]
theorem catKh182 : addRotatedLoop (fun e acc => addRotatedOrientations 0 e acc) 4 catKs1 catKt0 = some catKt2 := by simp only [catKh166, catKh164, catKh165, catKh167, catKh181, Option.some_bind]
theorem catKh183 : addRotatedOrientations 1 catKs1 catKt0 = some catKt2 := by simp only [addRotatedOrientations_one, catKh182]
theorem catKh191 : addRotatedLoop (fun e acc => addRotatedOrientations 0 e acc) 3 catKs2 catKt2 = some catKt2 := by simp only [catKh190, catKh168, catKh177, catKh171, catKh180, Option.some_bind]
theorem catKh192 : addRotatedLoop (fun e acc => addRotatedOrientations 0 e acc) 4 catKs1 catKt2 = some catKt2 := by simp only [catKh189, catKh164, catKh173, catKh167, catKh191, Option.some_bind]
theorem catKh193 : addRotatedOrientations 1 catKs1 catKt2 = some catKt2 := by simp only [addRotatedOrientations_one, catKh192]
theorem catKh202 : addRotatedLoop (fun e acc => addRotatedOrientations 1 e acc) 1 catKs8 catKt2 = some catKt2 := by simp only [catKh200, catKh199, catKh186, catKh201, catKh193, addRotatedLoop_zero, Option.some_bind]
theorem catKh203 : addRotatedLoop (fun e acc => addRotatedOrientations 1 e acc) 2 catKs7 catKt2 = some catKt2 := by simp only [catKh196, catKh195, catKh186, catKh197, catKh193, catKh198, catKh202, Option.some_bind]
theorem catKh204 : addRotatedLoop (fun e acc => addRotatedOrientations 1 e acc) 3 catKs6 catKt2 = some catKt2 := by simp only [catKh187, catKh185, catKh186, catKh188, catKh193, catKh194, catKh203, Option.some_bind]
theorem catKh205 : addRotatedLoop (fun e acc => addRotatedOrientations 1 e acc) 4 catKs0 ([] : List Shape) = some catKt2 := by simp only [catKh162, catKh160, catKh161, catKh163, catKh183, catKh184, catKh204, Option.some_bind]
theorem catKh206 : addRotatedOrientations 2 catKs0 ([] : List Shape) = some catKt2 := by simp only [addRotatedOrientations_two, catKh205]
theorem catKh209 : addRotatedLoop (fun e acc => addRotatedOrientations 1 e acc) 4 catKs0 catKt2 = some catKt2 := by simp only [catKh208, catKh160, catKh186, catKh163, catKh193, catKh184, catKh204, Option.some_bind]
theorem catKh210 : addRotatedOrientations 2 catKs0 catKt2 = some catKt2 := by simp only [addRotatedOrientations_two, catKh209]
theorem catalog_H : PIECES 'H' = some (Piece.mk 'H' catHt12) := by
  simp only [catHh157, piece_parse_unfold, catHh0, Option.some_bind, generate_orientations_unfold, catHh1, catHh99, addMirroredOrientations_unfold, catHh100, catHh155, catHh156, Option.map_some']
theorem catalog_K : PIECES 'K' = some (Piece.mk 'K' catKt3) := by
  simp only [catKh212, piece_parse_unfold, catKh158, Option.some_bind, generate_orientations_unfold, catKh159, catKh206, addMirroredOrientations_unfold, catKh207, catKh210, catKh211, Option.map_some']

/-! ## Claim proofs over the evaluated catalog -/

/-! ### Claim C3: the orientation count of piece K -/

/-- C3: corrected.  The catalog piece `'K'` (the 2×2 square) has THREE
orientations, not one: `generate_orientations` always also erects the flat
square into its 3-D diagonal form, and the mirrored pass contributes a
distinct erected variant. -/
theorem claim_C3 :
    (PIECES 'K').map (fun p => p.orientations.length) = some 3 := by
  rw [catalog_K]
  rfl

/-- C3 counterexample: the claimed count (exactly 1 orientation for the
2×2 square) is false. -/
theorem claim_C3_cx :
    ¬ ((PIECES 'K').map (fun p => p.orientations.length) = some 1) := by
  rw [catalog_K]
  decide

/-- C8 witness: the duplicate-freedom statement applied to the evaluated
catalog piece `'K'`. -/
theorem claim_C8_witness : (Piece.mk 'K' catKt3).orientations.Nodup :=
  claim_C8 'K' (Piece.mk 'K' catKt3) catalog_K

/-- C8 counterexample: in the evaluated catalog, piece `'H'` has two
structurally different normalised orientations with the SAME canonical
encoding `to_int` value (353) — the encoding is not injective on distinct
normalised orientations, contrary to the claim's justification. -/
theorem claim_C8_cx :
    PIECES 'H' = some (Piece.mk 'H' catHt12)
    ∧ catHs0 ∈ catHt12
    ∧ catHs7 ∈ catHt12
    ∧ catHs0 ≠ catHs7
    ∧ to_int catHs0 = to_int catHs7 := by
  refine ⟨catalog_H, by decide, by decide, by decide, by decide⟩



end Kanoodle
